import Mathlib

/-!
# Export handle of the ewftools (ewftools/export_handle.c)

A shallow embedding of the export handle: the session record `export_handle_t`, the chunk
buffer `storage_media_buffer_t`, and the functions that read, prepare, write and book-keep
errors.  C functions that return a status and mutate the handle become functions that return
the status together with the new handle.  The two compile-time transfer strategies of the
source (`HAVE_LOW_LEVEL_FUNCTIONS` defined or not) are selected by a Boolean argument.

The container libraries (libewf, libsmraw), the digest primitives and libc are collaborators:
what a collaborator answers is an explicit argument of the embedded function (a record of
answers), what it is asked to store is kept in a small record per handle.

Conventions
* a pointer that may be NULL is an `Option`; the handle and buffer arguments themselves are
  taken as present (their NULL checks are the first statements of every function);
* `int`/`ssize_t` status values are `Int` with the source's codes (1, 0, -1);
* unsigned sizes are `Nat`; `off64_t` values are `Int`, converted to `uint64_t` modulo 2^64
  where the source converts them; sizes of buffers fit `ssize_t`, so that the casts of a
  `size_t` to `ssize_t` keep the value, and `input_offset += process_count` is taken without
  overflow (an overflow of the signed offset is undefined in C);
* a function with a call that does not return has an `Option` result, `none` being that call:
  export_handle_create_target_path where it releases memory that no allocation returned, and
  with it the export of a file entry; export_handle_checksum_errors_fprint where the rounds
  given to its inner loop do not suffice.
-/

namespace ExportHandle

/-! ## Constants of headers that accompany the source file -/

/-- Modelled from the spec: output format code of the evidence container
(EXPORT_HANDLE_OUTPUT_FORMAT_EWF of export_handle.h, a header that is not among the sources);
a nonzero byte different from the raw format code. -/
def EXPORT_HANDLE_OUTPUT_FORMAT_EWF : Nat := 101

/-- Modelled from the spec: output format code of the raw container
(EXPORT_HANDLE_OUTPUT_FORMAT_RAW of export_handle.h, a header that is not among the sources);
a nonzero byte different from the evidence format code. -/
def EXPORT_HANDLE_OUTPUT_FORMAT_RAW : Nat := 114

/-- Modelled from the spec: compression level "none" of the container library
(LIBEWF_COMPRESSION_NONE, declared in a libewf header that is not among the sources). -/
def LIBEWF_COMPRESSION_NONE : Int := 0

/-- Modelled from the spec: the "compress empty block" bit of the compression flags
(LIBEWF_FLAG_COMPRESS_EMPTY_BLOCK, declared in a libewf header that is not among the sources). -/
def LIBEWF_FLAG_COMPRESS_EMPTY_BLOCK : Nat := 1

/-- Modelled from the spec: sub-format codes of the container library that receive a GUID
(declared in a libewf header that is not among the sources). -/
def LIBEWF_FORMAT_ENCASE5 : Nat := 5

/-- Modelled from the spec: see LIBEWF_FORMAT_ENCASE5. -/
def LIBEWF_FORMAT_ENCASE6 : Nat := 6

/-- Modelled from the spec: see LIBEWF_FORMAT_ENCASE5. -/
def LIBEWF_FORMAT_LINEN5 : Nat := 37

/-- Modelled from the spec: see LIBEWF_FORMAT_ENCASE5. -/
def LIBEWF_FORMAT_LINEN6 : Nat := 38

/-- Modelled from the spec: see LIBEWF_FORMAT_ENCASE5. -/
def LIBEWF_FORMAT_EWFX : Nat := 113

/-- Modelled from the spec: GUID kind "random" (GUID_TYPE_RANDOM of guid.h, not among the
sources); nonzero. -/
def GUID_TYPE_RANDOM : Nat := 114

/-- Modelled from the spec: GUID kind "time based" (GUID_TYPE_TIME of guid.h, not among the
sources); nonzero. -/
def GUID_TYPE_TIME : Nat := 116

/-- The block size of the file entry export, line 68. -/
def EXPORT_HANDLE_BUFFER_SIZE : Nat := 8192

/-! ## Collaborator handles -/

/-- Modelled from the spec: the evidence container handle (libewf_handle_t) as far as this
file observes it: the media values it reports, the two error ledgers (checksum errors of a
container that is read, acquisition errors of a container that is written), the values the
configuration step stores and the data handed over for writing. -/
structure libewf_handle_t where
  chunk_size : Nat
  bytes_per_sector : Nat
  media_size : Nat
  sectors_per_chunk : Nat
  read_wipe_chunk_on_error : Nat
  checksum_errors : List (Nat × Nat)
  acquiry_errors : List (Nat × Nat)
  header_values : List (String × String)
  header_codepage : Int
  compression_level : Int
  compression_flags : Nat
  format : Nat
  segment_file_size : Nat
  guid : Option (List Nat)
  is_open : Bool
  abort : Bool
  written : List (List Nat)
  current_offset : Int
deriving DecidableEq

/-- Modelled from the spec: the raw container handle (libsmraw_handle_t) as far as this file
observes it. -/
structure libsmraw_handle_t where
  media_size : Nat
  maximum_segment_size : Nat
  is_open : Bool
  abort : Bool
  written : List (List Nat)
deriving DecidableEq

/-- Modelled from the spec: the handle libewf_handle_initialize creates: nothing recorded,
nothing set. -/
def libewf_handle_new : libewf_handle_t :=
  { chunk_size := 0, bytes_per_sector := 0, media_size := 0, sectors_per_chunk := 0,
    read_wipe_chunk_on_error := 0, checksum_errors := [], acquiry_errors := [],
    header_values := [], header_codepage := 0, compression_level := 0,
    compression_flags := 0, format := 0, segment_file_size := 0, guid := none,
    is_open := false, abort := false, written := [], current_offset := 0 }

/-! ## The records of the tool -/

/-- The chunk buffer (storage_media_buffer_t of storage_media_buffer.h), with the fields
this file reads and writes.  A buffer is its bytes; its capacity is a field of its own, as in
the source. -/
structure storage_media_buffer_t where
  raw_buffer : List Nat
  raw_buffer_size : Nat
  raw_buffer_data_size : Nat
  compression_buffer : List Nat
  compression_buffer_size : Nat
  compression_buffer_data_size : Nat
  is_compressed : Nat
  checksum : Nat
  process_checksum : Nat
  data_in_compression_buffer : Nat
deriving DecidableEq

/-- The export handle (export_handle_t of export_handle.h), with every field the source file
uses. -/
structure export_handle_t where
  calculate_md5 : Nat
  calculate_sha1 : Nat
  calculated_md5_hash_string : Option String
  calculated_sha1_hash_string : Option String
  input_handle : Option libewf_handle_t
  ewf_output_handle : Option libewf_handle_t
  raw_output_handle : Option libsmraw_handle_t
  output_format : Nat
  use_stdout : Nat
  input_chunk_size : Nat
  bytes_per_sector : Nat
  input_offset : Int
  wipe_chunk_on_error : Nat
  write_compressed : Int
deriving DecidableEq

/-- The checksum errors recorded against the input container (empty without a handle). -/
def input_checksum_errors (export_handle : export_handle_t) : List (Nat × Nat) :=
  match export_handle.input_handle with
  | some handle => handle.checksum_errors
  | none => []

/-- The acquisition errors recorded against the evidence output container (empty without a
handle). -/
def output_acquiry_errors (export_handle : export_handle_t) : List (Nat × Nat) :=
  match export_handle.ewf_output_handle with
  | some handle => handle.acquiry_errors
  | none => []

/-! ## libc and library calls -/

/-- The libc memset behind memory_set: writes `size` bytes of `value` at the start of the
buffer.  It returns its first argument, so the NULL tests of the source never fire on a
buffer that exists. -/
def memory_set (buffer : List Nat) (value size : Nat) : List Nat :=
  List.replicate size value ++ buffer.drop size

/-- Conversion of a signed 64-bit value to uint64_t. -/
def to_uint64 (value : Int) : Nat :=
  (value % (2 ^ 64 : Int)).toNat

/-- Modelled from the spec: libewf_handle_append_checksum_error; when the library answers 1
the range is added at the end of the ledger of checksum errors, ranges are not merged. -/
def libewf_handle_append_checksum_error (answer : Int) (handle : libewf_handle_t)
    (start_sector number_of_sectors : Nat) : Int × libewf_handle_t :=
  if answer = 1 then
    (1, { handle with
          checksum_errors := handle.checksum_errors ++ [(start_sector, number_of_sectors)] })
  else (answer, handle)

/-- Modelled from the spec: libewf_handle_append_acquiry_error; when the library answers 1
the range is added at the end of the ledger of acquisition errors, ranges are not merged. -/
def libewf_handle_append_acquiry_error (answer : Int) (handle : libewf_handle_t)
    (start_sector number_of_sectors : Nat) : Int × libewf_handle_t :=
  if answer = 1 then
    (1, { handle with
          acquiry_errors := handle.acquiry_errors ++ [(start_sector, number_of_sectors)] })
  else (answer, handle)

/-- What the container library answers during one pass of read, prepare and error
book-keeping: the result of libewf_handle_prepare_read_chunk with the raw bytes and the raw
data size it leaves behind, and the results of the two ledger calls. -/
structure libewf_answers_t where
  prepare_read_chunk : Int
  prepare_read_chunk_raw_buffer : List Nat
  prepare_read_chunk_raw_buffer_data_size : Nat
  append_checksum_error : Int
  append_acquiry_error : Int
deriving DecidableEq

/-! ## export_handle_append_read_error (lines 2574-2670) -/

/-- Line 2619: start_sector = start_offset / bytes_per_sector, an off64_t divided by a
uint32_t (signed division, truncating) and stored in a uint64_t. -/
def start_sector (start_offset : Int) (bytes_per_sector : Nat) : Nat :=
  to_uint64 (Int.tdiv start_offset (bytes_per_sector : Int))

/-- Line 2620: number_of_sectors = number_of_bytes / bytes_per_sector, unsigned. -/
def number_of_sectors (number_of_bytes bytes_per_sector : Nat) : Nat :=
  number_of_bytes / bytes_per_sector

/-- The output side of export_handle_append_read_error, lines 2639-2669. -/
def append_read_error_output (lib : libewf_answers_t) (export_handle : export_handle_t)
    (sector count : Nat) : Int × export_handle_t :=
  if export_handle.output_format = EXPORT_HANDLE_OUTPUT_FORMAT_EWF then
    match export_handle.ewf_output_handle with
    | none => (-1, export_handle)
    | some output =>
      let appended :=
        libewf_handle_append_acquiry_error lib.append_acquiry_error output sector count
      if appended.1 ≠ 1 then
        (-1, { export_handle with ewf_output_handle := some appended.2 })
      else
        (1, { export_handle with ewf_output_handle := some appended.2 })
  else (1, export_handle)

/-- Appends a read error to the output handle; returns 1 if successful or -1 on error
(lines 2574-2670). -/
def export_handle_append_read_error (have_low_level_functions : Bool)
    (lib : libewf_answers_t) (export_handle : export_handle_t) (start_offset : Int)
    (number_of_bytes : Nat) : Int × export_handle_t :=
  if have_low_level_functions && export_handle.input_handle.isNone then
    (-1, export_handle)
  else if export_handle.bytes_per_sector = 0 then
    (-1, export_handle)
  else
    let sector := start_sector start_offset export_handle.bytes_per_sector
    let count := number_of_sectors number_of_bytes export_handle.bytes_per_sector
    if have_low_level_functions then
      match export_handle.input_handle with
      | none => (-1, export_handle)
      | some input =>
        let appended :=
          libewf_handle_append_checksum_error lib.append_checksum_error input sector count
        if appended.1 ≠ 1 then
          (-1, { export_handle with input_handle := some appended.2 })
        else
          append_read_error_output lib
            { export_handle with input_handle := some appended.2 } sector count
    else
      append_read_error_output lib export_handle sector count

/-! ## export_handle_prepare_read_buffer (lines 1111-1238) -/

/-- Modelled from the spec: libewf_handle_prepare_read_chunk; it returns the library's
answer and leaves the raw bytes and the raw data size the library produced. -/
def libewf_handle_prepare_read_chunk (lib : libewf_answers_t)
    (storage_media_buffer : storage_media_buffer_t) : Int × storage_media_buffer_t :=
  (lib.prepare_read_chunk,
   { storage_media_buffer with
     raw_buffer := lib.prepare_read_chunk_raw_buffer,
     raw_buffer_data_size := lib.prepare_read_chunk_raw_buffer_data_size })

/-- Lines 1173-1204: the wipe of the chunk when the handle's wipe_chunk_on_error is set. -/
def wipe_chunk (export_handle : export_handle_t)
    (storage_media_buffer : storage_media_buffer_t) : storage_media_buffer_t :=
  if export_handle.wipe_chunk_on_error ≠ 0 then
    let wiped :=
      if storage_media_buffer.is_compressed ≠ 0 then
        { storage_media_buffer with
          compression_buffer :=
            memory_set storage_media_buffer.compression_buffer 0
              storage_media_buffer.compression_buffer_size }
      else storage_media_buffer
    { wiped with raw_buffer := memory_set wiped.raw_buffer 0 wiped.raw_buffer_size }
  else storage_media_buffer

/-- Lines 1225-1233: the flag of the buffer and the advance of input_offset. -/
def prepare_read_buffer_finish (export_handle : export_handle_t)
    (storage_media_buffer : storage_media_buffer_t) (process_count : Int) :
    Int × export_handle_t × storage_media_buffer_t :=
  (process_count,
   { export_handle with input_offset := export_handle.input_offset + process_count },
   { storage_media_buffer with
     data_in_compression_buffer := if storage_media_buffer.is_compressed = 0 then 1 else 0 })

/-- Prepares a buffer after reading the input of the export handle; returns the resulting
buffer size or -1 on error (lines 1111-1238). -/
def export_handle_prepare_read_buffer (have_low_level_functions : Bool)
    (lib : libewf_answers_t) (export_handle : export_handle_t)
    (storage_media_buffer : storage_media_buffer_t) :
    Int × export_handle_t × storage_media_buffer_t :=
  match export_handle.input_handle with
  | none => (-1, export_handle, storage_media_buffer)
  | some _ =>
    if have_low_level_functions then
      let prepared :=
        libewf_handle_prepare_read_chunk lib
          { storage_media_buffer with
            raw_buffer_data_size := storage_media_buffer.raw_buffer_size }
      if prepared.1 = -1 then
        let wiped := wipe_chunk export_handle prepared.2
        let appended :=
          export_handle_append_read_error have_low_level_functions lib export_handle
            export_handle.input_offset export_handle.input_chunk_size
        if appended.1 ≠ 1 then
          (-1, appended.2, wiped)
        else
          prepare_read_buffer_finish appended.2 wiped (export_handle.input_chunk_size : Int)
      else
        prepare_read_buffer_finish export_handle prepared.2 prepared.1
    else
      ((storage_media_buffer.raw_buffer_data_size : Int), export_handle, storage_media_buffer)

/-- One chunk as the transfer loop meets it: the byte count a successful preparation of the
chunk reports, whether its verification fails, the buffer as the read left it, and what the
library does with the raw bytes and answers to the ledger calls. -/
structure chunk_t where
  nominal_size : Nat
  fails_verification : Bool
  storage_media_buffer : storage_media_buffer_t
  raw_buffer : List Nat
  raw_buffer_data_size : Nat
  append_checksum_error : Int
  append_acquiry_error : Int
deriving DecidableEq

/-- The answers of the library for one chunk: -1 from the preparation when the verification
fails, the nominal size otherwise. -/
def chunk_t.answers (chunk : chunk_t) : libewf_answers_t :=
  { prepare_read_chunk := if chunk.fails_verification then -1 else (chunk.nominal_size : Int),
    prepare_read_chunk_raw_buffer := chunk.raw_buffer,
    prepare_read_chunk_raw_buffer_data_size := chunk.raw_buffer_data_size,
    append_checksum_error := chunk.append_checksum_error,
    append_acquiry_error := chunk.append_acquiry_error }

/-- Modelled from the spec: the read side of the transfer loop (the loop itself is in the
export tool, not in this file): export_handle_prepare_read_buffer is called once per chunk,
in order, and the loop is left at the first call that returns -1.  The status is 1 when all
chunks were prepared. -/
def prepare_read_buffer_loop (have_low_level_functions : Bool) :
    export_handle_t → List chunk_t → Int × export_handle_t
  | export_handle, [] => (1, export_handle)
  | export_handle, chunk :: chunks =>
    let prepared :=
      export_handle_prepare_read_buffer have_low_level_functions chunk.answers export_handle
        chunk.storage_media_buffer
    if prepared.1 = -1 then (-1, prepared.2.1)
    else prepare_read_buffer_loop have_low_level_functions prepared.2.1 chunks

/-- The sum of the nominal sizes of the chunks. -/
def nominal_size_sum (chunks : List chunk_t) : Nat :=
  (chunks.map (fun chunk => chunk.nominal_size)).sum

/-- The sum of the byte counts the chunk-level preparation reports: the nominal size of a
chunk that verifies and input_chunk_size for a chunk that fails. -/
def reported_size_sum (input_chunk_size : Nat) (chunks : List chunk_t) : Nat :=
  (chunks.map (fun chunk =>
    if chunk.fails_verification then input_chunk_size else chunk.nominal_size)).sum

/-! ## export_handle_write_buffer (lines 1408-1543) -/

/-- Modelled from the spec: a write call of the evidence container (libewf_handle_write_chunk
or libewf_handle_write_buffer): the bytes handed over are noted on the handle and the
library's answer is returned. -/
def libewf_handle_write (answer : Int) (handle : libewf_handle_t) (data : List Nat) :
    Int × libewf_handle_t :=
  (answer, { handle with written := handle.written ++ [data] })

/-- Modelled from the spec: libsmraw_handle_write_buffer: the bytes handed over are noted on
the handle and the library's answer is returned. -/
def libsmraw_handle_write_buffer (answer : Int) (handle : libsmraw_handle_t)
    (data : List Nat) : Int × libsmraw_handle_t :=
  (answer, { handle with written := handle.written ++ [data] })

/-- Writes a buffer to the output of the export handle; returns the number of bytes written
or -1 on error (lines 1408-1543).  `write_answer` is what the write call of the output
answers, `stdout` the writes made so far on file descriptor 1.  A raw output handle that is
NULL is passed to the library as it is, which rejects it. -/
def export_handle_write_buffer (have_low_level_functions : Bool) (write_answer : Int)
    (export_handle : export_handle_t) (stdout : List (List Nat))
    (storage_media_buffer : storage_media_buffer_t) (write_size : Nat) :
    Int × export_handle_t × List (List Nat) :=
  if write_size = 0 then (0, export_handle, stdout)
  else if export_handle.output_format = EXPORT_HANDLE_OUTPUT_FORMAT_EWF then
    match export_handle.ewf_output_handle with
    | none => (-1, export_handle, stdout)
    | some output =>
      if have_low_level_functions then
        let raw_write_buffer :=
          if storage_media_buffer.is_compressed = 0 then storage_media_buffer.raw_buffer
          else storage_media_buffer.compression_buffer
        let raw_write_buffer_size :=
          if storage_media_buffer.is_compressed = 0 then
            storage_media_buffer.raw_buffer_data_size
          else storage_media_buffer.compression_buffer_data_size
        if write_size ≠ raw_write_buffer_size then (-1, export_handle, stdout)
        else
          let wrote :=
            libewf_handle_write write_answer output
              (raw_write_buffer.take raw_write_buffer_size)
          (if wrote.1 = -1 then -1 else wrote.1,
           { export_handle with ewf_output_handle := some wrote.2 }, stdout)
      else
        let wrote :=
          libewf_handle_write write_answer output
            (storage_media_buffer.raw_buffer.take write_size)
        (if wrote.1 = -1 then -1 else wrote.1,
         { export_handle with ewf_output_handle := some wrote.2 }, stdout)
  else if export_handle.output_format = EXPORT_HANDLE_OUTPUT_FORMAT_RAW then
    if export_handle.use_stdout ≠ 0 then
      (if write_answer = -1 then -1 else write_answer, export_handle,
       stdout ++ [storage_media_buffer.raw_buffer.take write_size])
    else
      match export_handle.raw_output_handle with
      | none => (-1, export_handle, stdout)
      | some output =>
        let wrote :=
          libsmraw_handle_write_buffer write_answer output
            (storage_media_buffer.raw_buffer.take write_size)
        (if wrote.1 = -1 then -1 else wrote.1,
         { export_handle with raw_output_handle := some wrote.2 }, stdout)
  else (0, export_handle, stdout)

/-- Everything handed to an output for writing: the writes noted on the evidence output
handle, on the raw output handle, and on file descriptor 1. -/
def passed_to_output (export_handle : export_handle_t) (stdout : List (List Nat)) :
    List (List Nat) × List (List Nat) × List (List Nat) :=
  ((match export_handle.ewf_output_handle with
    | some handle => handle.written
    | none => []),
   (match export_handle.raw_output_handle with
    | some handle => handle.written
    | none => []),
   stdout)

/-! ## export_handle_initialize (lines 73-181) -/

/-- What the allocator and the three initialisers answer to export_handle_initialize. -/
structure initialize_answers_t where
  memory_allocate : Bool
  libewf_handle_initialize : Int
  md5_initialize : Int
  sha1_initialize : Int
deriving DecidableEq

/-- The handle after memory_set( *export_handle, 0, sizeof( export_handle_t ) ): every field
zero, every pointer NULL (lines 106-109). -/
def export_handle_zero : export_handle_t :=
  { calculate_md5 := 0, calculate_sha1 := 0, calculated_md5_hash_string := none,
    calculated_sha1_hash_string := none, input_handle := none, ewf_output_handle := none,
    raw_output_handle := none, output_format := 0, use_stdout := 0, input_chunk_size := 0,
    bytes_per_sector := 0, input_offset := 0, wipe_chunk_on_error := 0,
    write_compressed := 0 }

/-- Initializes the export handle; returns 1 if successful or -1 on error (lines 73-181).
The argument is the content of *export_handle. -/
def export_handle_initialize (lib : initialize_answers_t)
    (export_handle : Option export_handle_t) : Int × Option export_handle_t :=
  match export_handle with
  | some present => (1, some present)
  | none =>
    if lib.memory_allocate = false then (-1, none)
    else if lib.libewf_handle_initialize ≠ 1 then (-1, none)
    else if lib.md5_initialize ≠ 1 then (-1, none)
    else if lib.sha1_initialize ≠ 1 then (-1, none)
    else (1, some { export_handle_zero with input_handle := some libewf_handle_new })

/-! ## export_handle_open_input (lines 677-843) -/

/-- What the container library answers to export_handle_open_input: the result of the glob
with the names it resolves, the result of the open with the container found in the segment
files, and the results of freeing the names and of reading the chunk size. -/
structure open_input_answers_t where
  libewf_glob : Int
  libewf_filenames : List String
  libewf_handle_open : Int
  container : libewf_handle_t
  libewf_glob_free : Int
  libewf_handle_get_chunk_size : Int
deriving DecidableEq

/-- Opens the input of the export handle; returns 1 if successful or -1 on error
(lines 677-843). -/
def export_handle_open_input (lib : open_input_answers_t) (export_handle : export_handle_t)
    (filenames : Option (List String)) (number_of_filenames : Int) : Int × export_handle_t :=
  match export_handle.input_handle with
  | none => (-1, export_handle)
  | some _ =>
    match filenames with
    | none => (-1, export_handle)
    | some _ =>
      if number_of_filenames ≤ 0 then (-1, export_handle)
      else if number_of_filenames = 1 ∧ lib.libewf_glob ≠ 1 then (-1, export_handle)
      else if lib.libewf_handle_open ≠ 1 then (-1, export_handle)
      else
        let opened : export_handle_t :=
          { export_handle with input_handle := some { lib.container with is_open := true } }
        if number_of_filenames = 1 ∧ lib.libewf_glob_free ≠ 1 then (-1, opened)
        else if lib.libewf_handle_get_chunk_size ≠ 1 then (-1, opened)
        else (1, { opened with input_chunk_size := lib.container.chunk_size })

/-! ## export_handle_set_output_values (lines 2047-2439) -/

/-- What the collaborators answer to export_handle_set_output_values, one result per call in
the order of the source, and the GUID that guid_generate produces. -/
structure set_output_values_answers_t where
  get_bytes_per_sector : Int
  set_read_wipe_chunk_on_error : Int
  copy_header_values : Int
  set_header_value_acquiry_operating_system : Int
  set_header_value_acquiry_software : Int
  set_header_value_acquiry_software_version : Int
  set_header_codepage : Int
  copy_media_values : Int
  set_media_size : Int
  set_compression_values : Int
  set_format : Int
  set_segment_file_size : Int
  set_sectors_per_chunk : Int
  guid_generate : Int
  guid : List Nat
  set_guid : Int
  smraw_set_media_size : Int
  smraw_set_maximum_segment_size : Int
deriving DecidableEq

/-- The arguments of export_handle_set_output_values after the handle. -/
structure output_values_t where
  acquiry_operating_system : Option String
  acquiry_software : String
  acquiry_software_version : String
  header_codepage : Int
  media_size : Nat
  compression_level : Int
  compression_flags : Nat
  libewf_format : Nat
  segment_file_size : Nat
  sectors_per_chunk : Nat
  wipe_chunk_on_error : Nat
deriving DecidableEq

/-- Modelled from the spec: a header value setter of the evidence container stores the value
under its identifier. -/
def libewf_handle_set_header_value (handle : libewf_handle_t) (identifier value : String) :
    libewf_handle_t :=
  { handle with
    header_values :=
      handle.header_values.filter (fun entry => entry.1 ≠ identifier) ++ [(identifier, value)] }

/-- Lines 2358-2369: the GUID kind of a sub-format, 0 when the sub-format has none. -/
def guid_type_of_format (libewf_format : Nat) : Nat :=
  if libewf_format = LIBEWF_FORMAT_ENCASE5 ∨ libewf_format = LIBEWF_FORMAT_ENCASE6
      ∨ libewf_format = LIBEWF_FORMAT_EWFX then GUID_TYPE_RANDOM
  else if libewf_format = LIBEWF_FORMAT_LINEN5 ∨ libewf_format = LIBEWF_FORMAT_LINEN6 then
    GUID_TYPE_TIME
  else 0

/-- Lines 2314-2405: format, segment file size, sectors per chunk and GUID of the evidence
output. -/
def set_output_values_ewf_format (have_guid_support : Bool)
    (lib : set_output_values_answers_t) (export_handle : export_handle_t)
    (output : libewf_handle_t) (values : output_values_t) : Int × export_handle_t :=
  if lib.set_format ≠ 1 then (-1, { export_handle with ewf_output_handle := some output })
  else
    let output := { output with format := values.libewf_format }
    if lib.set_segment_file_size ≠ 1 then
      (-1, { export_handle with ewf_output_handle := some output })
    else
      let output := { output with segment_file_size := values.segment_file_size }
      if lib.set_sectors_per_chunk ≠ 1 then
        (-1, { export_handle with ewf_output_handle := some output })
      else
        let output := { output with sectors_per_chunk := values.sectors_per_chunk }
        if have_guid_support ∧ guid_type_of_format values.libewf_format ≠ 0 then
          if lib.guid_generate ≠ 1 then
            (-1, { export_handle with ewf_output_handle := some output })
          else if lib.set_guid ≠ 1 then
            (-1, { export_handle with ewf_output_handle := some output })
          else
            (1, { export_handle with
                  ewf_output_handle := some { output with guid := some lib.guid } })
        else (1, { export_handle with ewf_output_handle := some output })

/-- Lines 2247-2312: codepage, media values, media size and compression of the evidence
output, and the write_compressed flag of the export handle. -/
def set_output_values_ewf_media (have_guid_support : Bool)
    (lib : set_output_values_answers_t) (export_handle : export_handle_t)
    (input output : libewf_handle_t) (values : output_values_t) : Int × export_handle_t :=
  if lib.set_header_codepage ≠ 1 then
    (-1, { export_handle with ewf_output_handle := some output })
  else
    let output := { output with header_codepage := values.header_codepage }
    if lib.copy_media_values ≠ 1 then
      (-1, { export_handle with ewf_output_handle := some output })
    else
      let output :=
        { output with
          chunk_size := input.chunk_size, bytes_per_sector := input.bytes_per_sector,
          media_size := input.media_size, sectors_per_chunk := input.sectors_per_chunk }
      if lib.set_media_size ≠ 1 then
        (-1, { export_handle with ewf_output_handle := some output })
      else
        let output := { output with media_size := values.media_size }
        if lib.set_compression_values ≠ 1 then
          (-1, { export_handle with ewf_output_handle := some output })
        else
          let output :=
            { output with
              compression_level := values.compression_level,
              compression_flags := values.compression_flags }
          set_output_values_ewf_format have_guid_support lib
            { export_handle with
              write_compressed :=
                if values.compression_level ≠ LIBEWF_COMPRESSION_NONE
                    ∨ (values.compression_flags &&& LIBEWF_FLAG_COMPRESS_EMPTY_BLOCK) ≠ 0
                then 1 else 0 }
            output values

/-- Lines 2135-2246: the header values of the evidence output. -/
def set_output_values_ewf_header (have_guid_support : Bool)
    (lib : set_output_values_answers_t) (export_handle : export_handle_t)
    (input output : libewf_handle_t) (values : output_values_t) : Int × export_handle_t :=
  if lib.copy_header_values ≠ 1 then
    (-1, { export_handle with ewf_output_handle := some output })
  else
    let output := { output with header_values := input.header_values }
    if values.acquiry_operating_system.isSome
        ∧ lib.set_header_value_acquiry_operating_system ≠ 1 then
      (-1, { export_handle with ewf_output_handle := some output })
    else
      let output :=
        match values.acquiry_operating_system with
        | some value => libewf_handle_set_header_value output "acquiry_operating_system" value
        | none => output
      if lib.set_header_value_acquiry_software ≠ 1 then
        (-1, { export_handle with ewf_output_handle := some output })
      else
        let output :=
          libewf_handle_set_header_value output "acquiry_software" values.acquiry_software
        if lib.set_header_value_acquiry_software_version ≠ 1 then
          (-1, { export_handle with ewf_output_handle := some output })
        else
          set_output_values_ewf_media have_guid_support lib export_handle input
            (libewf_handle_set_header_value output "acquiry_software_version"
              values.acquiry_software_version)
            values

/-- Lines 2407-2438: media size and maximum segment size of the raw output.  A raw output
handle that is NULL is passed to the library as it is, which rejects it. -/
def set_output_values_raw (lib : set_output_values_answers_t)
    (export_handle : export_handle_t) (values : output_values_t) : Int × export_handle_t :=
  match export_handle.raw_output_handle with
  | none => (-1, export_handle)
  | some output =>
    if lib.smraw_set_media_size ≠ 1 then (-1, export_handle)
    else
      let output := { output with media_size := values.media_size }
      if lib.smraw_set_maximum_segment_size ≠ 1 then
        (-1, { export_handle with raw_output_handle := some output })
      else
        (1, { export_handle with
              raw_output_handle :=
                some { output with maximum_segment_size := values.segment_file_size } })

/-- Sets the output values of the export handle; returns 1 if successful or -1 on error
(lines 2047-2439).  `have_guid_support` stands for HAVE_GUID_SUPPORT or WINAPI. -/
def export_handle_set_output_values (have_guid_support : Bool)
    (lib : set_output_values_answers_t) (export_handle : export_handle_t)
    (values : output_values_t) : Int × export_handle_t :=
  match export_handle.input_handle with
  | none => (-1, export_handle)
  | some input =>
    if lib.get_bytes_per_sector ≠ 1 then (-1, export_handle)
    else
      let export_handle := { export_handle with bytes_per_sector := input.bytes_per_sector }
      if lib.set_read_wipe_chunk_on_error ≠ 1 then (-1, export_handle)
      else
        let input := { input with read_wipe_chunk_on_error := values.wipe_chunk_on_error }
        let export_handle := { export_handle with input_handle := some input }
        if export_handle.output_format = EXPORT_HANDLE_OUTPUT_FORMAT_EWF then
          match export_handle.ewf_output_handle with
          | none => (-1, export_handle)
          | some output =>
            set_output_values_ewf_header have_guid_support lib export_handle input output
              values
        else if export_handle.output_format = EXPORT_HANDLE_OUTPUT_FORMAT_RAW
            ∧ export_handle.use_stdout = 0 then
          set_output_values_raw lib export_handle values
        else (1, export_handle)

/-! ## export_handle_open_output (lines 848-1027) -/

/-- What the container library answers to export_handle_open_output: the results of the
initialisation and of the open of the output handle. -/
structure open_output_answers_t where
  handle_initialize : Int
  handle_open : Int
deriving DecidableEq

/-- Modelled from the spec: the handle libsmraw_handle_initialize creates. -/
def libsmraw_handle_new : libsmraw_handle_t :=
  { media_size := 0, maximum_segment_size := 0, is_open := false, abort := false,
    written := [] }

/-- Opens the output of the export handle; returns 1 if successful or -1 on error
(lines 848-1027).  A failed open of the container frees the new handle and returns 1. -/
def export_handle_open_output (lib : open_output_answers_t) (export_handle : export_handle_t)
    (output_format : Nat) (filename : Option String) : Int × export_handle_t :=
  if output_format ≠ EXPORT_HANDLE_OUTPUT_FORMAT_EWF
      ∧ output_format ≠ EXPORT_HANDLE_OUTPUT_FORMAT_RAW then (-1, export_handle)
  else
    match filename with
    | none => (-1, export_handle)
    | some name =>
      let export_handle := { export_handle with output_format := output_format }
      if export_handle.output_format = EXPORT_HANDLE_OUTPUT_FORMAT_EWF then
        if export_handle.ewf_output_handle.isSome then (-1, export_handle)
        else if lib.handle_initialize ≠ 1 then (-1, export_handle)
        else if lib.handle_open ≠ 1 then
          (1, { export_handle with ewf_output_handle := none })
        else
          (1, { export_handle with
                ewf_output_handle := some { libewf_handle_new with is_open := true } })
      else if export_handle.output_format = EXPORT_HANDLE_OUTPUT_FORMAT_RAW then
        if name.length = 1 ∧ name = "-" then
          (1, { export_handle with use_stdout := 1 })
        else if export_handle.raw_output_handle.isSome then (-1, export_handle)
        else if lib.handle_initialize ≠ 1 then (-1, export_handle)
        else if lib.handle_open ≠ 1 then
          (1, { export_handle with raw_output_handle := none })
        else
          (1, { export_handle with
                raw_output_handle := some { libsmraw_handle_new with is_open := true } })
      else (1, export_handle)

/-! ## export_handle_close (lines 1032-1106) -/

/-- The close calls that export_handle_close makes on the container libraries. -/
inductive close_call_t where
  | input
  | ewf_output
  | raw_output
deriving DecidableEq

/-- What the container libraries answer to the close calls of export_handle_close; 0 is
success. -/
structure close_answers_t where
  input_close : Int
  ewf_output_close : Int
  raw_output_close : Int
deriving DecidableEq

/-- Modelled from the spec: libewf_handle_close; when the library answers 0 the container is
closed, the handle itself stays allocated. -/
def libewf_handle_close (answer : Int) (handle : libewf_handle_t) : Int × libewf_handle_t :=
  if answer = 0 then (0, { handle with is_open := false }) else (answer, handle)

/-- Modelled from the spec: libsmraw_handle_close; when the library answers 0 the container
is closed, the handle itself stays allocated. -/
def libsmraw_handle_close (answer : Int) (handle : libsmraw_handle_t) :
    Int × libsmraw_handle_t :=
  if answer = 0 then (0, { handle with is_open := false }) else (answer, handle)

/-- Lines 1089-1104: the close of the raw output handle, when there is one.  `calls` are the
close calls made before. -/
def close_raw_output (lib : close_answers_t) (export_handle : export_handle_t)
    (calls : List close_call_t) : Int × export_handle_t × List close_call_t :=
  match export_handle.raw_output_handle with
  | none => (0, export_handle, calls)
  | some output =>
    let closed := libsmraw_handle_close lib.raw_output_close output
    (if closed.1 ≠ 0 then -1 else 0,
     { export_handle with raw_output_handle := some closed.2 },
     calls ++ [close_call_t.raw_output])

/-- Lines 1073-1104: the close of the EWF output handle, when there is one, followed by the
close of the raw output handle. -/
def close_outputs (lib : close_answers_t) (export_handle : export_handle_t)
    (calls : List close_call_t) : Int × export_handle_t × List close_call_t :=
  match export_handle.ewf_output_handle with
  | none => close_raw_output lib export_handle calls
  | some output =>
    let closed := libewf_handle_close lib.ewf_output_close output
    if closed.1 ≠ 0 then
      (-1, { export_handle with ewf_output_handle := some closed.2 },
       calls ++ [close_call_t.ewf_output])
    else
      close_raw_output lib { export_handle with ewf_output_handle := some closed.2 }
        (calls ++ [close_call_t.ewf_output])

/-- Closes the export handle; returns 0 if successful or -1 on error (lines 1032-1106).  The
third component lists the close calls made on the libraries, in order. -/
def export_handle_close (lib : close_answers_t) (export_handle : export_handle_t) :
    Int × export_handle_t × List close_call_t :=
  match export_handle.input_handle with
  | none => (-1, export_handle, [])
  | some input =>
    let closed := libewf_handle_close lib.input_close input
    if closed.1 ≠ 0 then
      (-1, { export_handle with input_handle := some closed.2 }, [close_call_t.input])
    else
      close_outputs lib { export_handle with input_handle := some closed.2 }
        [close_call_t.input]

/-! ## Sequences of open and close calls -/

/-- A call of export_handle_open_output or of export_handle_close, with the answers of the
libraries during the call. -/
inductive output_call_t where
  | open_output (lib : open_output_answers_t) (output_format : Nat)
      (filename : Option String)
  | close (lib : close_answers_t)

/-- The export handle after one call. -/
def apply_output_call (export_handle : export_handle_t) : output_call_t → export_handle_t
  | output_call_t.open_output lib output_format filename =>
    (export_handle_open_output lib export_handle output_format filename).2
  | output_call_t.close lib => (export_handle_close lib export_handle).2.1

/-- The export handle after a sequence of calls. -/
def apply_output_calls (export_handle : export_handle_t) (calls : List output_call_t) :
    export_handle_t :=
  calls.foldl apply_output_call export_handle

/-- The number of output targets of the export handle: the EWF output handle when present,
the raw output handle when present, the standard output when use_stdout is set. -/
def output_targets (export_handle : export_handle_t) : Nat :=
  (if export_handle.ewf_output_handle.isSome then 1 else 0)
    + (if export_handle.raw_output_handle.isSome then 1 else 0)
    + (if export_handle.use_stdout ≠ 0 then 1 else 0)

/-! ## export_handle_swap_byte_pairs (lines 1598-1692) -/

/-- The largest ssize_t, of limits.h, for a 64-bit ssize_t. -/
def SSIZE_MAX : Nat := 2 ^ 63 - 1

/-- What storage_media_buffer_get_data (storage_media_buffer.c, not among the sources)
answers: its result, and whether the data it designates is the compression buffer (with
compression_buffer_data_size as size) or the raw buffer (with raw_buffer_data_size). -/
structure get_data_answer_t where
  result : Int
  data_in_compression_buffer : Bool
deriving DecidableEq

/-- Modelled from the spec: the data of the representation that storage_media_buffer_get_data
designates. -/
def storage_media_buffer_data (answer : get_data_answer_t)
    (storage_media_buffer : storage_media_buffer_t) : List Nat :=
  if answer.data_in_compression_buffer then storage_media_buffer.compression_buffer
  else storage_media_buffer.raw_buffer

/-- Modelled from the spec: the declared data length of the representation that
storage_media_buffer_get_data designates. -/
def storage_media_buffer_data_size (answer : get_data_answer_t)
    (storage_media_buffer : storage_media_buffer_t) : Nat :=
  if answer.data_in_compression_buffer then storage_media_buffer.compression_buffer_data_size
  else storage_media_buffer.raw_buffer_data_size

/-- The buffer with the designated data replaced (the loop writes through the pointer that
storage_media_buffer_get_data returned). -/
def storage_media_buffer_with_data (answer : get_data_answer_t)
    (storage_media_buffer : storage_media_buffer_t) (data : List Nat) :
    storage_media_buffer_t :=
  if answer.data_in_compression_buffer then
    { storage_media_buffer with compression_buffer := data }
  else { storage_media_buffer with raw_buffer := data }

/-- Lines 1683-1690: for( iterator = 0; iterator < read_size; iterator += 2 ), the exchange
of data[ iterator ] and data[ iterator + 1 ]. -/
def swap_byte_pairs_loop (read_size : Nat) (iterator : Nat) (data : List Nat) : List Nat :=
  if iterator < read_size then
    swap_byte_pairs_loop read_size (iterator + 2)
      ((data.set iterator (data.getD (iterator + 1) 0)).set (iterator + 1)
        (data.getD iterator 0))
  else data
termination_by read_size - iterator

/-- Swaps the byte order of byte pairs within a buffer of a certain size; returns 1 if
successful, -1 on error (lines 1598-1692). -/
def export_handle_swap_byte_pairs (get_data : get_data_answer_t)
    (storage_media_buffer : storage_media_buffer_t) (read_size : Nat) :
    Int × storage_media_buffer_t :=
  if read_size = 0 ∨ read_size > SSIZE_MAX then (-1, storage_media_buffer)
  else if read_size &&& 1 ≠ 0 then (-1, storage_media_buffer)
  else if get_data.result ≠ 1 then (-1, storage_media_buffer)
  else if read_size ≠ storage_media_buffer_data_size get_data storage_media_buffer then
    (-1, storage_media_buffer)
  else
    (1, storage_media_buffer_with_data get_data storage_media_buffer
      (swap_byte_pairs_loop read_size 0
        (storage_media_buffer_data get_data storage_media_buffer)))

/-! ## export_handle_sanitize_filename (lines 401-470) -/

/-- Lines 447-464: the test of one character (a libcstring_system_character_t, taken with
its numeric value): 0x01 to 0x1f, or one of the characters with the codes 33 (exclamation
mark), 36 (dollar), 37 (percent), 38 (ampersand), 42 (asterisk), 43 (plus), 47 (slash),
58 (colon), 59 (semicolon), 60 (less than), 62 (greater than), 63 (question mark), 64 (at),
92 (backslash), 126 (tilde), or 0x7e. -/
def is_replaced_character (character : Int) : Bool :=
  (decide (0x01 ≤ character) && decide (character ≤ 0x1f))
    || character == 33 || character == 36 || character == 37 || character == 38
    || character == 42 || character == 43 || character == 47 || character == 58
    || character == 59 || character == 60 || character == 62 || character == 63
    || character == 64 || character == 92 || character == 126 || character == 0x7e

/-- Lines 443-468: for( iterator = 0; iterator < filename_size; iterator++ ), the
replacement of a tested character by the underscore (code 95). -/
def sanitize_filename_loop (filename_size : Nat) (iterator : Nat) (filename : List Int) :
    List Int :=
  if iterator < filename_size then
    sanitize_filename_loop filename_size (iterator + 1)
      (if is_replaced_character (filename.getD iterator 0) then filename.set iterator 95
       else filename)
  else filename
termination_by filename_size - iterator

/-- Sanitizes the filename; returns 1 if successful or -1 on error (lines 401-470).  The
filename is the array of characters behind the pointer, NULL being `none`. -/
def export_handle_sanitize_filename (filename : Option (List Int)) (filename_size : Nat) :
    Int × Option (List Int) :=
  match filename with
  | none => (-1, none)
  | some characters =>
    if filename_size > SSIZE_MAX then (-1, some characters)
    else (1, some (sanitize_filename_loop filename_size 0 characters))

/-- The character that one pass of the body of the sanitize loop leaves in place of a
character (lines 447-467): the underscore, code 95, for a tested character, the character
itself otherwise. -/
def sanitized_character (character : Int) : Int :=
  if is_replaced_character character then 95 else character

/-! ## export_handle_signal_abort (lines 275-342) -/

/-- The abort calls that export_handle_signal_abort makes on the container libraries; for an
output, whether the handle passed to the library exists. -/
inductive abort_call_t where
  | input
  | ewf_output (present : Bool)
  | raw_output (present : Bool)
deriving DecidableEq

/-- What the container libraries answer to the abort calls on a handle that exists. -/
structure signal_abort_answers_t where
  input_signal_abort : Int
  ewf_output_signal_abort : Int
  raw_output_signal_abort : Int
deriving DecidableEq

/-- Modelled from the spec: libewf_handle_signal_abort; a NULL handle is refused with -1,
on a handle that exists the abort flag is set when the library answers 1. -/
def libewf_handle_signal_abort (answer : Int) (handle : Option libewf_handle_t) :
    Int × Option libewf_handle_t :=
  match handle with
  | none => (-1, none)
  | some present =>
    if answer = 1 then (1, some { present with abort := true }) else (answer, some present)

/-- Modelled from the spec: libsmraw_handle_signal_abort; a NULL handle is refused with -1,
on a handle that exists the abort flag is set when the library answers 1. -/
def libsmraw_handle_signal_abort (answer : Int) (handle : Option libsmraw_handle_t) :
    Int × Option libsmraw_handle_t :=
  match handle with
  | none => (-1, none)
  | some present =>
    if answer = 1 then (1, some { present with abort := true }) else (answer, some present)

/-- Lines 308-341: the abort of the output that the output format selects.  The handle is
passed to the library without a test for NULL. -/
def signal_abort_output (lib : signal_abort_answers_t) (export_handle : export_handle_t)
    (calls : List abort_call_t) : Int × export_handle_t × List abort_call_t :=
  if export_handle.output_format = EXPORT_HANDLE_OUTPUT_FORMAT_EWF then
    let signalled :=
      libewf_handle_signal_abort lib.ewf_output_signal_abort export_handle.ewf_output_handle
    (if signalled.1 ≠ 1 then -1 else 1,
     { export_handle with ewf_output_handle := signalled.2 },
     calls ++ [abort_call_t.ewf_output export_handle.ewf_output_handle.isSome])
  else if export_handle.output_format = EXPORT_HANDLE_OUTPUT_FORMAT_RAW
      ∧ export_handle.use_stdout = 0 then
    let signalled :=
      libsmraw_handle_signal_abort lib.raw_output_signal_abort
        export_handle.raw_output_handle
    (if signalled.1 ≠ 1 then -1 else 1,
     { export_handle with raw_output_handle := signalled.2 },
     calls ++ [abort_call_t.raw_output export_handle.raw_output_handle.isSome])
  else (1, export_handle, calls)

/-- Signals the export handle to abort; returns 1 if successful or -1 on error
(lines 275-342).  The third component lists the abort calls made on the libraries. -/
def export_handle_signal_abort (lib : signal_abort_answers_t)
    (export_handle : export_handle_t) : Int × export_handle_t × List abort_call_t :=
  match export_handle.input_handle with
  | none => signal_abort_output lib export_handle []
  | some input =>
    let signalled := libewf_handle_signal_abort lib.input_signal_abort (some input)
    if signalled.1 ≠ 1 then
      (-1, { export_handle with input_handle := signalled.2 }, [abort_call_t.input])
    else
      signal_abort_output lib { export_handle with input_handle := signalled.2 }
        [abort_call_t.input]

/-! ## export_handle_seek_offset (lines 1548-1593) -/

/-- Modelled from the spec: libewf_handle_seek_offset with SEEK_SET; unless the library
answers -1 the current offset of the container becomes the requested offset. -/
def libewf_handle_seek_offset (answer : Int) (handle : libewf_handle_t) (offset : Int) :
    Int × libewf_handle_t :=
  if answer = -1 then (-1, handle) else (answer, { handle with current_offset := offset })

/-- Seeks the offset; returns the resulting offset or -1 on error (lines 1548-1593). -/
def export_handle_seek_offset (seek_answer : Int) (export_handle : export_handle_t)
    (offset : Int) : Int × export_handle_t :=
  match export_handle.input_handle with
  | none => (-1, export_handle)
  | some input =>
    let sought := libewf_handle_seek_offset seek_answer input offset
    if sought.1 = -1 then (-1, { export_handle with input_handle := some sought.2 })
    else (offset, { export_handle with input_handle := some sought.2 })

/-! ## export_handle_set_hash_value and export_handle_finalize (lines 2445-2569, 2675-2869) -/

/-- A hash value handed to an output container: the container (true for the EWF output,
false for the raw output), whether its handle exists, the identifier and the value. -/
structure hash_value_call_t where
  ewf_output : Bool
  present : Bool
  identifier : String
  value : String
deriving DecidableEq

/-- What the collaborators answer to export_handle_set_hash_value: the two conversions to
UTF-8, the allocation, and the setter of the output container. -/
structure set_hash_value_answers_t where
  string_size_to_utf8_string : Int
  memory_allocate : Bool
  string_copy_to_utf8_string : Int
  set_utf8_hash_value : Int
deriving DecidableEq

/-- Sets the hash value in the output handle; returns 1 if successful or -1 on error
(lines 2445-2569).  The export handle is only read; the second component lists the hash
values handed to an output container.  A handle that is NULL is passed to the library as it
is, which refuses it. -/
def export_handle_set_hash_value (lib : set_hash_value_answers_t)
    (export_handle : export_handle_t) (hash_value_identifier : String) (hash_value : String) :
    Int × List hash_value_call_t :=
  if lib.string_size_to_utf8_string ≠ 1 then (-1, [])
  else if lib.memory_allocate = false then (-1, [])
  else if lib.string_copy_to_utf8_string ≠ 1 then (-1, [])
  else if export_handle.output_format = EXPORT_HANDLE_OUTPUT_FORMAT_EWF then
    (if export_handle.ewf_output_handle.isNone ∨ lib.set_utf8_hash_value ≠ 1 then -1 else 1,
     [{ ewf_output := true, present := export_handle.ewf_output_handle.isSome,
        identifier := hash_value_identifier, value := hash_value }])
  else if export_handle.output_format = EXPORT_HANDLE_OUTPUT_FORMAT_RAW
      ∧ export_handle.use_stdout = 0 then
    (if export_handle.raw_output_handle.isNone ∨ lib.set_utf8_hash_value ≠ 1 then -1 else 1,
     [{ ewf_output := false, present := export_handle.raw_output_handle.isSome,
        identifier := hash_value_identifier, value := hash_value }])
  else (1, [])

/-- What the collaborators answer to export_handle_finalize: per digest the allocation of
the string, the finalisation of the digest, the hexadecimal string that
digest_hash_copy_to_string renders with its result, and the answers for
export_handle_set_hash_value; and the count that libewf_handle_write_finalize returns. -/
structure finalize_answers_t where
  md5_memory_allocate : Bool
  md5_finalize : Int
  md5_copy_to_string : Int
  md5_hash_string : String
  md5_set_hash_value : set_hash_value_answers_t
  sha1_memory_allocate : Bool
  sha1_finalize : Int
  sha1_copy_to_string : Int
  sha1_hash_string : String
  sha1_set_hash_value : set_hash_value_answers_t
  write_finalize : Int
deriving DecidableEq

/-- Lines 2850-2868: the write-finalize of the EWF output and the returned count. -/
def finalize_output (lib : finalize_answers_t) (export_handle : export_handle_t)
    (calls : List hash_value_call_t) : Int × export_handle_t × List hash_value_call_t :=
  if export_handle.output_format = EXPORT_HANDLE_OUTPUT_FORMAT_EWF then
    (if lib.write_finalize = -1 then -1 else lib.write_finalize, export_handle, calls)
  else (0, export_handle, calls)

/-- Lines 2782-2849: the SHA1 digest; the string is allocated first, its content before
digest_hash_copy_to_string is taken as empty. -/
def finalize_sha1 (lib : finalize_answers_t) (export_handle : export_handle_t)
    (calls : List hash_value_call_t) : Int × export_handle_t × List hash_value_call_t :=
  if export_handle.calculate_sha1 ≠ 0 then
    if lib.sha1_memory_allocate = false then
      (-1, { export_handle with calculated_sha1_hash_string := none }, calls)
    else if lib.sha1_finalize ≠ 1 then
      (-1, { export_handle with calculated_sha1_hash_string := some "" }, calls)
    else if lib.sha1_copy_to_string ≠ 1 then
      (-1, { export_handle with calculated_sha1_hash_string := some "" }, calls)
    else
      let export_handle :=
        { export_handle with calculated_sha1_hash_string := some lib.sha1_hash_string }
      let set := export_handle_set_hash_value lib.sha1_set_hash_value export_handle "SHA1"
        lib.sha1_hash_string
      if set.1 ≠ 1 then (-1, export_handle, calls ++ set.2)
      else finalize_output lib export_handle (calls ++ set.2)
  else finalize_output lib export_handle calls

/-- Lines 2714-2781: the MD5 digest; the string is allocated first, its content before
digest_hash_copy_to_string is taken as empty. -/
def finalize_md5 (lib : finalize_answers_t) (export_handle : export_handle_t) :
    Int × export_handle_t × List hash_value_call_t :=
  if export_handle.calculate_md5 ≠ 0 then
    if lib.md5_memory_allocate = false then
      (-1, { export_handle with calculated_md5_hash_string := none }, [])
    else if lib.md5_finalize ≠ 1 then
      (-1, { export_handle with calculated_md5_hash_string := some "" }, [])
    else if lib.md5_copy_to_string ≠ 1 then
      (-1, { export_handle with calculated_md5_hash_string := some "" }, [])
    else
      let export_handle :=
        { export_handle with calculated_md5_hash_string := some lib.md5_hash_string }
      let set := export_handle_set_hash_value lib.md5_set_hash_value export_handle "MD5"
        lib.md5_hash_string
      if set.1 ≠ 1 then (-1, export_handle, set.2)
      else finalize_sha1 lib export_handle set.2
  else finalize_sha1 lib export_handle []

/-- Finalizes the export handle; returns the number of input bytes written or -1 on error
(lines 2675-2869).  The third component lists the hash values handed to an output
container. -/
def export_handle_finalize (lib : finalize_answers_t) (export_handle : export_handle_t) :
    Int × export_handle_t × List hash_value_call_t :=
  if export_handle.output_format = EXPORT_HANDLE_OUTPUT_FORMAT_EWF
      ∧ export_handle.ewf_output_handle.isNone then (-1, export_handle, [])
  else finalize_md5 lib export_handle

/-! ## The output targets that a sequence of calls establishes -/

/-- The three output targets of the export handle. -/
inductive output_target_t where
  | ewf_output
  | raw_output
  | stdout
deriving DecidableEq

/-- Whether the export handle has an output target: the EWF output handle is present, the
raw output handle is present, use_stdout is set. -/
def has_output_target (export_handle : export_handle_t) : output_target_t → Bool
  | output_target_t.ewf_output => export_handle.ewf_output_handle.isSome
  | output_target_t.raw_output => export_handle.raw_output_handle.isSome
  | output_target_t.stdout => decide (export_handle.use_stdout ≠ 0)

/-- The output target that a call establishes on a handle that does not have it yet, if any:
an export_handle_open_output with the EWF format, or with the raw format and a file name,
whose handle is initialised and opened by the library, establishes that handle; one with the
raw format and the file name "-" establishes the standard output; a call with another
format or without a file name, a call whose container does not open, and an
export_handle_close establish nothing. -/
def established_target : output_call_t → Option output_target_t
  | output_call_t.open_output lib output_format filename =>
    match filename with
    | none => none
    | some name =>
      if output_format = EXPORT_HANDLE_OUTPUT_FORMAT_EWF then
        if lib.handle_initialize = 1 ∧ lib.handle_open = 1 then
          some output_target_t.ewf_output
        else none
      else if output_format = EXPORT_HANDLE_OUTPUT_FORMAT_RAW then
        if name = "-" then some output_target_t.stdout
        else if lib.handle_initialize = 1 ∧ lib.handle_open = 1 then
          some output_target_t.raw_output
        else none
      else none
  | output_call_t.close _ => none

/-- The output targets that the calls of a sequence establish, in their order. -/
def established_targets (calls : List output_call_t) : List output_target_t :=
  calls.filterMap established_target

/-! ## export_handle_create_target_path (lines 475-672) -/

/-- Modelled from the spec: the path separator of the platform (LIBSYSTEM_PATH_SEPARATOR of
libsystem, not among the sources): the slash, code 47; the backslash on Windows. -/
def LIBSYSTEM_PATH_SEPARATOR : Int := 47

/-- What the collaborators answer to export_handle_create_target_path: the result of
libsystem_string_size_from_utf8_string, the name in system characters with its terminator
as the conversion produces it (its length is the size that the first call reports), the
allocation, and the result of libsystem_string_copy_from_utf8_string. -/
structure create_target_path_answers_t where
  string_size_from_utf8_string : Int
  filename : List Int
  memory_allocate : Bool
  string_copy_from_utf8_string : Int
deriving DecidableEq

/-- A copy of characters into an array from an offset on (memcpy): the characters before the
offset and after the copied ones stay. -/
def array_write (array : List Int) (offset : Nat) (data : List Int) : List Int :=
  array.take offset ++ data ++ array.drop (offset + data.length)

/-- Creates the target path; returns 1 if successful or -1 on error (lines 475-672).  The
last two arguments are the contents of *target_path and *target_path_size, which are
returned after the status.  The result is none where the call does not return: on the error
paths after the allocation (lines 618, 642, 663) the source hands to memory_free the
argument target_path, which is the address of the variable of the caller (line 3063), and
not *target_path, the allocated array; the release of an address that no allocation
returned ends the process.  The allocated array is taken as filled with zeros;
libcstring_system_string_copy copies export_path_size characters and returns its
destination, so that the path of line 618 is not taken; the size of the UTF-8 name,
recomputed at line 568, only reaches the conversions; export_path_size - 1 is taken for
export_path_size >= 1. -/
def export_handle_create_target_path (lib : create_target_path_answers_t)
    (export_path : Option (List Int)) (export_path_size : Nat)
    (utf8_filename : Option (List Nat)) (utf8_filename_size : Nat)
    (target_path : Option (List Int)) (target_path_size : Nat) :
    Option (Int × Option (List Int) × Nat) :=
  match export_path with
  | none => some (-1, target_path, target_path_size)
  | some path =>
    match utf8_filename with
    | none => some (-1, target_path, target_path_size)
    | some _ =>
      if utf8_filename_size > SSIZE_MAX then some (-1, target_path, target_path_size)
      else if target_path.isSome then some (-1, target_path, target_path_size)
      else if lib.string_size_from_utf8_string ≠ 1 then
        some (-1, target_path, target_path_size)
      else if lib.memory_allocate = false then some (-1, none, 0)
      else
        let separated :=
          (array_write (List.replicate (export_path_size + lib.filename.length) 0) 0
            (path.take export_path_size)).set (export_path_size - 1) LIBSYSTEM_PATH_SEPARATOR
        if lib.string_copy_from_utf8_string ≠ 1 then none
        else
          let named := array_write separated export_path_size lib.filename
          let sanitized :=
            export_handle_sanitize_filename (some (named.drop export_path_size))
              lib.filename.length
          if sanitized.1 ≠ 1 then none
          else
            some (1, some (named.take export_path_size ++ sanitized.2.getD []),
              export_path_size + lib.filename.length)

/-! ## The file system and the file entries of export_handle_export_file_entry -/

/-- Modelled from the spec: the "is a file" bit of the flags of a file entry
(LIBEWF_FILE_ENTRY_FLAG_IS_FILE, declared in a libewf header that is not among the sources). -/
def LIBEWF_FILE_ENTRY_FLAG_IS_FILE : Nat := 1

/-- Modelled from the spec: a node of the file system behind libsystem (not among the
sources): a directory, or a file with its bytes. -/
inductive file_node_t where
  | directory
  | file (data : List Nat)
deriving DecidableEq

/-- Modelled from the spec: the file system behind libsystem, its nodes by their path; a path
is a string of system characters with its terminator. -/
abbrev file_system_t := List (List Int × file_node_t)

/-- The node at a path of the file system, if there is one. -/
def file_system_lookup (file_system : file_system_t) (path : List Int) : Option file_node_t :=
  (file_system.find? (fun node => node.1 = path)).map (fun node => node.2)

/-- Modelled from the spec: libsystem_file_exists (file existence check): 1 if the path
exists on the file system, 0 if not, -1 if that cannot be determined. -/
def libsystem_file_exists (fails : Bool) (file_system : file_system_t) (path : List Int) :
    Int :=
  if fails then -1
  else if (file_system_lookup file_system path).isSome then 1
  else 0

/-- Modelled from the spec: libsystem_file_stream_open for writing (binary file stream open):
afterwards the path is a file without bytes. -/
def libsystem_file_stream_open (file_system : file_system_t) (path : List Int) :
    file_system_t :=
  file_system.filter (fun node => node.1 ≠ path) ++ [(path, file_node_t.file [])]

/-- Modelled from the spec: what a write of bytes does to a node (binary file stream write):
the bytes are appended to a file. -/
def file_node_append : file_node_t → List Nat → file_node_t
  | file_node_t.file written, data => file_node_t.file (written ++ data)
  | file_node_t.directory, _ => file_node_t.directory

/-- Modelled from the spec: libsystem_file_stream_write (binary file stream write): the bytes
are appended to the file of the stream. -/
def libsystem_file_stream_write (file_system : file_system_t) (stream : List Int)
    (data : List Nat) : file_system_t :=
  file_system.map (fun node =>
    if node.1 = stream then (node.1, file_node_append node.2 data) else node)

/-- Modelled from the spec: libsystem_directory_make (directory creation): afterwards the
path is a directory. -/
def libsystem_directory_make (file_system : file_system_t) (path : List Int) :
    file_system_t :=
  file_system.filter (fun node => node.1 ≠ path) ++ [(path, file_node_t.directory)]

/-- The calls of export_handle_export_file_entry that probe or change the file system, that
move or read the data of a file entry, that retrieve or free a sub file entry, and its log
lines. -/
inductive file_operation_t where
  | file_exists (path : List Int)
  | log_skipping
  | file_stream_open (path : List Int)
  | seek_offset (offset : Int)
  | read_buffer (read_size : Nat)
  | file_stream_write (stream : List Int) (write_size : Nat)
  | file_stream_close (stream : List Int)
  | directory_make (path : List Int)
  | log_created_directory (path : List Int)
  | get_sub_file_entry (iterator : Nat)
  | file_entry_free (iterator : Nat)
deriving DecidableEq

/-- The file system together with the calls made so far, in their order. -/
structure world_t where
  file_system : file_system_t
  operations : List file_operation_t
deriving DecidableEq

/-- Appends a call to the calls made so far. -/
def record_operation (world : world_t) (operation : file_operation_t) : world_t :=
  { world with operations := world.operations ++ [operation] }

/-- What the collaborators hold and answer for one file entry (libewf_file_entry_t): the
results of the libewf getters with the values they deliver, the data that
libewf_file_entry_read_buffer delivers from offset 0 on, the results of the allocations and
of the libsystem calls made for this entry, the result of
libewf_file_entry_get_sub_file_entry when the parent retrieves this entry and of
libewf_file_entry_free when it frees it. -/
structure file_entry_values_t where
  get_utf8_name_size : Int
  name_size : Nat
  memory_allocate_name : Bool
  get_utf8_name : Int
  utf8_name : List Nat
  create_target_path : create_target_path_answers_t
  file_exists_fails : Bool
  get_flags : Int
  flags : Nat
  file_stream_open : Bool
  get_size : Int
  size : Nat
  seek_offset : Int
  memory_allocate_data : Bool
  data : List Nat
  file_stream_write_fails_at : Option Nat
  file_stream_close : Int
  directory_make : Int
  get_number_of_sub_file_entries : Int
  get_sub_file_entry : Int
  file_entry_free : Int
deriving DecidableEq

/-- A file entry of the logical file tree: its values and its sub file entries, in the order
of the container; libewf_file_entry_get_number_of_sub_file_entries reports their number. -/
inductive file_entry_t where
  | mk (values : file_entry_values_t) (sub_file_entries : List file_entry_t)

/-! ## export_handle_make_directory (lines 347-396) -/

/-- Creates a directory; returns 1 if successful or -1 on error (lines 347-396).  The first
argument is the result of libsystem_directory_make, 0 for success. -/
def export_handle_make_directory (directory_make : Int) (directory_name : Option (List Int))
    (world : world_t) : Int × world_t :=
  match directory_name with
  | none => (-1, world)
  | some name =>
    let attempted := record_operation world (file_operation_t.directory_make name)
    if directory_make ≠ 0 then (-1, attempted)
    else
      (1, record_operation
        { attempted with file_system := libsystem_directory_make attempted.file_system name }
        (file_operation_t.log_created_directory name))

/-! ## export_handle_export_file_entry (lines 2963-3438) -/

/-- The target path of a file entry (lines 3009-3097): the status, the target path and its
size.  An entry with a name gets export_handle_create_target_path of the export path and the
name, an entry without one (name_size = 0) borrows the export path.  The result is none
where export_handle_create_target_path does not return. -/
def file_entry_target_path (values : file_entry_values_t) (export_path : List Int)
    (export_path_size : Nat) : Option (Int × Option (List Int) × Nat) :=
  if values.get_utf8_name_size ≠ 1 then some (-1, none, 0)
  else if values.name_size > 0 then
    if values.memory_allocate_name = false then some (-1, none, 0)
    else if values.get_utf8_name ≠ 1 then some (-1, none, 0)
    else
      match export_handle_create_target_path values.create_target_path (some export_path)
          export_path_size (some values.utf8_name) values.name_size none 0 with
      | none => none
      | some created =>
        if created.1 ≠ 1 then some (-1, none, 0)
        else
          match created.2.1 with
          | none => some (-1, none, 0)
          | some target_path => some (1, some target_path, created.2.2)
  else some (1, some export_path, export_path_size)

/-- The bytes that libewf_file_entry_read_buffer delivers for a read of read_size bytes at a
position of the data of the entry: the data from the position on, up to read_size bytes. -/
def libewf_file_entry_read_buffer (values : file_entry_values_t) (position read_size : Nat) :
    List Nat :=
  (values.data.drop position).take read_size

/-- The loop of lines 3245-3298: reads the file entry data block by block and writes each
block to the stream.  The position is the read offset of the entry, 0 after the seek. -/
def export_file_entry_data_loop (values : file_entry_values_t) (stream : List Int)
    (file_entry_data_size position : Nat) (world : world_t) : Int × world_t :=
  if file_entry_data_size > 0 then
    let read_size :=
      if file_entry_data_size ≥ EXPORT_HANDLE_BUFFER_SIZE then EXPORT_HANDLE_BUFFER_SIZE
      else file_entry_data_size
    let file_entry_data := libewf_file_entry_read_buffer values position read_size
    let read := record_operation world (file_operation_t.read_buffer read_size)
    if file_entry_data.length ≠ read_size then
      (-1, record_operation read (file_operation_t.file_stream_close stream))
    else if values.file_stream_write_fails_at = some position then
      (-1, record_operation
        (record_operation read (file_operation_t.file_stream_write stream read_size))
        (file_operation_t.file_stream_close stream))
    else
      export_file_entry_data_loop values stream (file_entry_data_size - read_size)
        (position + read_size)
        (record_operation
          { read with
            file_system := libsystem_file_stream_write read.file_system stream file_entry_data }
          (file_operation_t.file_stream_write stream read_size))
  else (1, world)
termination_by file_entry_data_size
decreasing_by
  simp only [EXPORT_HANDLE_BUFFER_SIZE]
  split <;> omega

/-- The branch of a regular file (lines 3154-3316): opens the target for writing, streams
the data of the entry into it and closes it. -/
def export_file_entry_data (values : file_entry_values_t) (target_path : List Int)
    (world : world_t) : Int × world_t :=
  let opening := record_operation world (file_operation_t.file_stream_open target_path)
  if values.file_stream_open = false then (-1, opening)
  else
    let opened :=
      { opening with
        file_system := libsystem_file_stream_open opening.file_system target_path }
    if values.get_size ≠ 1 then
      (-1, record_operation opened (file_operation_t.file_stream_close target_path))
    else
      let streamed :=
        if values.size > 0 then
          let sought := record_operation opened (file_operation_t.seek_offset 0)
          if values.seek_offset ≠ 0 then
            (-1, record_operation sought (file_operation_t.file_stream_close target_path))
          else if values.memory_allocate_data = false then
            (-1, record_operation sought (file_operation_t.file_stream_close target_path))
          else export_file_entry_data_loop values target_path values.size 0 sought
        else (1, opened)
      if streamed.1 ≠ 1 then streamed
      else
        let closed :=
          record_operation streamed.2 (file_operation_t.file_stream_close target_path)
        if values.file_stream_close ≠ 0 then (-1, closed) else (1, closed)

mutual
/-- Exports a (single) file entry; returns 1 if successful or -1 on error (lines 2963-3438).
The export handle, which the function only tests for NULL, and the file entry and export
path are taken as present.  The result is none where the call does not return, because
export_handle_create_target_path did not, for the entry or for one below it. -/
def export_handle_export_file_entry (file_entry : file_entry_t) (export_path : List Int)
    (export_path_size : Nat) (world : world_t) : Option (Int × world_t) :=
  match file_entry with
  | file_entry_t.mk values sub_file_entries =>
    match file_entry_target_path values export_path export_path_size with
    | none => none
    | some target =>
      if target.1 ≠ 1 then some (-1, world)
      else
        match target.2.1 with
        | none => some (-1, world)
        | some target_path =>
          let probed := record_operation world (file_operation_t.file_exists target_path)
          let result :=
            libsystem_file_exists values.file_exists_fails probed.file_system target_path
          if result = -1 then some (-1, probed)
          else if result = 1 then
            some (1, record_operation probed file_operation_t.log_skipping)
          else if values.get_flags ≠ 1 then some (-1, probed)
          else if values.flags &&& LIBEWF_FILE_ENTRY_FLAG_IS_FILE
              = LIBEWF_FILE_ENTRY_FLAG_IS_FILE then
            some (export_file_entry_data values target_path probed)
          else
            let made :=
              export_handle_make_directory values.directory_make (some target_path) probed
            if made.1 ≠ 1 then some (-1, made.2)
            else if values.get_number_of_sub_file_entries ≠ 1 then some (-1, made.2)
            else export_sub_file_entries sub_file_entries 0 target_path target.2.2 made.2
/-- The loop of lines 3356-3431 over the sub file entries that are left, the iterator being
the index of the first of them: retrieves the sub file entry, exports it with the target
path as export path, and frees it. -/
def export_sub_file_entries (sub_file_entries : List file_entry_t) (iterator : Nat)
    (target_path : List Int) (target_path_size : Nat) (world : world_t) :
    Option (Int × world_t) :=
  match sub_file_entries with
  | [] => some (1, world)
  | file_entry_t.mk values sub_sub_file_entries :: rest =>
    let retrieving := record_operation world (file_operation_t.get_sub_file_entry iterator)
    if values.get_sub_file_entry ≠ 1 then some (-1, retrieving)
    else
      match export_handle_export_file_entry (file_entry_t.mk values sub_sub_file_entries)
          target_path target_path_size retrieving with
      | none => none
      | some exported =>
        let freed := record_operation exported.2 (file_operation_t.file_entry_free iterator)
        if exported.1 ≠ 1 then some (-1, freed)
        else if values.file_entry_free ≠ 1 then some (-1, freed)
        else export_sub_file_entries rest (iterator + 1) target_path target_path_size freed
end

/-- The sizes of the blocks of a file of a given size, after the words of the specification:
the block size as many times as it fits, followed by the remainder if that is nonzero. -/
def block_sizes (size : Nat) : List Nat :=
  List.replicate (size / EXPORT_HANDLE_BUFFER_SIZE) EXPORT_HANDLE_BUFFER_SIZE
    ++ (if size % EXPORT_HANDLE_BUFFER_SIZE = 0 then [] else [size % EXPORT_HANDLE_BUFFER_SIZE])

/-- The calls of a streaming in which every block is read, then written, before the next
block is read, after the words of the specification. -/
def stream_operations (stream : List Int) : List Nat → List file_operation_t
  | [] => []
  | block :: rest =>
    file_operation_t.read_buffer block :: file_operation_t.file_stream_write stream block
      :: stream_operations stream rest

/-! ## export_handle_checksum_errors_fprint (lines 3496-3759) -/

/-- What the input container answers to export_handle_checksum_errors_fprint: the results of
libewf_handle_get_number_of_checksum_errors and, by index, of
libewf_handle_get_checksum_error, and by the offset that was sought the results of
libewf_handle_seek_offset, of libewf_handle_get_filename_size, of the allocation and of
libewf_handle_get_filename, with the name of the segment file at that offset (system
characters with the terminator, its length being the size reported). -/
structure checksum_errors_answers_t where
  get_number_of_checksum_errors : Int
  get_checksum_error : Nat → Int
  seek_offset : Int → Int
  get_filename_size : Int → Int
  memory_allocate : Int → Bool
  get_filename : Int → Int
  filename : Int → List Int

/-- The cast of a uint64_t to off64_t. -/
def to_off64 (value : Nat) : Int :=
  if value % 2 ^ 64 < 2 ^ 63 then ((value % 2 ^ 64 : Nat) : Int)
  else ((value % 2 ^ 64 : Nat) : Int) - 2 ^ 64

/-- What export_handle_checksum_errors_fprint prints for one checksum error and which
offsets it seeks for it: the three numbers of "at sector(s): %u - %u (number: %u)", the
offsets passed to libewf_handle_seek_offset, and the names printed after
"in segment file(s):", the first after a blank, the later ones after a comma. -/
structure checksum_error_line_t where
  start_sector : Nat
  last_sector : Nat
  number_of_sectors : Nat
  probed : List Int
  printed : List (List Int)
deriving DecidableEq

/-- The libc memcmp behind memory_compare over a number of characters: 0 if the two arrays
agree on them. -/
def memory_compare (first second : List Int) (size : Nat) : Int :=
  if first.take size = second.take size then 0 else 1

/-- The loop of lines 3606-3743, while( start_sector < last_sector ), with the two variables
in bytes: a number of rounds that the loop may take (none if they do not suffice), the
start_sector, the last_filename, and the line so far. -/
def checksum_error_walk (lib : checksum_errors_answers_t)
    (input_chunk_size last_sector : Nat) :
    Nat → Nat → Option (List Int) → checksum_error_line_t →
      Option (Int × checksum_error_line_t)
  | 0, start_sector, _, line => if start_sector < last_sector then none else some (1, line)
  | rounds + 1, start_sector, last_filename, line =>
    if start_sector < last_sector then
      let sought := { line with probed := line.probed ++ [to_off64 start_sector] }
      if lib.seek_offset (to_off64 start_sector) = -1 then some (-1, sought)
      else if lib.get_filename_size (to_off64 start_sector) ≠ 1 then some (-1, sought)
      else if lib.memory_allocate (to_off64 start_sector) = false then some (-1, sought)
      else if lib.get_filename (to_off64 start_sector) ≠ 1 then some (-1, sought)
      else
        let filename := lib.filename (to_off64 start_sector)
        match last_filename with
        | none =>
          checksum_error_walk lib input_chunk_size last_sector rounds
            ((start_sector + input_chunk_size) % 2 ^ 64) (some filename)
            { sought with printed := sought.printed ++ [filename] }
        | some last =>
          if last.length ≠ filename.length
              ∨ memory_compare last filename filename.length ≠ 0 then
            checksum_error_walk lib input_chunk_size last_sector rounds
              ((start_sector + input_chunk_size) % 2 ^ 64) (some filename)
              { sought with printed := sought.printed ++ [filename] }
          else
            checksum_error_walk lib input_chunk_size last_sector rounds
              ((start_sector + input_chunk_size) % 2 ^ 64) (some last) sought
    else some (1, line)

/-- The loop of lines 3569-3752 over the checksum errors that are left, error_iterator being
the index of the first of them: retrieves the range, prints its sectors, and walks its bytes
with a last_filename that starts as NULL. -/
def checksum_errors_loop (lib : checksum_errors_answers_t) (rounds : Nat)
    (export_handle : export_handle_t) :
    Nat → Nat → Int → List checksum_error_line_t → Option (Int × List checksum_error_line_t)
  | 0, _, result, lines => some (result, lines)
  | remaining + 1, error_iterator, result, lines =>
    let retrieved := lib.get_checksum_error error_iterator = 1
    let checksum_error := (input_checksum_errors export_handle).getD error_iterator (0, 0)
    let start_sector := if retrieved then checksum_error.1 % 2 ^ 64 else 0
    let number_of_sectors := if retrieved then checksum_error.2 % 2 ^ 64 else 0
    let last_sector := (start_sector + number_of_sectors) % 2 ^ 64
    match checksum_error_walk lib export_handle.input_chunk_size
        ((last_sector * export_handle.bytes_per_sector) % 2 ^ 64) rounds
        ((start_sector * export_handle.bytes_per_sector) % 2 ^ 64) none
        { start_sector := start_sector, last_sector := last_sector,
          number_of_sectors := number_of_sectors, probed := [], printed := [] } with
    | none => none
    | some walked =>
      if walked.1 ≠ 1 then some (-1, lines ++ [walked.2])
      else
        checksum_errors_loop lib rounds export_handle remaining (error_iterator + 1)
          (if retrieved then result else -1) (lines ++ [walked.2])

/-- Prints the checksum errors to a stream; returns 1 if successful or -1 on error (lines
3496-3759).  The result is none when the given number of rounds does not suffice for the
inner loop of a range.  The stream is taken as present; libewf, when it answers 1, reports
as number of checksum errors the length of its ledger; after the status come the lines of
the ranges (the two header lines, printed when the number is positive, are left out). -/
def export_handle_checksum_errors_fprint (lib : checksum_errors_answers_t) (rounds : Nat)
    (export_handle : export_handle_t) : Option (Int × List checksum_error_line_t) :=
  match export_handle.input_handle with
  | none => some (-1, [])
  | some input =>
    let number_of_errors :=
      if lib.get_number_of_checksum_errors = 1 then input.checksum_errors.length % 2 ^ 32
      else 0
    if lib.get_number_of_checksum_errors = -1 then some (-1, [])
    else if number_of_errors > 0 then
      checksum_errors_loop lib rounds export_handle number_of_errors 0 1 []
    else some (1, [])

/-- The number of strides of a walk from a start to a last byte, after the words of the
specification: the least number of strides of the chunk size that cover the bytes between
them. -/
def stride_count (start last input_chunk_size : Nat) : Nat :=
  (last - start + input_chunk_size - 1) / input_chunk_size

/-- The offsets of a walk, after the words of the specification: the start, the start plus
the chunk size, and so on, as long as they are strictly below the last byte. -/
def stride_offsets (start last input_chunk_size : Nat) : List Nat :=
  (List.range (stride_count start last input_chunk_size)).map
    (fun stride => start + stride * input_chunk_size)

/-- A list of names with every run of consecutive identical names collapsed to one, after
the words of the specification. -/
def collapse_runs : List (List Int) → List (List Int)
  | [] => []
  | [name] => [name]
  | name :: next :: rest =>
    if name = next then collapse_runs (next :: rest)
    else name :: collapse_runs (next :: rest)

/-- The names that a walk prints for the names at its offsets when it starts with a given
last_filename: a name is left out when it equals the last one. -/
def collapse_after : Option (List Int) → List (List Int) → List (List Int)
  | _, [] => []
  | last_filename, name :: rest =>
    if last_filename = some name then collapse_after last_filename rest
    else name :: collapse_after (some name) rest

/-- The line of a recorded range, after the words of the specification: the sectors, the
offsets of the walk over its bytes, and the names at these offsets with their runs
collapsed. -/
def checksum_error_line (lib : checksum_errors_answers_t) (export_handle : export_handle_t)
    (checksum_error : Nat × Nat) : checksum_error_line_t :=
  { start_sector := checksum_error.1,
    last_sector := checksum_error.1 + checksum_error.2,
    number_of_sectors := checksum_error.2,
    probed :=
      (stride_offsets (checksum_error.1 * export_handle.bytes_per_sector)
        ((checksum_error.1 + checksum_error.2) * export_handle.bytes_per_sector)
        export_handle.input_chunk_size).map (fun offset => Int.ofNat offset),
    printed :=
      collapse_runs
        ((stride_offsets (checksum_error.1 * export_handle.bytes_per_sector)
          ((checksum_error.1 + checksum_error.2) * export_handle.bytes_per_sector)
          export_handle.input_chunk_size).map (fun offset => lib.filename (Int.ofNat offset))) }

/-! ## Concrete sessions -/

/-- An opened input container with sectors of 512 bytes and chunks of 64 sectors. -/
def sample_input : libewf_handle_t :=
  { libewf_handle_new with
    chunk_size := 32768, bytes_per_sector := 512, sectors_per_chunk := 64, is_open := true }

/-- A raw output container, opened and empty. -/
def sample_raw_output : libsmraw_handle_t :=
  { media_size := 0, maximum_segment_size := 0, is_open := true, abort := false, written := [] }

/-- A configured session that exports to a raw file. -/
def sample_raw_session : export_handle_t :=
  { export_handle_zero with
    input_handle := some sample_input, raw_output_handle := some sample_raw_output,
    output_format := EXPORT_HANDLE_OUTPUT_FORMAT_RAW, input_chunk_size := 32768,
    bytes_per_sector := 512 }

/-- A configured session that exports raw data to the standard output. -/
def sample_stdout_session : export_handle_t :=
  { export_handle_zero with
    input_handle := some sample_input, use_stdout := 1,
    output_format := EXPORT_HANDLE_OUTPUT_FORMAT_RAW, input_chunk_size := 32768,
    bytes_per_sector := 512 }

/-- A configured session that exports to an evidence container. -/
def sample_ewf_session : export_handle_t :=
  { export_handle_zero with
    input_handle := some sample_input, ewf_output_handle := some libewf_handle_new,
    output_format := EXPORT_HANDLE_OUTPUT_FORMAT_EWF, input_chunk_size := 32768,
    bytes_per_sector := 512 }

/-- A session whose output format is the evidence container while the open of the output
failed, so that the output handle is missing. -/
def sample_ewf_session_without_output : export_handle_t :=
  { sample_ewf_session with ewf_output_handle := none }

/-- Library answers for a chunk that fails its verification: the preparation returns -1 and
leaves 32768 raw bytes of value 170; the ledger calls succeed. -/
def sample_failing_answers : libewf_answers_t :=
  { prepare_read_chunk := -1, prepare_read_chunk_raw_buffer := List.replicate 32768 170,
    prepare_read_chunk_raw_buffer_data_size := 32768, append_checksum_error := 1,
    append_acquiry_error := 1 }

/-- A small buffer of capacity 4 that holds 4 valid uncompressed bytes. -/
def sample_buffer : storage_media_buffer_t :=
  { raw_buffer := [1, 2, 3, 4], raw_buffer_size := 4, raw_buffer_data_size := 4,
    compression_buffer := [1, 2, 3, 4, 0, 0, 0, 0], compression_buffer_size := 8,
    compression_buffer_data_size := 8, is_compressed := 0, checksum := 0,
    process_checksum := 0, data_in_compression_buffer := 0 }

/-- A chunk buffer for chunks of 32768 bytes as the read of a chunk leaves it: the chunk and
its checksum of 4 bytes are in the compression buffer, the raw buffer holds the bytes of the
chunk before. -/
def sample_chunk_buffer : storage_media_buffer_t :=
  { raw_buffer := List.replicate 32768 85, raw_buffer_size := 32768,
    raw_buffer_data_size := 32768,
    compression_buffer := List.replicate 32772 170, compression_buffer_size := 32772,
    compression_buffer_data_size := 32772, is_compressed := 0, checksum := 0,
    process_checksum := 1, data_in_compression_buffer := 0 }

/-- A full chunk of 32768 bytes that verifies. -/
def sample_full_chunk : chunk_t :=
  { nominal_size := 32768, fails_verification := false,
    storage_media_buffer := sample_chunk_buffer, raw_buffer := List.replicate 32768 85,
    raw_buffer_data_size := 32768, append_checksum_error := 1, append_acquiry_error := 1 }

/-- A full chunk of 32768 bytes that fails its verification. -/
def sample_full_failing_chunk : chunk_t :=
  { sample_full_chunk with fails_verification := true }

/-- The last chunk of a media whose size is not a multiple of the chunk size: one sector of
512 bytes, and its verification fails. -/
def sample_short_failing_chunk : chunk_t :=
  { sample_full_chunk with nominal_size := 512, fails_verification := true }

/-- Answers of an allocator and of initialisers that all succeed. -/
def sample_initialize_answers : initialize_answers_t :=
  { memory_allocate := true, libewf_handle_initialize := 1, md5_initialize := 1,
    sha1_initialize := 1 }

/-- The handle a successful export_handle_initialize creates. -/
def sample_fresh_session : export_handle_t :=
  { export_handle_zero with input_handle := some libewf_handle_new }

/-- Answers of a library that opens a container with sectors of 512 bytes and chunks of
32768 bytes from one segment file. -/
def sample_open_input_answers : open_input_answers_t :=
  { libewf_glob := 1, libewf_filenames := ["image.E01"], libewf_handle_open := 1,
    container := sample_input, libewf_glob_free := 1, libewf_handle_get_chunk_size := 1 }

/-- The fresh session after export_handle_open_input. -/
def sample_opened_session : export_handle_t :=
  (export_handle_open_input sample_open_input_answers sample_fresh_session
    (some ["image.E01"]) 1).2

/-- Answers of a library whose output handle initialises and opens. -/
def sample_open_output_answers : open_output_answers_t :=
  { handle_initialize := 1, handle_open := 1 }

/-- The opened session after export_handle_open_output with the raw format and the file
name "-", the standard output. -/
def sample_opened_stdout_session : export_handle_t :=
  (export_handle_open_output sample_open_output_answers sample_opened_session
    EXPORT_HANDLE_OUTPUT_FORMAT_RAW (some "-")).2

/-- Answers of collaborators that all succeed in export_handle_set_output_values. -/
def sample_set_output_values_answers : set_output_values_answers_t :=
  { get_bytes_per_sector := 1, set_read_wipe_chunk_on_error := 1, copy_header_values := 1,
    set_header_value_acquiry_operating_system := 1, set_header_value_acquiry_software := 1,
    set_header_value_acquiry_software_version := 1, set_header_codepage := 1,
    copy_media_values := 1, set_media_size := 1, set_compression_values := 1,
    set_format := 1, set_segment_file_size := 1, set_sectors_per_chunk := 1,
    guid_generate := 1, guid := List.replicate 16 0, set_guid := 1,
    smraw_set_media_size := 1, smraw_set_maximum_segment_size := 1 }

/-- Output values that ask for the wipe of a chunk on error. -/
def sample_output_values : output_values_t :=
  { acquiry_operating_system := some "Linux", acquiry_software := "ewfexport",
    acquiry_software_version := "20100226", header_codepage := 20127, media_size := 65536,
    compression_level := 0, compression_flags := 0, libewf_format := LIBEWF_FORMAT_ENCASE6,
    segment_file_size := 1572864000, sectors_per_chunk := 64, wipe_chunk_on_error := 1 }

/-- The session configured by export_handle_set_output_values with wipe_chunk_on_error 1. -/
def sample_configured_session : export_handle_t :=
  (export_handle_set_output_values true sample_set_output_values_answers
    sample_opened_stdout_session sample_output_values).2

/-- Answers of libraries whose abort calls succeed on a handle that exists. -/
def sample_signal_abort_answers : signal_abort_answers_t :=
  { input_signal_abort := 1, ewf_output_signal_abort := 1, raw_output_signal_abort := 1 }

/-- The opened session after an export_handle_open_output with the EWF format whose
container open failed. -/
def sample_failed_ewf_open_session : export_handle_t :=
  (export_handle_open_output { handle_initialize := 1, handle_open := -1 }
    sample_opened_session EXPORT_HANDLE_OUTPUT_FORMAT_EWF (some "out")).2

/-- The opened session after an export_handle_open_output with the raw format and a file
name whose container open failed. -/
def sample_failed_raw_open_session : export_handle_t :=
  (export_handle_open_output { handle_initialize := 1, handle_open := -1 }
    sample_opened_session EXPORT_HANDLE_OUTPUT_FORMAT_RAW (some "out.raw")).2

/-- Answers of collaborators that all succeed in export_handle_set_hash_value. -/
def sample_set_hash_value_answers : set_hash_value_answers_t :=
  { string_size_to_utf8_string := 1, memory_allocate := true,
    string_copy_to_utf8_string := 1, set_utf8_hash_value := 1 }

/-- Answers of collaborators that all succeed in export_handle_finalize. -/
def sample_finalize_answers : finalize_answers_t :=
  { md5_memory_allocate := true, md5_finalize := 1, md5_copy_to_string := 1,
    md5_hash_string := "d41d8cd98f00b204e9800998ecf8427e",
    md5_set_hash_value := sample_set_hash_value_answers,
    sha1_memory_allocate := true, sha1_finalize := 1, sha1_copy_to_string := 1,
    sha1_hash_string := "da39a3ee5e6b4b0d3255bfef95601890afd80709",
    sha1_set_hash_value := sample_set_hash_value_answers, write_finalize := 0 }

/-- A sequence of calls: a close, an EWF open whose container does not open, the EWF open
again with success, a third EWF open, a raw open whose container does not open, a close. -/
def sample_output_calls : List output_call_t :=
  [output_call_t.close { input_close := 0, ewf_output_close := 0, raw_output_close := 0 },
   output_call_t.open_output { handle_initialize := 1, handle_open := -1 }
     EXPORT_HANDLE_OUTPUT_FORMAT_EWF (some "out"),
   output_call_t.open_output sample_open_output_answers
     EXPORT_HANDLE_OUTPUT_FORMAT_EWF (some "out"),
   output_call_t.open_output sample_open_output_answers
     EXPORT_HANDLE_OUTPUT_FORMAT_EWF (some "out"),
   output_call_t.open_output { handle_initialize := 1, handle_open := -1 }
     EXPORT_HANDLE_OUTPUT_FORMAT_RAW (some "out.raw"),
   output_call_t.close { input_close := 0, ewf_output_close := 0, raw_output_close := 0 }]

/-- The characters of "/out" with the terminator. -/
def sample_export_path : List Int := [47, 111, 117, 116, 0]

/-- Answers of collaborators that convert the name "a/b:c" and succeed. -/
def sample_create_target_path_answers : create_target_path_answers_t :=
  { string_size_from_utf8_string := 1, filename := [97, 47, 98, 58, 99, 0],
    memory_allocate := true, string_copy_from_utf8_string := 1 }

/-- The answers of collaborators that all succeed, for a directory without a name. -/
def sample_file_entry_values : file_entry_values_t :=
  { get_utf8_name_size := 1, name_size := 0, memory_allocate_name := true,
    get_utf8_name := 1, utf8_name := [],
    create_target_path :=
      { string_size_from_utf8_string := 1, filename := [0], memory_allocate := true,
        string_copy_from_utf8_string := 1 },
    file_exists_fails := false, get_flags := 1, flags := 0, file_stream_open := true,
    get_size := 1, size := 0, seek_offset := 0, memory_allocate_data := true, data := [],
    file_stream_write_fails_at := none, file_stream_close := 0, directory_make := 0,
    get_number_of_sub_file_entries := 1, get_sub_file_entry := 1, file_entry_free := 1 }

/-- The values of a regular file "f" with the given data. -/
def sample_file_values (data : List Nat) : file_entry_values_t :=
  { sample_file_entry_values with
    name_size := 2, utf8_name := [102, 0],
    create_target_path :=
      { string_size_from_utf8_string := 1, filename := [102, 0], memory_allocate := true,
        string_copy_from_utf8_string := 1 },
    flags := 1, size := data.length, data := data }

/-- The values of a regular file with the name "g" whose target cannot be opened. -/
def sample_unopened_file_values : file_entry_values_t :=
  { sample_file_entry_values with
    name_size := 2, utf8_name := [103, 0],
    create_target_path :=
      { string_size_from_utf8_string := 1, filename := [103, 0], memory_allocate := true,
        string_copy_from_utf8_string := 1 },
    flags := 1, file_stream_open := false }

/-- The values of an empty regular file with the name "h". -/
def sample_last_file_values : file_entry_values_t :=
  { sample_file_entry_values with
    name_size := 2, utf8_name := [104, 0],
    create_target_path :=
      { string_size_from_utf8_string := 1, filename := [104, 0], memory_allocate := true,
        string_copy_from_utf8_string := 1 },
    flags := 1 }

/-- The values of a regular file with the name "u" whose name is not converted into the
target path. -/
def sample_unconverted_file_values : file_entry_values_t :=
  { sample_file_entry_values with
    name_size := 2, utf8_name := [117, 0],
    create_target_path :=
      { string_size_from_utf8_string := 1, filename := [117, 0], memory_allocate := true,
        string_copy_from_utf8_string := -1 },
    flags := 1 }

/-- The file system and the calls after the export of a directory without a name to "/out"
with the regular file "f" of three bytes in it. -/
def sample_exported_world : world_t :=
  { file_system :=
      [(sample_export_path, file_node_t.directory),
       ([47, 111, 117, 116, 47, 102, 0], file_node_t.file [1, 2, 3])],
    operations :=
      [file_operation_t.file_exists sample_export_path,
       file_operation_t.directory_make sample_export_path,
       file_operation_t.log_created_directory sample_export_path,
       file_operation_t.get_sub_file_entry 0,
       file_operation_t.file_exists [47, 111, 117, 116, 47, 102, 0],
       file_operation_t.file_stream_open [47, 111, 117, 116, 47, 102, 0],
       file_operation_t.seek_offset 0,
       file_operation_t.read_buffer 3,
       file_operation_t.file_stream_write [47, 111, 117, 116, 47, 102, 0] 3,
       file_operation_t.file_stream_close [47, 111, 117, 116, 47, 102, 0],
       file_operation_t.file_entry_free 0] }

/-- A file system without nodes, with no call made. -/
def sample_empty_world : world_t :=
  { file_system := [], operations := [] }

/-- The path "/out/dirA" with its terminator. -/
def sample_directory_path : List Int := [47, 111, 117, 116, 47, 100, 105, 114, 65, 0]

/-- The path "/out/dirA/file1" with its terminator. -/
def sample_file1_path : List Int :=
  [47, 111, 117, 116, 47, 100, 105, 114, 65, 47, 102, 105, 108, 101, 49, 0]

/-- The path "/out/file2" with its terminator. -/
def sample_file2_path : List Int := [47, 111, 117, 116, 47, 102, 105, 108, 101, 50, 0]

/-- The values of the directory "dirA". -/
def sample_directory_values : file_entry_values_t :=
  { sample_file_entry_values with
    name_size := 5, utf8_name := [100, 105, 114, 65, 0],
    create_target_path :=
      { string_size_from_utf8_string := 1, filename := [100, 105, 114, 65, 0],
        memory_allocate := true, string_copy_from_utf8_string := 1 } }

/-- The values of the regular file "file1" of 12000 bytes, with the data that the container
delivers for it. -/
def sample_file1_values (data : List Nat) : file_entry_values_t :=
  { sample_file_entry_values with
    name_size := 6, utf8_name := [102, 105, 108, 101, 49, 0],
    create_target_path :=
      { string_size_from_utf8_string := 1, filename := [102, 105, 108, 101, 49, 0],
        memory_allocate := true, string_copy_from_utf8_string := 1 },
    flags := 1, size := 12000, data := data }

/-- The values of the regular file "file2" of 0 bytes. -/
def sample_file2_values : file_entry_values_t :=
  { sample_file_entry_values with
    name_size := 6, utf8_name := [102, 105, 108, 101, 50, 0],
    create_target_path :=
      { string_size_from_utf8_string := 1, filename := [102, 105, 108, 101, 50, 0],
        memory_allocate := true, string_copy_from_utf8_string := 1 },
    flags := 1 }

/-- The tree of a root without a name that holds the directory "dirA", with "file1" in it,
and "file2". -/
def sample_tree (data : List Nat) : file_entry_t :=
  file_entry_t.mk sample_file_entry_values
    [file_entry_t.mk sample_directory_values
       [file_entry_t.mk (sample_file1_values data) []],
     file_entry_t.mk sample_file2_values []]

/-- Data of 12000 bytes. -/
def sample_data : List Nat := List.replicate 12000 0

/-- A file system on which only "/out" exists, an empty directory, with no call made. -/
def sample_world : world_t :=
  { file_system := [(sample_export_path, file_node_t.directory)], operations := [] }

/-- The name "a.E01" with its terminator. -/
def sample_first_segment : List Int := [97, 46, 69, 48, 49, 0]

/-- The name "a.E02" with its terminator. -/
def sample_second_segment : List Int := [97, 46, 69, 48, 50, 0]

/-- A container of two segment files, the second from byte 2048 on, that answers every
call with success. -/
def sample_checksum_errors_answers : checksum_errors_answers_t :=
  { get_number_of_checksum_errors := 1,
    get_checksum_error := fun _ => 1,
    seek_offset := fun offset => offset,
    get_filename_size := fun _ => 1,
    memory_allocate := fun _ => true,
    get_filename := fun _ => 1,
    filename := fun offset =>
      if offset < 2048 then sample_first_segment else sample_second_segment }

/-- An opened session with sectors of 512 bytes and chunks of 1024 bytes whose input has the
checksum errors (1, 5) and (5, 1) on record. -/
def sample_checksum_errors_session : export_handle_t :=
  { sample_opened_session with
    input_handle := some { sample_input with checksum_errors := [(1, 5), (5, 1)] },
    input_chunk_size := 1024, bytes_per_sector := 512 }

theorem start_sector_of_nonneg (start_offset : Int) (bytes_per_sector : Nat)
    (h0 : 0 ≤ start_offset) (h63 : start_offset < 2 ^ 63) :
    start_sector start_offset bytes_per_sector = start_offset.toNat / bytes_per_sector := by
  obtain ⟨n, rfl⟩ := Int.eq_ofNat_of_zero_le h0
  have hn : n < 2 ^ 63 := by exact_mod_cast h63
  have h1 : Int.tdiv (n : Int) (bytes_per_sector : Int) = ((n / bytes_per_sector : Nat) : Int) :=
    (Int.ofNat_tdiv n bytes_per_sector).symm
  have h2 : n / bytes_per_sector < 2 ^ 64 :=
    lt_of_le_of_lt (Nat.div_le_self n bytes_per_sector) (by omega)
  have h3 : ((n / bytes_per_sector : Nat) : Int) % (2 ^ 64 : Int)
      = ((n / bytes_per_sector : Nat) : Int) := by
    apply Int.emod_eq_of_lt (Int.ofNat_nonneg _)
    exact_mod_cast h2
  unfold start_sector to_uint64
  rw [h1, h3, Int.toNat_ofNat, Int.toNat_ofNat]

/-! ## What export_handle_append_read_error does to the two ledgers -/

theorem append_read_error_output_spec (lib : libewf_answers_t)
    (export_handle : export_handle_t) (sector count : Nat) :
    let result := append_read_error_output lib export_handle sector count
    (result.1 = 1 ∨ result.1 = -1)
    ∧ (result.1 = 1 ↔
        (export_handle.output_format = EXPORT_HANDLE_OUTPUT_FORMAT_EWF →
          export_handle.ewf_output_handle.isSome = true ∧ lib.append_acquiry_error = 1))
    ∧ input_checksum_errors result.2 = input_checksum_errors export_handle
    ∧ output_acquiry_errors result.2
        = (if export_handle.output_format = EXPORT_HANDLE_OUTPUT_FORMAT_EWF
              ∧ export_handle.ewf_output_handle.isSome = true ∧ lib.append_acquiry_error = 1
           then output_acquiry_errors export_handle ++ [(sector, count)]
           else output_acquiry_errors export_handle) := by
  rcases export_handle with ⟨a1, a2, a3, a4, inp, out, a7, fmt, a9, a10, a11, a12, a13, a14⟩
  by_cases hf : fmt = EXPORT_HANDLE_OUTPUT_FORMAT_EWF
  · cases out with
    | none => simp [append_read_error_output, hf, input_checksum_errors, output_acquiry_errors]
    | some o =>
      by_cases ha : lib.append_acquiry_error = 1
      · simp [append_read_error_output, hf, ha, input_checksum_errors, output_acquiry_errors,
          libewf_handle_append_acquiry_error]
      · simp [append_read_error_output, hf, ha, input_checksum_errors, output_acquiry_errors,
          libewf_handle_append_acquiry_error]
  · simp [append_read_error_output, hf, input_checksum_errors, output_acquiry_errors]

theorem append_read_error_output_frame (lib : libewf_answers_t)
    (export_handle : export_handle_t) (sector count : Nat) :
    let result := append_read_error_output lib export_handle sector count
    result.2.bytes_per_sector = export_handle.bytes_per_sector
    ∧ result.2.output_format = export_handle.output_format
    ∧ result.2.input_chunk_size = export_handle.input_chunk_size
    ∧ result.2.input_offset = export_handle.input_offset
    ∧ result.2.wipe_chunk_on_error = export_handle.wipe_chunk_on_error
    ∧ result.2.input_handle = export_handle.input_handle
    ∧ result.2.ewf_output_handle.isSome = export_handle.ewf_output_handle.isSome
    ∧ result.2.raw_output_handle = export_handle.raw_output_handle
    ∧ result.2.use_stdout = export_handle.use_stdout := by
  rcases export_handle with ⟨a1, a2, a3, a4, inp, out, a7, fmt, a9, a10, a11, a12, a13, a14⟩
  by_cases hf : fmt = EXPORT_HANDLE_OUTPUT_FORMAT_EWF
  · cases out with
    | none => simp [append_read_error_output, hf]
    | some o =>
      by_cases ha : lib.append_acquiry_error = 1
      · simp [append_read_error_output, hf, ha, libewf_handle_append_acquiry_error]
      · simp [append_read_error_output, hf, ha, libewf_handle_append_acquiry_error]
  · simp [append_read_error_output, hf]

theorem append_read_error_spec (have_low_level_functions : Bool) (lib : libewf_answers_t)
    (export_handle : export_handle_t) (start_offset : Int) (number_of_bytes : Nat) :
    let range := (start_sector start_offset export_handle.bytes_per_sector,
      number_of_sectors number_of_bytes export_handle.bytes_per_sector)
    let result := export_handle_append_read_error have_low_level_functions lib export_handle
      start_offset number_of_bytes
    (result.1 = 1 ∨ result.1 = -1)
    ∧ (result.1 = 1 ↔
        (export_handle.bytes_per_sector ≠ 0
          ∧ (have_low_level_functions = true →
              export_handle.input_handle.isSome = true ∧ lib.append_checksum_error = 1)
          ∧ (export_handle.output_format = EXPORT_HANDLE_OUTPUT_FORMAT_EWF →
              export_handle.ewf_output_handle.isSome = true ∧ lib.append_acquiry_error = 1)))
    ∧ input_checksum_errors result.2
        = (if have_low_level_functions = true ∧ export_handle.bytes_per_sector ≠ 0
              ∧ export_handle.input_handle.isSome = true ∧ lib.append_checksum_error = 1
           then input_checksum_errors export_handle ++ [range]
           else input_checksum_errors export_handle)
    ∧ output_acquiry_errors result.2
        = (if export_handle.bytes_per_sector ≠ 0
              ∧ (have_low_level_functions = true →
                  export_handle.input_handle.isSome = true ∧ lib.append_checksum_error = 1)
              ∧ export_handle.output_format = EXPORT_HANDLE_OUTPUT_FORMAT_EWF
              ∧ export_handle.ewf_output_handle.isSome = true ∧ lib.append_acquiry_error = 1
           then output_acquiry_errors export_handle ++ [range]
           else output_acquiry_errors export_handle) := by
  intro range result
  by_cases hb : export_handle.bytes_per_sector = 0
  · have hr : result = (-1, export_handle) := by
      simp only [result, export_handle_append_read_error, hb]
      split <;> rfl
    simp [hr, hb]
  · cases hl : have_low_level_functions with
    | false =>
      have hr : result = append_read_error_output lib export_handle range.1 range.2 := by
        simp [result, range, export_handle_append_read_error, hb, hl]
      have ho := append_read_error_output_spec lib export_handle range.1 range.2
      simp only [] at ho
      rw [hr]
      refine ⟨ho.1, ?_, ?_, ?_⟩
      · rw [ho.2.1]; simp [hb]
      · rw [ho.2.2.1]; simp
      · rw [ho.2.2.2]; simp [hb]
    | true =>
      cases hi : export_handle.input_handle with
      | none =>
        have hr : result = (-1, export_handle) := by
          simp [result, export_handle_append_read_error, hi, hl]
        simp [hr, hi]
      | some input =>
        by_cases hc : lib.append_checksum_error = 1
        · have hr : result = append_read_error_output lib
              { export_handle with
                input_handle := some { input with
                  checksum_errors := input.checksum_errors ++ [range] } } range.1 range.2 := by
            simp [result, range, export_handle_append_read_error, hb, hl, hi, hc,
              libewf_handle_append_checksum_error]
          have ho := append_read_error_output_spec lib
            { export_handle with
                input_handle := some { input with
                  checksum_errors := input.checksum_errors ++ [range] } } range.1 range.2
          simp only [] at ho
          rw [hr]
          refine ⟨ho.1, ?_, ?_, ?_⟩
          · rw [ho.2.1]; simp [hb, hc]
          · rw [ho.2.2.1]; simp [hb, hc, input_checksum_errors, hi]
          · rw [ho.2.2.2]; simp [hb, hc, output_acquiry_errors]
        · have hr : result = (-1, { export_handle with input_handle := some input }) := by
            simp [result, export_handle_append_read_error, hb, hl, hi, hc,
              libewf_handle_append_checksum_error]
          simp [hr, hc, input_checksum_errors, output_acquiry_errors, hi]

theorem append_read_error_frame (have_low_level_functions : Bool) (lib : libewf_answers_t)
    (export_handle : export_handle_t) (start_offset : Int) (number_of_bytes : Nat) :
    let result := export_handle_append_read_error have_low_level_functions lib export_handle
      start_offset number_of_bytes
    result.2.bytes_per_sector = export_handle.bytes_per_sector
    ∧ result.2.output_format = export_handle.output_format
    ∧ result.2.input_chunk_size = export_handle.input_chunk_size
    ∧ result.2.input_offset = export_handle.input_offset
    ∧ result.2.wipe_chunk_on_error = export_handle.wipe_chunk_on_error
    ∧ result.2.input_handle.isSome = export_handle.input_handle.isSome
    ∧ result.2.ewf_output_handle.isSome = export_handle.ewf_output_handle.isSome
    ∧ result.2.raw_output_handle = export_handle.raw_output_handle
    ∧ result.2.use_stdout = export_handle.use_stdout := by
  intro result
  by_cases hb : export_handle.bytes_per_sector = 0
  · have hr : result = (-1, export_handle) := by
      simp only [result, export_handle_append_read_error, hb]
      split <;> rfl
    simp [hr]
  · cases hl : have_low_level_functions with
    | false =>
      have hr : result = append_read_error_output lib export_handle
          (start_sector start_offset export_handle.bytes_per_sector)
          (number_of_sectors number_of_bytes export_handle.bytes_per_sector) := by
        simp [result, export_handle_append_read_error, hb, hl]
      have ho := append_read_error_output_frame lib export_handle
          (start_sector start_offset export_handle.bytes_per_sector)
          (number_of_sectors number_of_bytes export_handle.bytes_per_sector)
      simp only [] at ho
      rw [hr]
      simp [ho]
    | true =>
      cases hi : export_handle.input_handle with
      | none =>
        have hr : result = (-1, export_handle) := by
          simp [result, export_handle_append_read_error, hi, hl]
        simp [hr, hi]
      | some input =>
        by_cases hc : lib.append_checksum_error = 1
        · have hr : result = append_read_error_output lib
              { export_handle with
                input_handle := some { input with
                  checksum_errors := input.checksum_errors
                    ++ [(start_sector start_offset export_handle.bytes_per_sector,
                         number_of_sectors number_of_bytes export_handle.bytes_per_sector)] } }
              (start_sector start_offset export_handle.bytes_per_sector)
              (number_of_sectors number_of_bytes export_handle.bytes_per_sector) := by
            simp [result, export_handle_append_read_error, hb, hl, hi, hc,
              libewf_handle_append_checksum_error]
          have ho := append_read_error_output_frame lib
              { export_handle with
                input_handle := some { input with
                  checksum_errors := input.checksum_errors
                    ++ [(start_sector start_offset export_handle.bytes_per_sector,
                         number_of_sectors number_of_bytes export_handle.bytes_per_sector)] } }
              (start_sector start_offset export_handle.bytes_per_sector)
              (number_of_sectors number_of_bytes export_handle.bytes_per_sector)
          simp only [] at ho
          rw [hr]
          simp [ho]
        · have hr : result = (-1, { export_handle with input_handle := some input }) := by
            simp [result, export_handle_append_read_error, hb, hl, hi, hc,
              libewf_handle_append_checksum_error]
          simp [hr]

/-! ## C1: the recorded range -/

/-- C1: export_handle_append_read_error, for every start_offset >= 0 (an off64_t), every
number_of_bytes and every bytes_per_sector > 0, records nothing but the range
(start_offset / bytes_per_sector, number_of_bytes / bytes_per_sector) with floor division:
each ledger is left as it was or gains exactly that range at its end, and a call that
returns 1 has recorded it on the input container in the chunk-level strategy and on the
output container when the output format is EWF.  When bytes_per_sector is 0 the call returns
-1 and the handle, with both containers, is unchanged. -/
theorem append_read_error_records_floor_range (have_low_level_functions : Bool)
    (lib : libewf_answers_t) (export_handle : export_handle_t) (start_offset : Int)
    (number_of_bytes : Nat) (h0 : 0 ≤ start_offset) (h63 : start_offset < 2 ^ 63) :
    (export_handle.bytes_per_sector = 0 →
      export_handle_append_read_error have_low_level_functions lib export_handle start_offset
        number_of_bytes = (-1, export_handle))
    ∧ (0 < export_handle.bytes_per_sector →
        let range := (start_offset.toNat / export_handle.bytes_per_sector,
          number_of_bytes / export_handle.bytes_per_sector)
        let result := export_handle_append_read_error have_low_level_functions lib
          export_handle start_offset number_of_bytes
        (input_checksum_errors result.2 = input_checksum_errors export_handle
          ∨ input_checksum_errors result.2 = input_checksum_errors export_handle ++ [range])
        ∧ (output_acquiry_errors result.2 = output_acquiry_errors export_handle
          ∨ output_acquiry_errors result.2 = output_acquiry_errors export_handle ++ [range])
        ∧ (result.1 = 1 →
            (have_low_level_functions = true →
              input_checksum_errors result.2 = input_checksum_errors export_handle ++ [range])
            ∧ (export_handle.output_format = EXPORT_HANDLE_OUTPUT_FORMAT_EWF →
              output_acquiry_errors result.2
                = output_acquiry_errors export_handle ++ [range]))) := by
  constructor
  · intro hb
    simp only [export_handle_append_read_error, hb]
    split <;> rfl
  · intro hb range result
    have hs := append_read_error_spec have_low_level_functions lib export_handle start_offset
      number_of_bytes
    simp only [] at hs
    rw [start_sector_of_nonneg start_offset _ h0 h63] at hs
    simp only [number_of_sectors] at hs
    obtain ⟨-, hone, hin, hout⟩ := hs
    refine ⟨?_, ?_, ?_⟩
    · rw [hin]; split
      · exact Or.inr rfl
      · exact Or.inl rfl
    · rw [hout]; split
      · exact Or.inr rfl
      · exact Or.inl rfl
    · intro h1
      have hc := hone.1 h1
      refine ⟨fun hl => ?_, fun hf => ?_⟩
      · rw [hin, if_pos ⟨hl, hc.1, hc.2.1 hl⟩]
      · rw [hout, if_pos ⟨hc.1, hc.2.1, hf, hc.2.2 hf⟩]

/-- C1, witness: in the chunk-level strategy, start_offset 51200 and number_of_bytes 5120 on
a session with sectors of 512 bytes and raw output record exactly one range, (100, 10), on
the input container and none on an output container. -/
theorem append_read_error_records_floor_range_witness :
    (export_handle_append_read_error true sample_failing_answers sample_raw_session
        51200 5120).1 = 1
    ∧ input_checksum_errors (export_handle_append_read_error true sample_failing_answers
        sample_raw_session 51200 5120).2 = [(100, 10)]
    ∧ output_acquiry_errors (export_handle_append_read_error true sample_failing_answers
        sample_raw_session 51200 5120).2 = [] := by
  have h := (append_read_error_records_floor_range true sample_failing_answers
    sample_raw_session 51200 5120 (by decide) (by decide)).2 (by decide)
  have h1 : (export_handle_append_read_error true sample_failing_answers sample_raw_session
      51200 5120).1 = 1 := by decide
  refine ⟨h1, ?_, ?_⟩
  · have := (h.2.2 h1).1 rfl
    simpa [input_checksum_errors, sample_raw_session, sample_input, libewf_handle_new,
      export_handle_zero] using this
  · decide

/-! ## C5: does the recorded range cover the chunk -/

theorem floor_ranges_cover_iff (offset size bytes_per_sector : Nat) :
    offset / bytes_per_sector * bytes_per_sector ≤ offset
    ∧ (offset + size ≤ (offset / bytes_per_sector + size / bytes_per_sector) * bytes_per_sector
        ↔ bytes_per_sector ∣ offset ∧ bytes_per_sector ∣ size) := by
  have h1 := Nat.div_add_mod' offset bytes_per_sector
  have h2 := Nat.div_add_mod' size bytes_per_sector
  have h3 : (offset / bytes_per_sector + size / bytes_per_sector) * bytes_per_sector
      = offset / bytes_per_sector * bytes_per_sector
        + size / bytes_per_sector * bytes_per_sector := add_mul _ _ _
  rw [h3, Nat.dvd_iff_mod_eq_zero, Nat.dvd_iff_mod_eq_zero]
  generalize offset / bytes_per_sector * bytes_per_sector = x at *
  generalize size / bytes_per_sector * bytes_per_sector = y at *
  omega

/-- C5, counterexample: with sectors of 512 bytes, input_offset 100 and input_chunk_size
32768 the range recorded for the failed chunk is (0, 64); it stops at byte 32768, while the
chunk stops at byte 32868. -/
theorem read_error_range_misses_unaligned_chunk :
    input_checksum_errors (export_handle_append_read_error true sample_failing_answers
        { sample_raw_session with input_offset := 100 } 100 32768).2
      = [(start_sector 100 512, number_of_sectors 32768 512)]
    ∧ (start_sector 100 512, number_of_sectors 32768 512) = (0, 64)
    ∧ ¬ ((start_sector 100 512 + number_of_sectors 32768 512) * 512 ≥ 100 + 32768) := by
  decide

/-- C5 (amended): for every input_offset >= 0 (an off64_t), input_chunk_size and
bytes_per_sector > 0, with (start_sector, number_of_sectors) the range that
export_handle_append_read_error(input_offset, input_chunk_size) records on the input
container, start_sector * bytes_per_sector <= input_offset, and
(start_sector + number_of_sectors) * bytes_per_sector >= input_offset + input_chunk_size holds
exactly when bytes_per_sector divides both input_offset and input_chunk_size. -/
theorem read_error_range_covers_aligned_chunk (lib : libewf_answers_t)
    (export_handle : export_handle_t) (hb : 0 < export_handle.bytes_per_sector)
    (hi : export_handle.input_handle.isSome = true) (hc : lib.append_checksum_error = 1)
    (h0 : 0 ≤ export_handle.input_offset) (h63 : export_handle.input_offset < 2 ^ 63) :
    ∃ sector count : Nat,
      input_checksum_errors (export_handle_append_read_error true lib export_handle
          export_handle.input_offset export_handle.input_chunk_size).2
        = input_checksum_errors export_handle ++ [(sector, count)]
      ∧ ((sector * export_handle.bytes_per_sector : Nat) : Int) ≤ export_handle.input_offset
      ∧ (export_handle.input_offset + (export_handle.input_chunk_size : Nat)
            ≤ (((sector + count) * export_handle.bytes_per_sector : Nat) : Int)
          ↔ (export_handle.bytes_per_sector : Int) ∣ export_handle.input_offset
            ∧ export_handle.bytes_per_sector ∣ export_handle.input_chunk_size) := by
  have hs := append_read_error_spec true lib export_handle export_handle.input_offset
    export_handle.input_chunk_size
  simp only [] at hs
  rw [start_sector_of_nonneg _ _ h0 h63] at hs
  obtain ⟨n, hn⟩ := Int.eq_ofNat_of_zero_le h0
  have hcov := floor_ranges_cover_iff n export_handle.input_chunk_size
    export_handle.bytes_per_sector
  refine ⟨export_handle.input_offset.toNat / export_handle.bytes_per_sector,
    number_of_sectors export_handle.input_chunk_size export_handle.bytes_per_sector, ?_, ?_, ?_⟩
  · rw [hs.2.2.1, if_pos ⟨trivial, Nat.pos_iff_ne_zero.mp hb, hi, hc⟩]
  · rw [hn, Int.toNat_ofNat]
    exact_mod_cast hcov.1
  · rw [hn, Int.toNat_ofNat, Int.natCast_dvd_natCast]
    unfold number_of_sectors
    rw [← hcov.2]
    norm_cast

/-- C5 (amended), witness: at input_offset 65536 with chunks of 32768 bytes and sectors of
512 bytes, both multiples of the sector size, the recorded range covers the chunk. -/
theorem read_error_range_covers_aligned_chunk_witness :
    ∃ sector count : Nat,
      input_checksum_errors (export_handle_append_read_error true sample_failing_answers
          { sample_raw_session with input_offset := 65536 } 65536 32768).2
        = [(sector, count)]
      ∧ ((sector * 512 : Nat) : Int) ≤ 65536
      ∧ ((65536 : Int) + (32768 : Nat) ≤ (((sector + count) * 512 : Nat) : Int)
          ↔ ((512 : Nat) : Int) ∣ (65536 : Int) ∧ 512 ∣ 32768) :=
  read_error_range_covers_aligned_chunk sample_failing_answers
    { sample_raw_session with input_offset := 65536 } (by decide) (by decide) (by decide)
    (by decide) (by decide)

/-! ## C6: the output side of the ledger -/

theorem append_singleton_ne_self {α : Type} (l : List α) (a : α) : l ++ [a] ≠ l := by
  intro h
  have := congrArg List.length h
  simp at this

/-- C6: export_handle_append_read_error records an acquisition error on the output container
if and only if output_format is EWF: a call that returns 1 has added one range to the
acquisition errors of the output container exactly when the format is EWF, and no call,
successful or not, touches an output when the format is not EWF (the acquisition errors, the
raw output handle and use_stdout are unchanged).  The pair recorded on the output container
is the pair recorded on the input container: whenever a ledger grows it grows by the same
pair (start_sector, number_of_sectors), and a successful chunk-level call with EWF output has
added it to both. -/
theorem append_read_error_output_iff_ewf (have_low_level_functions : Bool)
    (lib : libewf_answers_t) (export_handle : export_handle_t) (start_offset : Int)
    (number_of_bytes : Nat) :
    let range := (start_sector start_offset export_handle.bytes_per_sector,
      number_of_sectors number_of_bytes export_handle.bytes_per_sector)
    let result := export_handle_append_read_error have_low_level_functions lib export_handle
      start_offset number_of_bytes
    (result.1 = 1 →
      (output_acquiry_errors result.2 = output_acquiry_errors export_handle ++ [range]
        ↔ export_handle.output_format = EXPORT_HANDLE_OUTPUT_FORMAT_EWF))
    ∧ (export_handle.output_format ≠ EXPORT_HANDLE_OUTPUT_FORMAT_EWF →
        output_acquiry_errors result.2 = output_acquiry_errors export_handle
        ∧ result.2.ewf_output_handle = export_handle.ewf_output_handle
        ∧ result.2.raw_output_handle = export_handle.raw_output_handle
        ∧ result.2.use_stdout = export_handle.use_stdout)
    ∧ (output_acquiry_errors result.2 ≠ output_acquiry_errors export_handle →
        output_acquiry_errors result.2 = output_acquiry_errors export_handle ++ [range])
    ∧ (input_checksum_errors result.2 ≠ input_checksum_errors export_handle →
        input_checksum_errors result.2 = input_checksum_errors export_handle ++ [range])
    ∧ (result.1 = 1 → have_low_level_functions = true →
        export_handle.output_format = EXPORT_HANDLE_OUTPUT_FORMAT_EWF →
        input_checksum_errors result.2 = input_checksum_errors export_handle ++ [range]
        ∧ output_acquiry_errors result.2
            = output_acquiry_errors export_handle ++ [range]) := by
  intro range result
  have hs := append_read_error_spec have_low_level_functions lib export_handle start_offset
    number_of_bytes
  have hfr := append_read_error_frame have_low_level_functions lib export_handle start_offset
    number_of_bytes
  simp only [] at hs hfr
  obtain ⟨-, hone, hin, hout⟩ := hs
  refine ⟨?_, ?_, ?_, ?_, ?_⟩
  · intro h1
    have hc := hone.1 h1
    constructor
    · intro hgrow
      by_contra hf
      have hsame : output_acquiry_errors result.2 = output_acquiry_errors export_handle := by
        rw [hout, if_neg]
        exact fun hcond => hf hcond.2.2.1
      rw [hsame] at hgrow
      exact append_singleton_ne_self _ _ hgrow.symm
    · intro hf
      rw [hout, if_pos ⟨hc.1, hc.2.1, hf, hc.2.2 hf⟩]
  · intro hf
    refine ⟨?_, ?_, hfr.2.2.2.2.2.2.2.1, hfr.2.2.2.2.2.2.2.2⟩
    · rw [hout, if_neg]
      exact fun hcond => hf hcond.2.2.1
    · have hne : ¬ export_handle.output_format = EXPORT_HANDLE_OUTPUT_FORMAT_EWF := hf
      by_cases hb : export_handle.bytes_per_sector = 0
      · have hr : result = (-1, export_handle) := by
          simp only [result, export_handle_append_read_error, hb]
          split <;> rfl
        rw [hr]
      · cases hl : have_low_level_functions with
        | false =>
          simp [result, export_handle_append_read_error, append_read_error_output, hb, hl, hne]
        | true =>
          cases hi : export_handle.input_handle with
          | none => simp [result, export_handle_append_read_error, hi, hl]
          | some input =>
            by_cases hc : lib.append_checksum_error = 1
            · simp [result, export_handle_append_read_error, append_read_error_output, hb, hl,
                hi, hc, hne, libewf_handle_append_checksum_error]
            · simp [result, export_handle_append_read_error, append_read_error_output, hb, hl,
                hi, hc, hne, libewf_handle_append_checksum_error]
  · intro hchanged
    rw [hout] at hchanged ⊢
    split
    · rfl
    · rename_i hcond
      rw [if_neg hcond] at hchanged
      exact absurd rfl hchanged
  · intro hchanged
    rw [hin] at hchanged ⊢
    split
    · rfl
    · rename_i hcond
      rw [if_neg hcond] at hchanged
      exact absurd rfl hchanged
  · intro h1 hl hf
    have hc := hone.1 h1
    constructor
    · rw [hin, if_pos ⟨hl, hc.1, hc.2.1 hl⟩]
    · rw [hout, if_pos ⟨hc.1, hc.2.1, hf, hc.2.2 hf⟩]

/-- C6, witness: a successful chunk-level call on a session with EWF output records the
pair (100, 10) on both containers; the same call on a session with raw output records it on
the input container only. -/
theorem append_read_error_output_iff_ewf_witness :
    (input_checksum_errors (export_handle_append_read_error true sample_failing_answers
        sample_ewf_session 51200 5120).2 = [(100, 10)]
      ∧ output_acquiry_errors (export_handle_append_read_error true sample_failing_answers
        sample_ewf_session 51200 5120).2 = [(100, 10)])
    ∧ (output_acquiry_errors (export_handle_append_read_error true sample_failing_answers
        sample_raw_session 51200 5120).2 = []
      ∧ (export_handle_append_read_error true sample_failing_answers
        sample_raw_session 51200 5120).2.raw_output_handle = some sample_raw_output) := by
  have hewf := (append_read_error_output_iff_ewf true sample_failing_answers
    sample_ewf_session 51200 5120).2.2.2.2 (by decide) rfl (by decide)
  have hraw := (append_read_error_output_iff_ewf true sample_failing_answers
    sample_raw_session 51200 5120).2.1 (by decide)
  refine ⟨?_, ?_⟩
  · have e1 : start_sector 51200 sample_ewf_session.bytes_per_sector = 100 := by decide
    have e2 : number_of_sectors 5120 sample_ewf_session.bytes_per_sector = 10 := by decide
    have e3 : input_checksum_errors sample_ewf_session = [] := by decide
    have e4 : output_acquiry_errors sample_ewf_session = [] := by decide
    simpa [e1, e2, e3, e4] using hewf
  · have e4 : output_acquiry_errors sample_raw_session = [] := by decide
    have e5 : sample_raw_session.raw_output_handle = some sample_raw_output := by decide
    exact ⟨by simpa [e4] using hraw.1, by simpa [e5] using hraw.2.2.1⟩

/-! ## C7: a missing output handle is found after the input side has recorded -/

/-- C7, counterexample: in the chunk-level strategy, with output format EWF, no EWF output
handle, sectors of 512 bytes and an input handle with an empty ledger, the call returns -1
and the input container has the checksum error (100, 10) recorded. -/
theorem append_read_error_records_before_output_check :
    (export_handle_append_read_error true sample_failing_answers
        sample_ewf_session_without_output 51200 5120).1 = -1
    ∧ input_checksum_errors sample_ewf_session_without_output = []
    ∧ input_checksum_errors (export_handle_append_read_error true sample_failing_answers
        sample_ewf_session_without_output 51200 5120).2 = [(100, 10)] := by
  decide

/-- C7 (amended): when output_format is EWF and the EWF output handle is missing (with
bytes_per_sector > 0 and the input handle present) the call returns -1 and the output handle
is still missing; in the buffer-level strategy the handle is unchanged; in the chunk-level
strategy the check of the output handle comes after the input side, so the input ledger has
gained the range (start_sector, number_of_sectors) when the library accepted it and is
unchanged when the library refused it. -/
theorem append_read_error_missing_output (have_low_level_functions : Bool)
    (lib : libewf_answers_t) (export_handle : export_handle_t) (start_offset : Int)
    (number_of_bytes : Nat)
    (hf : export_handle.output_format = EXPORT_HANDLE_OUTPUT_FORMAT_EWF)
    (ho : export_handle.ewf_output_handle = none)
    (hb : 0 < export_handle.bytes_per_sector)
    (hi : export_handle.input_handle.isSome = true) :
    let range := (start_sector start_offset export_handle.bytes_per_sector,
      number_of_sectors number_of_bytes export_handle.bytes_per_sector)
    let result := export_handle_append_read_error have_low_level_functions lib export_handle
      start_offset number_of_bytes
    result.1 = -1
    ∧ result.2.ewf_output_handle = none
    ∧ (have_low_level_functions = false → result.2 = export_handle)
    ∧ (have_low_level_functions = true → lib.append_checksum_error = 1 →
        input_checksum_errors result.2 = input_checksum_errors export_handle ++ [range])
    ∧ (have_low_level_functions = true → lib.append_checksum_error ≠ 1 →
        result.2 = export_handle) := by
  intro range result
  have hb0 : export_handle.bytes_per_sector ≠ 0 := Nat.pos_iff_ne_zero.mp hb
  obtain ⟨input, hinput⟩ := Option.isSome_iff_exists.mp hi
  cases hl : have_low_level_functions with
  | false =>
    have hr : result = (-1, export_handle) := by
      simp [result, export_handle_append_read_error, append_read_error_output, hb0, hl, hf, ho]
    simp [hr, ho]
  | true =>
    by_cases hc : lib.append_checksum_error = 1
    · have hr : result = (-1, { export_handle with
          input_handle := some { input with
            checksum_errors := input.checksum_errors ++ [range] } }) := by
        simp [result, range, export_handle_append_read_error, append_read_error_output, hb0,
          hl, hf, ho, hinput, hc, libewf_handle_append_checksum_error]
      simp [hr, ho, hc, input_checksum_errors, hinput]
    · have hr : result = (-1, export_handle) := by
        simp [result, export_handle_append_read_error, hb0, hl, hinput, hc,
          libewf_handle_append_checksum_error]
        rw [← hinput]
      simp [hr, ho, hc]

/-- C7 (amended), witness: the chunk-level call on the session without output handle returns
-1 with the range on the input ledger; the buffer-level call leaves the session unchanged. -/
theorem append_read_error_missing_output_witness :
    (export_handle_append_read_error true sample_failing_answers
        sample_ewf_session_without_output 51200 5120).1 = -1
    ∧ (export_handle_append_read_error false sample_failing_answers
        sample_ewf_session_without_output 51200 5120).2 = sample_ewf_session_without_output :=
  ⟨(append_read_error_missing_output true sample_failing_answers
      sample_ewf_session_without_output 51200 5120 (by decide) (by decide) (by decide)
      (by decide)).1,
   (append_read_error_missing_output false sample_failing_answers
      sample_ewf_session_without_output 51200 5120 (by decide) (by decide) (by decide)
      (by decide)).2.2.1 rfl⟩

/-! ## export_handle_prepare_read_buffer in the chunk-level strategy -/

theorem prepare_read_buffer_of_failure (lib : libewf_answers_t)
    (export_handle : export_handle_t) (storage_media_buffer : storage_media_buffer_t)
    (hi : export_handle.input_handle.isSome = true) (hfail : lib.prepare_read_chunk = -1) :
    export_handle_prepare_read_buffer true lib export_handle storage_media_buffer
      = (if (export_handle_append_read_error true lib export_handle
              export_handle.input_offset export_handle.input_chunk_size).1 ≠ 1 then
          (-1, (export_handle_append_read_error true lib export_handle
              export_handle.input_offset export_handle.input_chunk_size).2,
            wipe_chunk export_handle (libewf_handle_prepare_read_chunk lib
              { storage_media_buffer with
                raw_buffer_data_size := storage_media_buffer.raw_buffer_size }).2)
        else
          prepare_read_buffer_finish
            (export_handle_append_read_error true lib export_handle
              export_handle.input_offset export_handle.input_chunk_size).2
            (wipe_chunk export_handle (libewf_handle_prepare_read_chunk lib
              { storage_media_buffer with
                raw_buffer_data_size := storage_media_buffer.raw_buffer_size }).2)
            (export_handle.input_chunk_size : Int)) := by
  obtain ⟨input, hinput⟩ := Option.isSome_iff_exists.mp hi
  simp only [export_handle_prepare_read_buffer, hinput]
  simp [libewf_handle_prepare_read_chunk, hfail]

theorem prepare_read_buffer_of_success (lib : libewf_answers_t)
    (export_handle : export_handle_t) (storage_media_buffer : storage_media_buffer_t)
    (hi : export_handle.input_handle.isSome = true) (hok : lib.prepare_read_chunk ≠ -1) :
    export_handle_prepare_read_buffer true lib export_handle storage_media_buffer
      = prepare_read_buffer_finish export_handle
          (libewf_handle_prepare_read_chunk lib
            { storage_media_buffer with
              raw_buffer_data_size := storage_media_buffer.raw_buffer_size }).2
          lib.prepare_read_chunk := by
  obtain ⟨input, hinput⟩ := Option.isSome_iff_exists.mp hi
  simp only [export_handle_prepare_read_buffer, hinput]
  simp [libewf_handle_prepare_read_chunk, hok]

/-! ## C2: a verification failure is not fatal -/

/-- C2: export_handle_prepare_read_buffer in the chunk-level strategy, when the chunk
preparation of the container reports a verification failure (-1), bytes_per_sector > 0, the
input handle and, for EWF output, the output handle are present and the ledger calls of the
library succeed: the call returns input_chunk_size, the input ledger gains exactly one range,
computed from the input_offset held before the call and the length input_chunk_size (for EWF
output the output ledger gains the same range, otherwise it is unchanged), and afterwards
input_offset is its previous value plus input_chunk_size. -/
theorem prepare_read_buffer_verification_failure (lib : libewf_answers_t)
    (export_handle : export_handle_t) (storage_media_buffer : storage_media_buffer_t)
    (hfail : lib.prepare_read_chunk = -1) (hb : 0 < export_handle.bytes_per_sector)
    (hi : export_handle.input_handle.isSome = true)
    (ho : export_handle.output_format = EXPORT_HANDLE_OUTPUT_FORMAT_EWF →
      export_handle.ewf_output_handle.isSome = true)
    (hc : lib.append_checksum_error = 1)
    (ha : export_handle.output_format = EXPORT_HANDLE_OUTPUT_FORMAT_EWF →
      lib.append_acquiry_error = 1) :
    let range := (start_sector export_handle.input_offset export_handle.bytes_per_sector,
      number_of_sectors export_handle.input_chunk_size export_handle.bytes_per_sector)
    let result := export_handle_prepare_read_buffer true lib export_handle
      storage_media_buffer
    result.1 = (export_handle.input_chunk_size : Int)
    ∧ input_checksum_errors result.2.1 = input_checksum_errors export_handle ++ [range]
    ∧ output_acquiry_errors result.2.1
        = (if export_handle.output_format = EXPORT_HANDLE_OUTPUT_FORMAT_EWF then
            output_acquiry_errors export_handle ++ [range]
          else output_acquiry_errors export_handle)
    ∧ result.2.1.input_offset
        = export_handle.input_offset + (export_handle.input_chunk_size : Int) := by
  intro range result
  have hb0 : export_handle.bytes_per_sector ≠ 0 := Nat.pos_iff_ne_zero.mp hb
  have hs := append_read_error_spec true lib export_handle export_handle.input_offset
    export_handle.input_chunk_size
  have hfr := append_read_error_frame true lib export_handle export_handle.input_offset
    export_handle.input_chunk_size
  simp only [] at hs hfr
  obtain ⟨-, hone, hin, hout⟩ := hs
  have h1 : (export_handle_append_read_error true lib export_handle
      export_handle.input_offset export_handle.input_chunk_size).1 = 1 :=
    hone.2 ⟨hb0, fun _ => ⟨hi, hc⟩, fun hf => ⟨ho hf, ha hf⟩⟩
  have hr : result = prepare_read_buffer_finish
      (export_handle_append_read_error true lib export_handle
        export_handle.input_offset export_handle.input_chunk_size).2
      (wipe_chunk export_handle (libewf_handle_prepare_read_chunk lib
        { storage_media_buffer with
          raw_buffer_data_size := storage_media_buffer.raw_buffer_size }).2)
      (export_handle.input_chunk_size : Int) := by
    simp only [result]
    rw [prepare_read_buffer_of_failure lib export_handle storage_media_buffer hi hfail,
      if_neg (by simp [h1])]
  rw [hr]
  refine ⟨rfl, ?_, ?_, ?_⟩
  · have : input_checksum_errors (prepare_read_buffer_finish
        (export_handle_append_read_error true lib export_handle
          export_handle.input_offset export_handle.input_chunk_size).2
        (wipe_chunk export_handle (libewf_handle_prepare_read_chunk lib
          { storage_media_buffer with
            raw_buffer_data_size := storage_media_buffer.raw_buffer_size }).2)
        (export_handle.input_chunk_size : Int)).2.1
        = input_checksum_errors (export_handle_append_read_error true lib export_handle
          export_handle.input_offset export_handle.input_chunk_size).2 := rfl
    rw [this, hin, if_pos ⟨trivial, hb0, hi, hc⟩]
  · have : output_acquiry_errors (prepare_read_buffer_finish
        (export_handle_append_read_error true lib export_handle
          export_handle.input_offset export_handle.input_chunk_size).2
        (wipe_chunk export_handle (libewf_handle_prepare_read_chunk lib
          { storage_media_buffer with
            raw_buffer_data_size := storage_media_buffer.raw_buffer_size }).2)
        (export_handle.input_chunk_size : Int)).2.1
        = output_acquiry_errors (export_handle_append_read_error true lib export_handle
          export_handle.input_offset export_handle.input_chunk_size).2 := rfl
    rw [this, hout]
    by_cases hf : export_handle.output_format = EXPORT_HANDLE_OUTPUT_FORMAT_EWF
    · rw [if_pos ⟨hb0, fun _ => ⟨hi, hc⟩, hf, ho hf, ha hf⟩, if_pos hf]
    · rw [if_neg (fun hcond => hf hcond.2.2.1), if_neg hf]
  · simp only [prepare_read_buffer_finish]
    rw [hfr.2.2.2.1]

/-- C2, witness: a failing chunk at input_offset 65536 of a session with EWF output returns
32768, records (128, 64) on both ledgers and moves input_offset to 98304. -/
theorem prepare_read_buffer_verification_failure_witness :
    (export_handle_prepare_read_buffer true sample_failing_answers
        { sample_ewf_session with input_offset := 65536 } sample_chunk_buffer).1 = 32768
    ∧ input_checksum_errors (export_handle_prepare_read_buffer true sample_failing_answers
        { sample_ewf_session with input_offset := 65536 } sample_chunk_buffer).2.1 = [(128, 64)]
    ∧ output_acquiry_errors (export_handle_prepare_read_buffer true sample_failing_answers
        { sample_ewf_session with input_offset := 65536 } sample_chunk_buffer).2.1 = [(128, 64)]
    ∧ (export_handle_prepare_read_buffer true sample_failing_answers
        { sample_ewf_session with input_offset := 65536 } sample_chunk_buffer).2.1.input_offset
        = 98304 := by
  have h := prepare_read_buffer_verification_failure sample_failing_answers
    { sample_ewf_session with input_offset := 65536 } sample_chunk_buffer (by decide) (by decide)
    (by decide) (by decide) (by decide) (by decide)
  have e1 : start_sector 65536 sample_ewf_session.bytes_per_sector = 128 := by decide
  have e2 : number_of_sectors sample_ewf_session.input_chunk_size
      sample_ewf_session.bytes_per_sector = 64 := by decide
  have e3 : input_checksum_errors { sample_ewf_session with input_offset := 65536 } = [] := by
    decide
  have e4 : output_acquiry_errors { sample_ewf_session with input_offset := 65536 } = [] := by
    decide
  have e5 : sample_ewf_session.output_format = EXPORT_HANDLE_OUTPUT_FORMAT_EWF := by decide
  have e6 : sample_ewf_session.input_chunk_size = 32768 := by decide
  simpa [e1, e2, e3, e4, e5, e6] using h

/-! ## C3: the offset after a sequence of chunks -/

theorem prepare_read_buffer_step (chunk : chunk_t) (export_handle : export_handle_t)
    (hi : export_handle.input_handle.isSome = true)
    (hb : 0 < export_handle.bytes_per_sector)
    (ho : export_handle.output_format = EXPORT_HANDLE_OUTPUT_FORMAT_EWF →
      export_handle.ewf_output_handle.isSome = true)
    (happ : chunk.fails_verification = true →
      chunk.append_checksum_error = 1
      ∧ (export_handle.output_format = EXPORT_HANDLE_OUTPUT_FORMAT_EWF →
          chunk.append_acquiry_error = 1)) :
    let result := export_handle_prepare_read_buffer true chunk.answers export_handle
      chunk.storage_media_buffer
    let reported : Nat :=
      if chunk.fails_verification then export_handle.input_chunk_size else chunk.nominal_size
    result.1 = (reported : Int)
    ∧ result.2.1.input_offset = export_handle.input_offset + (reported : Int)
    ∧ result.2.1.input_handle.isSome = true
    ∧ result.2.1.bytes_per_sector = export_handle.bytes_per_sector
    ∧ result.2.1.output_format = export_handle.output_format
    ∧ result.2.1.input_chunk_size = export_handle.input_chunk_size
    ∧ result.2.1.ewf_output_handle.isSome = export_handle.ewf_output_handle.isSome := by
  intro result reported
  cases hfv : chunk.fails_verification with
  | false =>
    have hok : chunk.answers.prepare_read_chunk ≠ -1 := by
      simp only [chunk_t.answers, hfv]
      intro h
      have h0 : (0 : Int) ≤ (chunk.nominal_size : Int) := Int.ofNat_nonneg _
      simp only [Bool.false_eq_true, if_false] at h
      omega
    have hr : result = prepare_read_buffer_finish export_handle
        (libewf_handle_prepare_read_chunk chunk.answers
          { chunk.storage_media_buffer with
            raw_buffer_data_size := chunk.storage_media_buffer.raw_buffer_size }).2
        chunk.answers.prepare_read_chunk :=
      prepare_read_buffer_of_success chunk.answers export_handle chunk.storage_media_buffer
        hi hok
    rw [hr]
    simp [prepare_read_buffer_finish, reported, hfv, chunk_t.answers, hi]
  | true =>
    have hfail : chunk.answers.prepare_read_chunk = -1 := by
      simp [chunk_t.answers, hfv]
    have hb0 : export_handle.bytes_per_sector ≠ 0 := Nat.pos_iff_ne_zero.mp hb
    have hs := append_read_error_spec true chunk.answers export_handle
      export_handle.input_offset export_handle.input_chunk_size
    have hfr := append_read_error_frame true chunk.answers export_handle
      export_handle.input_offset export_handle.input_chunk_size
    simp only [] at hs hfr
    have hc : chunk.answers.append_checksum_error = 1 := (happ hfv).1
    have ha : export_handle.output_format = EXPORT_HANDLE_OUTPUT_FORMAT_EWF →
        chunk.answers.append_acquiry_error = 1 := (happ hfv).2
    have h1 : (export_handle_append_read_error true chunk.answers export_handle
        export_handle.input_offset export_handle.input_chunk_size).1 = 1 :=
      hs.2.1.2 ⟨hb0, fun _ => ⟨hi, hc⟩, fun hf => ⟨ho hf, ha hf⟩⟩
    have hr : result = prepare_read_buffer_finish
        (export_handle_append_read_error true chunk.answers export_handle
          export_handle.input_offset export_handle.input_chunk_size).2
        (wipe_chunk export_handle (libewf_handle_prepare_read_chunk chunk.answers
          { chunk.storage_media_buffer with
            raw_buffer_data_size := chunk.storage_media_buffer.raw_buffer_size }).2)
        (export_handle.input_chunk_size : Int) := by
      simp only [result]
      rw [prepare_read_buffer_of_failure chunk.answers export_handle
        chunk.storage_media_buffer hi hfail, if_neg (by simp [h1])]
    rw [hr]
    simp only [prepare_read_buffer_finish, reported]
    obtain ⟨f1, f2, f3, f4, -, f6, f7, -, -⟩ := hfr
    refine ⟨by simp [hfv], by simp [f4, hfv], by rw [f6]; exact hi, f1, f2, f3, f7⟩

theorem prepare_read_buffer_loop_reported (chunks : List chunk_t) :
    ∀ export_handle : export_handle_t,
      export_handle.input_handle.isSome = true →
      0 < export_handle.bytes_per_sector →
      (export_handle.output_format = EXPORT_HANDLE_OUTPUT_FORMAT_EWF →
        export_handle.ewf_output_handle.isSome = true) →
      (∀ chunk ∈ chunks, chunk.fails_verification = true →
        chunk.append_checksum_error = 1
        ∧ (export_handle.output_format = EXPORT_HANDLE_OUTPUT_FORMAT_EWF →
            chunk.append_acquiry_error = 1)) →
      (prepare_read_buffer_loop true export_handle chunks).1 = 1
      ∧ (prepare_read_buffer_loop true export_handle chunks).2.input_offset
          = export_handle.input_offset
            + (reported_size_sum export_handle.input_chunk_size chunks : Int) := by
  induction chunks with
  | nil =>
    intro export_handle _ _ _ _
    simp [prepare_read_buffer_loop, reported_size_sum]
  | cons chunk chunks ih =>
    intro export_handle hi hb ho happ
    have hstep := prepare_read_buffer_step chunk export_handle hi hb ho
      (happ chunk (List.mem_cons_self _ _))
    simp only [] at hstep
    obtain ⟨s1, s2, s3, s4, s5, s6, s7⟩ := hstep
    have hne : (export_handle_prepare_read_buffer true chunk.answers export_handle
        chunk.storage_media_buffer).1 ≠ -1 := by
      rw [s1]
      have h0 : (0 : Int) ≤ ((if chunk.fails_verification = true then
          export_handle.input_chunk_size else chunk.nominal_size : Nat) : Int) :=
        Int.ofNat_nonneg _
      omega
    have hrest := ih (export_handle_prepare_read_buffer true chunk.answers export_handle
        chunk.storage_media_buffer).2.1 s3 (by rw [s4]; exact hb)
      (by rw [s5, s7]; exact ho)
      (by
        intro c hc hf
        rw [s5]
        exact happ c (List.mem_cons_of_mem _ hc) hf)
    simp only [prepare_read_buffer_loop, if_neg hne]
    refine ⟨hrest.1, ?_⟩
    rw [hrest.2, s2, s6]
    simp only [reported_size_sum, List.map_cons, List.sum_cons]
    push_cast
    ring

theorem reported_eq_nominal (input_chunk_size : Nat) (chunks : List chunk_t)
    (hfull : ∀ chunk ∈ chunks, chunk.fails_verification = true →
      chunk.nominal_size = input_chunk_size) :
    reported_size_sum input_chunk_size chunks = nominal_size_sum chunks := by
  induction chunks with
  | nil => rfl
  | cons chunk chunks ih =>
    have h1 := ih (fun c hc => hfull c (List.mem_cons_of_mem _ hc))
    have h2 := hfull chunk (List.mem_cons_self _ _)
    simp only [reported_size_sum, nominal_size_sum, List.map_cons, List.sum_cons] at h1 ⊢
    rw [h1]
    cases hfv : chunk.fails_verification with
    | false => simp
    | true => simp [h2 hfv]

/-- C3, counterexample: a media of one full chunk (32768 bytes) followed by a last chunk of
512 bytes whose verification fails: the nominal sizes sum to 33280, the loop ends with
input_offset 65536, because the failed chunk is counted with input_chunk_size. -/
theorem prepare_read_buffer_loop_short_failing_chunk :
    (prepare_read_buffer_loop true sample_raw_session
        [sample_full_chunk, sample_short_failing_chunk]).1 = 1
    ∧ sample_raw_session.input_offset = 0
    ∧ nominal_size_sum [sample_full_chunk, sample_short_failing_chunk] = 33280
    ∧ (prepare_read_buffer_loop true sample_raw_session
        [sample_full_chunk, sample_short_failing_chunk]).2.input_offset = 65536 := by
  decide

/-- C3 (amended): P1 in the chunk-level strategy, for a session with an input handle,
bytes_per_sector > 0, the output handle its format requires, and ledger calls that succeed:
for every finite sequence of chunks with nominal sizes s_1..s_n and every subset of chunks
that fail verification, running export_handle_prepare_read_buffer once per chunk from
input_offset = 0 completes and ends with input_offset equal to the sum, over the chunks, of
s_k for a chunk that verifies and input_chunk_size for a chunk that fails; this is
s_1 + ... + s_n whenever every failing chunk has nominal size input_chunk_size. -/
theorem prepare_read_buffer_loop_offset (export_handle : export_handle_t)
    (chunks : List chunk_t) (hstart : export_handle.input_offset = 0)
    (hi : export_handle.input_handle.isSome = true)
    (hb : 0 < export_handle.bytes_per_sector)
    (ho : export_handle.output_format = EXPORT_HANDLE_OUTPUT_FORMAT_EWF →
      export_handle.ewf_output_handle.isSome = true)
    (happ : ∀ chunk ∈ chunks, chunk.fails_verification = true →
      chunk.append_checksum_error = 1
      ∧ (export_handle.output_format = EXPORT_HANDLE_OUTPUT_FORMAT_EWF →
          chunk.append_acquiry_error = 1)) :
    (prepare_read_buffer_loop true export_handle chunks).1 = 1
    ∧ (prepare_read_buffer_loop true export_handle chunks).2.input_offset
        = (reported_size_sum export_handle.input_chunk_size chunks : Int)
    ∧ ((∀ chunk ∈ chunks, chunk.fails_verification = true →
          chunk.nominal_size = export_handle.input_chunk_size) →
        (prepare_read_buffer_loop true export_handle chunks).2.input_offset
          = (nominal_size_sum chunks : Int)) := by
  have h := prepare_read_buffer_loop_reported chunks export_handle hi hb ho happ
  rw [hstart, zero_add] at h
  refine ⟨h.1, h.2, fun hfull => ?_⟩
  rw [h.2, reported_eq_nominal _ _ hfull]

/-- C3 (amended), witness: three full chunks of which the second fails end at input_offset
98304, the sum of their nominal sizes. -/
theorem prepare_read_buffer_loop_offset_witness :
    (prepare_read_buffer_loop true sample_ewf_session
        [sample_full_chunk, sample_full_failing_chunk, sample_full_chunk]).1 = 1
    ∧ (prepare_read_buffer_loop true sample_ewf_session
        [sample_full_chunk, sample_full_failing_chunk, sample_full_chunk]).2.input_offset
        = ((32768 + 32768 + 32768 : Nat) : Int) := by
  have h := prepare_read_buffer_loop_offset sample_ewf_session
    [sample_full_chunk, sample_full_failing_chunk, sample_full_chunk] (by decide) (by decide)
    (by decide) (by decide) (by decide)
  refine ⟨h.1, ?_⟩
  have hsum : nominal_size_sum [sample_full_chunk, sample_full_failing_chunk,
      sample_full_chunk] = 32768 + 32768 + 32768 := by decide
  rw [← hsum]
  exact h.2.2 (by decide)

/-! ## C4: the offset book-keeping of the two strategies -/

/-- C4, counterexample: in the buffer-level strategy a call on a buffer with 4 valid raw
bytes returns 4 and leaves input_offset at 0. -/
theorem prepare_read_buffer_buffer_level_keeps_offset :
    (export_handle_prepare_read_buffer false sample_failing_answers sample_raw_session
        sample_buffer).1 = 4
    ∧ sample_raw_session.input_offset = 0
    ∧ (export_handle_prepare_read_buffer false sample_failing_answers sample_raw_session
        sample_buffer).2.1.input_offset = 0 := by
  decide

/-- C4 (amended): in the chunk-level strategy (HAVE_LOW_LEVEL_FUNCTIONS defined) every call
of export_handle_prepare_read_buffer that returns a byte count n >= 0 leaves input_offset
equal to its previous value plus n; in the buffer-level strategy the call returns
raw_buffer_data_size (or -1 without input handle) and leaves the export handle, input_offset
included, and the buffer unchanged. -/
theorem prepare_read_buffer_offset_bookkeeping (lib : libewf_answers_t)
    (export_handle : export_handle_t) (storage_media_buffer : storage_media_buffer_t) :
    (∀ n : Int,
      (export_handle_prepare_read_buffer true lib export_handle storage_media_buffer).1 = n →
      0 ≤ n →
      (export_handle_prepare_read_buffer true lib export_handle
          storage_media_buffer).2.1.input_offset = export_handle.input_offset + n)
    ∧ (export_handle_prepare_read_buffer false lib export_handle storage_media_buffer).2
        = (export_handle, storage_media_buffer)
    ∧ (export_handle.input_handle.isSome = true →
        (export_handle_prepare_read_buffer false lib export_handle storage_media_buffer).1
          = (storage_media_buffer.raw_buffer_data_size : Int))
    ∧ (export_handle.input_handle = none →
        (export_handle_prepare_read_buffer false lib export_handle storage_media_buffer).1
          = -1) := by
  refine ⟨?_, ?_, ?_, ?_⟩
  · intro n hn h0
    cases hi : export_handle.input_handle with
    | none =>
      have hr : (export_handle_prepare_read_buffer true lib export_handle
          storage_media_buffer).1 = -1 := by
        simp [export_handle_prepare_read_buffer, hi]
      omega
    | some input =>
      have hsome : export_handle.input_handle.isSome = true := by simp [hi]
      by_cases hfail : lib.prepare_read_chunk = -1
      · rw [prepare_read_buffer_of_failure lib export_handle storage_media_buffer hsome hfail]
          at hn ⊢
        have hfr := append_read_error_frame true lib export_handle
          export_handle.input_offset export_handle.input_chunk_size
        simp only [] at hfr
        by_cases h1 : (export_handle_append_read_error true lib export_handle
            export_handle.input_offset export_handle.input_chunk_size).1 = 1
        · rw [if_neg (by simp [h1])] at hn ⊢
          simp only [prepare_read_buffer_finish] at hn ⊢
          rw [hfr.2.2.2.1, hn]
        · rw [if_pos h1] at hn
          simp only at hn
          omega
      · rw [prepare_read_buffer_of_success lib export_handle storage_media_buffer hsome hfail]
          at hn ⊢
        simp only [prepare_read_buffer_finish] at hn ⊢
        rw [hn]
  · cases hi : export_handle.input_handle <;> simp [export_handle_prepare_read_buffer, hi]
  · intro hsome
    obtain ⟨input, hinput⟩ := Option.isSome_iff_exists.mp hsome
    simp [export_handle_prepare_read_buffer, hinput]
  · intro hnone
    simp [export_handle_prepare_read_buffer, hnone]

/-- C4 (amended), witness: the chunk-level call on a failing chunk returns 32768 and moves
input_offset from 0 to 32768. -/
theorem prepare_read_buffer_offset_bookkeeping_witness :
    (export_handle_prepare_read_buffer true sample_failing_answers sample_raw_session
        sample_chunk_buffer).2.1.input_offset = sample_raw_session.input_offset + 32768 :=
  (prepare_read_buffer_offset_bookkeeping sample_failing_answers sample_raw_session
    sample_chunk_buffer).1 32768 (by decide) (by decide)

/-! ## What export_handle_set_output_values leaves alone -/

theorem set_output_values_ewf_format_frame (have_guid_support : Bool)
    (lib : set_output_values_answers_t) (export_handle : export_handle_t)
    (output : libewf_handle_t) (values : output_values_t) :
    ∃ out, (set_output_values_ewf_format have_guid_support lib export_handle output
      values).2 = { export_handle with ewf_output_handle := out } := by
  unfold set_output_values_ewf_format
  split_ifs <;> exact ⟨_, rfl⟩

theorem set_output_values_ewf_media_frame (have_guid_support : Bool)
    (lib : set_output_values_answers_t) (export_handle : export_handle_t)
    (input output : libewf_handle_t) (values : output_values_t) :
    ∃ out compressed, (set_output_values_ewf_media have_guid_support lib export_handle input
      output values).2
      = { export_handle with ewf_output_handle := out, write_compressed := compressed } := by
  unfold set_output_values_ewf_media
  split_ifs
  · exact ⟨_, _, rfl⟩
  · exact ⟨_, _, rfl⟩
  · exact ⟨_, _, rfl⟩
  · exact ⟨_, _, rfl⟩
  · obtain ⟨out, hout⟩ := set_output_values_ewf_format_frame have_guid_support lib
      { export_handle with write_compressed := 1 }
      { output with
        header_codepage := values.header_codepage,
        chunk_size := input.chunk_size, bytes_per_sector := input.bytes_per_sector,
        sectors_per_chunk := input.sectors_per_chunk,
        media_size := values.media_size,
        compression_level := values.compression_level,
        compression_flags := values.compression_flags } values
    exact ⟨out, 1, hout⟩
  · obtain ⟨out, hout⟩ := set_output_values_ewf_format_frame have_guid_support lib
      { export_handle with write_compressed := 0 }
      { output with
        header_codepage := values.header_codepage,
        chunk_size := input.chunk_size, bytes_per_sector := input.bytes_per_sector,
        sectors_per_chunk := input.sectors_per_chunk,
        media_size := values.media_size,
        compression_level := values.compression_level,
        compression_flags := values.compression_flags } values
    exact ⟨out, 0, hout⟩

theorem set_output_values_ewf_header_frame (have_guid_support : Bool)
    (lib : set_output_values_answers_t) (export_handle : export_handle_t)
    (input output : libewf_handle_t) (values : output_values_t) :
    ∃ out compressed, (set_output_values_ewf_header have_guid_support lib export_handle input
      output values).2
      = { export_handle with ewf_output_handle := out, write_compressed := compressed } := by
  unfold set_output_values_ewf_header
  split_ifs
  · exact ⟨_, _, rfl⟩
  · exact ⟨_, _, rfl⟩
  · exact ⟨_, _, rfl⟩
  · exact ⟨_, _, rfl⟩
  · exact set_output_values_ewf_media_frame _ _ _ _ _ _

theorem set_output_values_raw_frame (lib : set_output_values_answers_t)
    (export_handle : export_handle_t) (values : output_values_t) :
    ∃ out, (set_output_values_raw lib export_handle values).2
      = { export_handle with raw_output_handle := out } := by
  unfold set_output_values_raw
  split
  · exact ⟨_, rfl⟩
  · split_ifs
    · exact ⟨_, rfl⟩
    · exact ⟨_, rfl⟩
    · exact ⟨_, rfl⟩

theorem set_output_values_ewf_header_keeps (have_guid_support : Bool)
    (lib : set_output_values_answers_t) (export_handle : export_handle_t)
    (input output : libewf_handle_t) (values : output_values_t) :
    (set_output_values_ewf_header have_guid_support lib export_handle input output
        values).2.wipe_chunk_on_error = export_handle.wipe_chunk_on_error
    ∧ (set_output_values_ewf_header have_guid_support lib export_handle input output
        values).2.input_chunk_size = export_handle.input_chunk_size
    ∧ (set_output_values_ewf_header have_guid_support lib export_handle input output
        values).2.input_offset = export_handle.input_offset
    ∧ (set_output_values_ewf_header have_guid_support lib export_handle input output
        values).2.bytes_per_sector = export_handle.bytes_per_sector := by
  obtain ⟨out, compressed, h⟩ := set_output_values_ewf_header_frame have_guid_support lib
    export_handle input output values
  rw [h]
  exact ⟨rfl, rfl, rfl, rfl⟩

theorem set_output_values_raw_keeps (lib : set_output_values_answers_t)
    (export_handle : export_handle_t) (values : output_values_t) :
    (set_output_values_raw lib export_handle values).2.wipe_chunk_on_error
      = export_handle.wipe_chunk_on_error
    ∧ (set_output_values_raw lib export_handle values).2.input_chunk_size
      = export_handle.input_chunk_size
    ∧ (set_output_values_raw lib export_handle values).2.input_offset
      = export_handle.input_offset
    ∧ (set_output_values_raw lib export_handle values).2.bytes_per_sector
      = export_handle.bytes_per_sector := by
  obtain ⟨out, h⟩ := set_output_values_raw_frame lib export_handle values
  rw [h]
  exact ⟨rfl, rfl, rfl, rfl⟩

theorem set_output_values_keeps (have_guid_support : Bool)
    (lib : set_output_values_answers_t) (export_handle : export_handle_t)
    (values : output_values_t) :
    (export_handle_set_output_values have_guid_support lib export_handle
        values).2.wipe_chunk_on_error = export_handle.wipe_chunk_on_error
    ∧ (export_handle_set_output_values have_guid_support lib export_handle
        values).2.input_chunk_size = export_handle.input_chunk_size
    ∧ (export_handle_set_output_values have_guid_support lib export_handle
        values).2.input_offset = export_handle.input_offset
    ∧ (∀ input, export_handle.input_handle = some input → lib.get_bytes_per_sector = 1 →
        (export_handle_set_output_values have_guid_support lib export_handle
          values).2.bytes_per_sector = input.bytes_per_sector) := by
  cases hi : export_handle.input_handle with
  | none => simp [export_handle_set_output_values, hi]
  | some input =>
    by_cases hg : lib.get_bytes_per_sector = 1
    · by_cases hw : lib.set_read_wipe_chunk_on_error = 1
      · by_cases hf : export_handle.output_format = EXPORT_HANDLE_OUTPUT_FORMAT_EWF
        · cases ho : export_handle.ewf_output_handle with
          | none => simp [export_handle_set_output_values, hi, hg, hw, hf, ho]
          | some output =>
            have hr : export_handle_set_output_values have_guid_support lib export_handle
                values
                = set_output_values_ewf_header have_guid_support lib
                    { export_handle with
                      bytes_per_sector := input.bytes_per_sector,
                      input_handle := some { input with
                        read_wipe_chunk_on_error := values.wipe_chunk_on_error } }
                    { input with read_wipe_chunk_on_error := values.wipe_chunk_on_error }
                    output values := by
              simp [export_handle_set_output_values, hi, hg, hw, hf, ho]
            have hk := set_output_values_ewf_header_keeps have_guid_support lib
                { export_handle with
                  bytes_per_sector := input.bytes_per_sector,
                  input_handle := some { input with
                    read_wipe_chunk_on_error := values.wipe_chunk_on_error } }
                { input with read_wipe_chunk_on_error := values.wipe_chunk_on_error }
                output values
            rw [hr]
            refine ⟨hk.1, hk.2.1, hk.2.2.1, fun input0 h0 _ => ?_⟩
            cases h0
            exact hk.2.2.2
        · by_cases hr : export_handle.output_format = EXPORT_HANDLE_OUTPUT_FORMAT_RAW
              ∧ export_handle.use_stdout = 0
          · have hcall : export_handle_set_output_values have_guid_support lib export_handle
                values
                = set_output_values_raw lib
                    { export_handle with
                      bytes_per_sector := input.bytes_per_sector,
                      input_handle := some { input with
                        read_wipe_chunk_on_error := values.wipe_chunk_on_error } }
                    values := by
              have hne : EXPORT_HANDLE_OUTPUT_FORMAT_RAW ≠ EXPORT_HANDLE_OUTPUT_FORMAT_EWF := by
                decide
              simp [export_handle_set_output_values, hi, hg, hw, hr.1, hr.2, hne]
            have hk := set_output_values_raw_keeps lib
                { export_handle with
                  bytes_per_sector := input.bytes_per_sector,
                  input_handle := some { input with
                    read_wipe_chunk_on_error := values.wipe_chunk_on_error } }
                values
            rw [hcall]
            refine ⟨hk.1, hk.2.1, hk.2.2.1, fun input0 h0 _ => ?_⟩
            cases h0
            exact hk.2.2.2
          · simp [export_handle_set_output_values, hi, hg, hw, hf, hr]
      · simp [export_handle_set_output_values, hi, hg, hw]
    · simp [export_handle_set_output_values, hi, hg]

/-! ## C8: what export_handle_open_input copies from the container -/

/-- C8, counterexample: a fresh handle on which export_handle_open_input succeeds for a
container with sectors of 512 bytes has bytes_per_sector 0 afterwards, and
export_handle_append_read_error called on it returns -1. -/
theorem open_input_leaves_bytes_per_sector_zero :
    export_handle_initialize sample_initialize_answers none = (1, some sample_fresh_session)
    ∧ (export_handle_open_input sample_open_input_answers sample_fresh_session
        (some ["image.E01"]) 1).1 = 1
    ∧ sample_open_input_answers.container.bytes_per_sector = 512
    ∧ (export_handle_open_input sample_open_input_answers sample_fresh_session
        (some ["image.E01"]) 1).2.bytes_per_sector = 0
    ∧ (export_handle_append_read_error true sample_failing_answers
        (export_handle_open_input sample_open_input_answers sample_fresh_session
          (some ["image.E01"]) 1).2 51200 5120).1 = -1 := by
  refine ⟨rfl, ?_, ?_, ?_, ?_⟩ <;> decide

/-- C8 (amended): after a successful export_handle_open_input the input_chunk_size of the
session equals the chunk size of the input container, while bytes_per_sector is left as it
was (0 on a fresh handle), so that export_handle_append_read_error called right after the
open, before export_handle_set_output_values, returns -1 on the zero bytes_per_sector.
bytes_per_sector takes the bytes-per-sector value of the input container in
export_handle_set_output_values, as soon as its first library call succeeds. -/
theorem open_input_copies_chunk_size (lib : open_input_answers_t)
    (export_handle : export_handle_t) (filenames : Option (List String))
    (number_of_filenames : Int) :
    (export_handle_open_input lib export_handle filenames number_of_filenames).2.bytes_per_sector
      = export_handle.bytes_per_sector
    ∧ ((export_handle_open_input lib export_handle filenames number_of_filenames).1 = 1 →
        (export_handle_open_input lib export_handle filenames
          number_of_filenames).2.input_chunk_size = lib.container.chunk_size
        ∧ (export_handle_open_input lib export_handle filenames
          number_of_filenames).2.input_handle = some { lib.container with is_open := true })
    ∧ (export_handle.bytes_per_sector = 0 →
        ∀ (have_low_level_functions : Bool) (answers : libewf_answers_t) (start_offset : Int)
          (number_of_bytes : Nat),
          (export_handle_append_read_error have_low_level_functions answers
            (export_handle_open_input lib export_handle filenames number_of_filenames).2
            start_offset number_of_bytes).1 = -1)
    ∧ ((export_handle_open_input lib export_handle filenames number_of_filenames).1 = 1 →
        ∀ (have_guid_support : Bool) (configure : set_output_values_answers_t)
          (values : output_values_t), configure.get_bytes_per_sector = 1 →
          (export_handle_set_output_values have_guid_support configure
            (export_handle_open_input lib export_handle filenames number_of_filenames).2
            values).2.bytes_per_sector = lib.container.bytes_per_sector) := by
  have hbps : (export_handle_open_input lib export_handle filenames
      number_of_filenames).2.bytes_per_sector = export_handle.bytes_per_sector := by
    unfold export_handle_open_input
    split
    · rfl
    · split
      · rfl
      · split_ifs <;> rfl
  have hopen : (export_handle_open_input lib export_handle filenames number_of_filenames).1 = 1 →
      (export_handle_open_input lib export_handle filenames
        number_of_filenames).2.input_chunk_size = lib.container.chunk_size
      ∧ (export_handle_open_input lib export_handle filenames
        number_of_filenames).2.input_handle = some { lib.container with is_open := true } := by
    unfold export_handle_open_input
    split
    · intro h; simp at h
    · split
      · intro h; simp at h
      · split_ifs <;> intro h <;> simp at h ⊢
  refine ⟨hbps, hopen, ?_, ?_⟩
  · intro hzero have_low_level_functions answers start_offset number_of_bytes
    have hz := hbps.trans hzero
    simp only [export_handle_append_read_error, hz]
    split <;> rfl
  · intro h1 have_guid_support configure values hg
    have hk := set_output_values_keeps have_guid_support configure
      (export_handle_open_input lib export_handle filenames number_of_filenames).2 values
    rw [hk.2.2.2 _ (hopen h1).2 hg]

/-- C8 (amended), witness: on the fresh handle the open succeeds, input_chunk_size is 32768,
and a following export_handle_set_output_values sets bytes_per_sector to 512. -/
theorem open_input_copies_chunk_size_witness :
    (export_handle_open_input sample_open_input_answers sample_fresh_session
        (some ["image.E01"]) 1).2.input_chunk_size = 32768
    ∧ (export_handle_set_output_values true sample_set_output_values_answers
        (export_handle_open_input sample_open_input_answers sample_fresh_session
          (some ["image.E01"]) 1).2 sample_output_values).2.bytes_per_sector = 512 := by
  have h := open_input_copies_chunk_size sample_open_input_answers sample_fresh_session
    (some ["image.E01"]) 1
  have h1 : (export_handle_open_input sample_open_input_answers sample_fresh_session
      (some ["image.E01"]) 1).1 = 1 := by decide
  exact ⟨(h.2.1 h1).1, h.2.2.2 h1 true sample_set_output_values_answers sample_output_values
    rfl⟩

/-! ## C9: the wipe of a chunk on error -/

theorem prepare_read_buffer_without_wipe (lib : libewf_answers_t)
    (export_handle : export_handle_t) (storage_media_buffer : storage_media_buffer_t)
    (hi : export_handle.input_handle.isSome = true)
    (hw : export_handle.wipe_chunk_on_error = 0) :
    (export_handle_prepare_read_buffer true lib export_handle
        storage_media_buffer).2.2.raw_buffer = lib.prepare_read_chunk_raw_buffer := by
  by_cases hfail : lib.prepare_read_chunk = -1
  · rw [prepare_read_buffer_of_failure lib export_handle storage_media_buffer hi hfail]
    split <;>
      simp [prepare_read_buffer_finish, wipe_chunk, hw, libewf_handle_prepare_read_chunk]
  · rw [prepare_read_buffer_of_success lib export_handle storage_media_buffer hi hfail]
    simp [prepare_read_buffer_finish, libewf_handle_prepare_read_chunk]

theorem set_output_values_after_initialize_keeps_wipe_zero (have_guid_support : Bool)
    (lib : set_output_values_answers_t) (values : output_values_t) :
    (export_handle_set_output_values have_guid_support lib sample_fresh_session
        values).2.wipe_chunk_on_error = 0 :=
  (set_output_values_keeps have_guid_support lib sample_fresh_session values).1

/-- C9 (code bug): from a freshly initialized export handle, with the input opened and raw
output to the standard output, export_handle_set_output_values succeeds with
wipe_chunk_on_error = 1; it hands the flag to the input container only, the field
wipe_chunk_on_error of the export handle stays 0.  The following
export_handle_prepare_read_buffer (chunk-level strategy) on a chunk that fails verification
returns input_chunk_size and records the error range, and the raw buffer of capacity 32768
still holds the bytes of value 170 that the library left: it is not zero-filled. -/
theorem wipe_chunk_on_error_not_applied :
    export_handle_initialize sample_initialize_answers none = (1, some sample_fresh_session)
    ∧ (export_handle_set_output_values true sample_set_output_values_answers
        sample_opened_stdout_session sample_output_values).1 = 1
    ∧ sample_output_values.wipe_chunk_on_error = 1
    ∧ sample_configured_session.wipe_chunk_on_error = 0
    ∧ (export_handle_prepare_read_buffer true sample_failing_answers
        sample_configured_session sample_chunk_buffer).1 = 32768
    ∧ input_checksum_errors (export_handle_prepare_read_buffer true sample_failing_answers
        sample_configured_session sample_chunk_buffer).2.1 = [(0, 64)]
    ∧ (export_handle_prepare_read_buffer true sample_failing_answers
        sample_configured_session sample_chunk_buffer).2.2.raw_buffer_size = 32768
    ∧ (export_handle_prepare_read_buffer true sample_failing_answers
        sample_configured_session sample_chunk_buffer).2.2.raw_buffer
        = List.replicate 32768 170
    ∧ (export_handle_prepare_read_buffer true sample_failing_answers
        sample_configured_session sample_chunk_buffer).2.2.raw_buffer
        ≠ List.replicate 32768 0 := by
  refine ⟨rfl, ?_, ?_, ?_, ?_, ?_, ?_, rfl, ?_⟩
  · decide
  · decide
  · decide
  · decide
  · decide
  · decide
  · have hraw : (export_handle_prepare_read_buffer true sample_failing_answers
        sample_configured_session sample_chunk_buffer).2.2.raw_buffer
        = List.replicate 32768 170 := rfl
    rw [hraw]
    intro h
    have h0 : (170 : Nat) = 0 := (List.replicate_right_inj (by norm_num)).mp h
    omega

/-! ## C10: a write size that differs from the data length of the buffer -/

/-- C10, counterexample: raw output to the standard output, a buffer with is_compressed = 0
and raw_buffer_data_size = 4, and write_size = 2: the call returns what the write returns
(here 2) and the first two bytes of the raw buffer have been written to the stream. -/
theorem write_buffer_raw_ignores_data_size :
    sample_buffer.is_compressed = 0
    ∧ sample_buffer.raw_buffer_data_size = 4
    ∧ export_handle_write_buffer true 2 sample_stdout_session [] sample_buffer 2
        = (2, sample_stdout_session, [[1, 2]])
    ∧ export_handle_write_buffer false 2 sample_stdout_session [] sample_buffer 2
        = (2, sample_stdout_session, [[1, 2]]) := by
  refine ⟨rfl, rfl, rfl, rfl⟩

/-- C10 (amended): export_handle_write_buffer with EWF output in the chunk-level strategy:
for every nonzero write_size that differs from the data length of the buffer's
authoritative representation (raw_buffer_data_size when is_compressed == 0,
compression_buffer_data_size otherwise) the call returns -1 and passes nothing to the output
container or stream: the export handle with its output handles and the stream are
unchanged. -/
theorem write_buffer_size_mismatch (write_answer : Int) (export_handle : export_handle_t)
    (stdout : List (List Nat)) (storage_media_buffer : storage_media_buffer_t)
    (write_size : Nat)
    (hf : export_handle.output_format = EXPORT_HANDLE_OUTPUT_FORMAT_EWF)
    (h0 : write_size ≠ 0)
    (hm : write_size ≠
      (if storage_media_buffer.is_compressed = 0 then
        storage_media_buffer.raw_buffer_data_size
      else storage_media_buffer.compression_buffer_data_size)) :
    export_handle_write_buffer true write_answer export_handle stdout storage_media_buffer
        write_size = (-1, export_handle, stdout)
    ∧ passed_to_output
        (export_handle_write_buffer true write_answer export_handle stdout
          storage_media_buffer write_size).2.1
        (export_handle_write_buffer true write_answer export_handle stdout
          storage_media_buffer write_size).2.2
      = passed_to_output export_handle stdout := by
  have hr : export_handle_write_buffer true write_answer export_handle stdout
      storage_media_buffer write_size = (-1, export_handle, stdout) := by
    cases ho : export_handle.ewf_output_handle with
    | none => simp [export_handle_write_buffer, h0, hf, ho]
    | some output => simp [export_handle_write_buffer, h0, hf, ho, hm]
  exact ⟨hr, by rw [hr]⟩

/-- C10 (amended), witness: EWF output, chunk-level strategy, 4 valid raw bytes and
write_size 2: the call returns -1 and the session is unchanged. -/
theorem write_buffer_size_mismatch_witness :
    export_handle_write_buffer true 2 sample_ewf_session [] sample_buffer 2
      = (-1, sample_ewf_session, []) :=
  (write_buffer_size_mismatch 2 sample_ewf_session [] sample_buffer 2 (by decide)
    (by decide) (by decide)).1

/-! ## C11: a write of zero bytes -/

/-- C11: export_handle_write_buffer with write_size == 0 returns 0 for every export handle
and buffer, in both strategies, whatever the output format and whether or not an output
handle exists; the export handle, with its output handles, and the standard output are
returned as they were, so nothing is written and no state changes. -/
theorem write_buffer_zero_size (have_low_level_functions : Bool) (write_answer : Int)
    (export_handle : export_handle_t) (stdout : List (List Nat))
    (storage_media_buffer : storage_media_buffer_t) :
    export_handle_write_buffer have_low_level_functions write_answer export_handle stdout
      storage_media_buffer 0 = (0, export_handle, stdout) := by
  simp [export_handle_write_buffer]

/-! ## C18, C19: export_handle_open_output -/

/-- C18: export_handle_open_output with valid arguments (format EWF or RAW, a filename, for
RAW not the standard output, no output handle of the kind set yet, the new handle
initialised) whose container open fails returns 1, leaves the handle field of the kind
absent, and has set output_format to the requested format. -/
theorem open_output_failed_open (lib : open_output_answers_t)
    (export_handle : export_handle_t) (name : String) (hinit : lib.handle_initialize = 1)
    (hopen : lib.handle_open ≠ 1) :
    (export_handle.ewf_output_handle = none →
      export_handle_open_output lib export_handle EXPORT_HANDLE_OUTPUT_FORMAT_EWF (some name)
        = (1, { export_handle with
                output_format := EXPORT_HANDLE_OUTPUT_FORMAT_EWF, ewf_output_handle := none }))
    ∧ (export_handle.raw_output_handle = none → name ≠ "-" →
      export_handle_open_output lib export_handle EXPORT_HANDLE_OUTPUT_FORMAT_RAW (some name)
        = (1, { export_handle with
                output_format := EXPORT_HANDLE_OUTPUT_FORMAT_RAW,
                raw_output_handle := none })) := by
  have hne : EXPORT_HANDLE_OUTPUT_FORMAT_RAW ≠ EXPORT_HANDLE_OUTPUT_FORMAT_EWF := by decide
  constructor
  · intro hnone
    simp [export_handle_open_output, hnone, hinit, hopen]
  · intro hnone hname
    simp [export_handle_open_output, hnone, hinit, hopen, hne, hname]

/-- C18, witness: on the opened session a failing open of an EWF output and a failing open
of a raw output file both return 1 and leave no output handle. -/
theorem open_output_failed_open_witness :
    (export_handle_open_output { handle_initialize := 1, handle_open := -1 }
        sample_opened_session EXPORT_HANDLE_OUTPUT_FORMAT_EWF (some "out")).1 = 1
    ∧ (export_handle_open_output { handle_initialize := 1, handle_open := -1 }
        sample_opened_session EXPORT_HANDLE_OUTPUT_FORMAT_EWF
        (some "out")).2.ewf_output_handle = none
    ∧ (export_handle_open_output { handle_initialize := 1, handle_open := -1 }
        sample_opened_session EXPORT_HANDLE_OUTPUT_FORMAT_RAW (some "out.raw")).1 = 1
    ∧ (export_handle_open_output { handle_initialize := 1, handle_open := -1 }
        sample_opened_session EXPORT_HANDLE_OUTPUT_FORMAT_RAW
        (some "out.raw")).2.raw_output_handle = none := by
  have h := open_output_failed_open { handle_initialize := 1, handle_open := -1 }
    sample_opened_session
  have hewf := (h "out" rfl (by decide)).1 rfl
  have hraw := (h "out.raw" rfl (by decide)).2 rfl (by decide)
  rw [hewf, hraw]
  exact ⟨rfl, rfl, rfl, rfl⟩

/-- C19: export_handle_open_output with format RAW and the filename "-" returns 1, sets
use_stdout and output_format and changes nothing else, so that no raw container handle is
created; with format RAW and any other filename the call leaves use_stdout as it was; with a
format that is neither EWF nor RAW the call returns -1 and leaves the export handle, with
output_format and every handle, unchanged. -/
theorem open_output_stdout (lib : open_output_answers_t) (export_handle : export_handle_t)
    (output_format : Nat) (filename : Option String) :
    export_handle_open_output lib export_handle EXPORT_HANDLE_OUTPUT_FORMAT_RAW (some "-")
      = (1, { export_handle with
              output_format := EXPORT_HANDLE_OUTPUT_FORMAT_RAW, use_stdout := 1 })
    ∧ (∀ name : String, name ≠ "-" →
        (export_handle_open_output lib export_handle EXPORT_HANDLE_OUTPUT_FORMAT_RAW
          (some name)).2.use_stdout = export_handle.use_stdout)
    ∧ (output_format ≠ EXPORT_HANDLE_OUTPUT_FORMAT_EWF →
        output_format ≠ EXPORT_HANDLE_OUTPUT_FORMAT_RAW →
        export_handle_open_output lib export_handle output_format filename
          = (-1, export_handle)) := by
  have hne : EXPORT_HANDLE_OUTPUT_FORMAT_RAW ≠ EXPORT_HANDLE_OUTPUT_FORMAT_EWF := by decide
  have hlen : "-".length = 1 := by decide
  refine ⟨?_, ?_, ?_⟩
  · simp [export_handle_open_output, hne, hlen]
  · intro name hname
    simp only [export_handle_open_output, hne, hname, ne_eq, not_true_eq_false,
      not_false_eq_true, and_false, and_true, if_false, if_true]
    split_ifs <;> rfl
  · intro h1 h2
    simp [export_handle_open_output, h1, h2]

/-- C19, witness: a raw output file name other than "-" leaves use_stdout at 0, and the
format code 0 is refused with the session unchanged. -/
theorem open_output_stdout_witness :
    (export_handle_open_output sample_open_output_answers sample_opened_session
        EXPORT_HANDLE_OUTPUT_FORMAT_RAW (some "out.raw")).2.use_stdout = 0
    ∧ export_handle_open_output sample_open_output_answers sample_opened_session 0
        (some "out.raw") = (-1, sample_opened_session) :=
  ⟨(open_output_stdout sample_open_output_answers sample_opened_session 0
      (some "out.raw")).2.1 "out.raw" (by decide),
   (open_output_stdout sample_open_output_answers sample_opened_session 0
      (some "out.raw")).2.2 (by decide) (by decide)⟩

/-! ## C20: the order of the close calls -/

theorem close_raw_output_spec (lib : close_answers_t) (export_handle : export_handle_t)
    (calls : List close_call_t) :
    (close_raw_output lib export_handle calls).2.1.input_handle = export_handle.input_handle
    ∧ (close_raw_output lib export_handle calls).2.1.ewf_output_handle
        = export_handle.ewf_output_handle
    ∧ (close_raw_output lib export_handle calls).2.1.raw_output_handle.isSome
        = export_handle.raw_output_handle.isSome
    ∧ (close_raw_output lib export_handle calls).2.1.use_stdout = export_handle.use_stdout
    ∧ ((close_raw_output lib export_handle calls).1 = 0
        ∨ (close_raw_output lib export_handle calls).1 = -1)
    ∧ ((close_raw_output lib export_handle calls).1 = 0 ↔
        (export_handle.raw_output_handle.isSome = true → lib.raw_output_close = 0))
    ∧ (close_raw_output lib export_handle calls).2.2
        = calls ++ (if export_handle.raw_output_handle.isSome then [close_call_t.raw_output]
            else []) := by
  cases hr : export_handle.raw_output_handle with
  | none => simp [close_raw_output, hr]
  | some output =>
    by_cases ha : lib.raw_output_close = 0
    · simp [close_raw_output, hr, ha, libsmraw_handle_close]
    · simp [close_raw_output, hr, ha, libsmraw_handle_close]

theorem close_outputs_spec (lib : close_answers_t) (export_handle : export_handle_t)
    (calls : List close_call_t) :
    (close_outputs lib export_handle calls).2.1.input_handle = export_handle.input_handle
    ∧ (close_outputs lib export_handle calls).2.1.ewf_output_handle.isSome
        = export_handle.ewf_output_handle.isSome
    ∧ (close_outputs lib export_handle calls).2.1.raw_output_handle.isSome
        = export_handle.raw_output_handle.isSome
    ∧ (close_outputs lib export_handle calls).2.1.use_stdout = export_handle.use_stdout
    ∧ ((close_outputs lib export_handle calls).1 = 0
        ∨ (close_outputs lib export_handle calls).1 = -1)
    ∧ ((close_outputs lib export_handle calls).1 = 0 ↔
        (export_handle.ewf_output_handle.isSome = true → lib.ewf_output_close = 0)
        ∧ (export_handle.raw_output_handle.isSome = true → lib.raw_output_close = 0))
    ∧ (close_outputs lib export_handle calls).2.2
        = calls
          ++ (if export_handle.ewf_output_handle.isSome then [close_call_t.ewf_output]
              else [])
          ++ (if export_handle.raw_output_handle.isSome
                ∧ (export_handle.ewf_output_handle.isSome = true → lib.ewf_output_close = 0)
              then [close_call_t.raw_output] else []) := by
  cases he : export_handle.ewf_output_handle with
  | none =>
    have hraw := close_raw_output_spec lib export_handle calls
    obtain ⟨r1, r2, r3, r4, r5, r6, r7⟩ := hraw
    simp only [close_outputs, he]
    refine ⟨r1, by rw [r2, he], r3, r4, r5, ?_, ?_⟩
    · rw [r6]; simp
    · rw [r7]; simp
  | some output =>
    by_cases ha : lib.ewf_output_close = 0
    · have hraw := close_raw_output_spec lib
        { export_handle with ewf_output_handle := some { output with is_open := false } }
        (calls ++ [close_call_t.ewf_output])
      obtain ⟨r1, r2, r3, r4, r5, r6, r7⟩ := hraw
      have hcall : close_outputs lib export_handle calls
          = close_raw_output lib
              { export_handle with
                ewf_output_handle := some { output with is_open := false } }
              (calls ++ [close_call_t.ewf_output]) := by
        simp [close_outputs, he, ha, libewf_handle_close]
      rw [hcall]
      refine ⟨r1, by rw [r2]; rfl, r3, r4, r5, ?_, ?_⟩
      · rw [r6]; simp [ha]
      · rw [r7]; simp [ha]
    · simp [close_outputs, he, ha, libewf_handle_close]

/-- C20: export_handle_close closes an output container only after the input container was
closed successfully.  Without input handle the result is -1 and no close call is made; when
the close of the input fails the result is -1 and the only close call is the one on the
input; every sequence of close calls starts with the input, and contains an output close
only when the input close answered 0.  When the input close succeeds and an output close
fails the result is -1 and the input handle is closed all the same.  The result is 0 exactly
when the input is present and closed successfully and every present output handle closed
successfully; otherwise it is -1. -/
theorem close_order (lib : close_answers_t) (export_handle : export_handle_t) :
    (export_handle.input_handle = none →
      export_handle_close lib export_handle = (-1, export_handle, []))
    ∧ (∀ input, export_handle.input_handle = some input → lib.input_close ≠ 0 →
        export_handle_close lib export_handle = (-1, export_handle, [close_call_t.input]))
    ∧ (∀ call ∈ (export_handle_close lib export_handle).2.2,
        call ≠ close_call_t.input →
        lib.input_close = 0
        ∧ (export_handle_close lib export_handle).2.2.head? = some close_call_t.input)
    ∧ (∀ input, export_handle.input_handle = some input → lib.input_close = 0 →
        (export_handle_close lib export_handle).2.1.input_handle
          = some { input with is_open := false })
    ∧ ((export_handle_close lib export_handle).1 = 0 ↔
        export_handle.input_handle.isSome = true ∧ lib.input_close = 0
        ∧ (export_handle.ewf_output_handle.isSome = true → lib.ewf_output_close = 0)
        ∧ (export_handle.raw_output_handle.isSome = true → lib.raw_output_close = 0))
    ∧ ((export_handle_close lib export_handle).1 = 0
        ∨ (export_handle_close lib export_handle).1 = -1) := by
  cases hi : export_handle.input_handle with
  | none => simp [export_handle_close, hi]
  | some input =>
    by_cases ha : lib.input_close = 0
    · have hout := close_outputs_spec lib
        { export_handle with input_handle := some { input with is_open := false } }
        [close_call_t.input]
      obtain ⟨o1, -, -, -, o5, o6, o7⟩ := hout
      have hcall : export_handle_close lib export_handle
          = close_outputs lib
              { export_handle with input_handle := some { input with is_open := false } }
              [close_call_t.input] := by
        simp [export_handle_close, hi, ha, libewf_handle_close]
      rw [hcall]
      refine ⟨by simp, fun input0 _ hne => absurd ha hne, ?_, ?_, ?_, o5⟩
      · intro call _ _
        refine ⟨ha, ?_⟩
        rw [o7]
        simp
      · intro input0 h0 _
        rw [o1]
        simp at h0
        simp [h0]
      · rw [o6]
        simp [ha]
    · have hcall : export_handle_close lib export_handle
          = (-1, export_handle, [close_call_t.input]) := by
        simp only [export_handle_close, hi, libewf_handle_close, ha, if_false, ne_eq,
          not_false_eq_true, if_true]
        rw [← hi]
      rw [hcall]
      refine ⟨by simp, fun _ _ _ => rfl, ?_, fun _ _ h0 => absurd h0 ha, by simp [ha], by simp⟩
      intro call hmem hne
      simp at hmem
      exact absurd hmem hne

/-- C20, witness: on a session with EWF output whose output close fails the calls are the
input close and the EWF output close, the result is -1, and the input handle is closed. -/
theorem close_order_witness :
    (export_handle_close { input_close := 0, ewf_output_close := -1, raw_output_close := 0 }
        sample_ewf_session).1 = -1
    ∧ (export_handle_close { input_close := 0, ewf_output_close := -1, raw_output_close := 0 }
        sample_ewf_session).2.2 = [close_call_t.input, close_call_t.ewf_output]
    ∧ (export_handle_close { input_close := 0, ewf_output_close := -1, raw_output_close := 0 }
        sample_ewf_session).2.1.input_handle = some { sample_input with is_open := false } := by
  have h := close_order { input_close := 0, ewf_output_close := -1, raw_output_close := 0 }
    sample_ewf_session
  refine ⟨by decide, by decide, ?_⟩
  exact h.2.2.2.1 sample_input rfl rfl

/-! ## C17: the output targets of the export handle -/

theorem close_keeps_output_target (lib : close_answers_t) (export_handle : export_handle_t)
    (target : output_target_t) :
    has_output_target (export_handle_close lib export_handle).2.1 target
      = has_output_target export_handle target := by
  have hfields : (export_handle_close lib export_handle).2.1.ewf_output_handle.isSome
        = export_handle.ewf_output_handle.isSome
      ∧ (export_handle_close lib export_handle).2.1.raw_output_handle.isSome
        = export_handle.raw_output_handle.isSome
      ∧ (export_handle_close lib export_handle).2.1.use_stdout = export_handle.use_stdout := by
    cases hi : export_handle.input_handle with
    | none => simp [export_handle_close, hi]
    | some input =>
      by_cases ha : lib.input_close = 0
      · have hout := close_outputs_spec lib
          { export_handle with input_handle := some { input with is_open := false } }
          [close_call_t.input]
        obtain ⟨-, o2, o3, o4, -, -, -⟩ := hout
        have hcall : export_handle_close lib export_handle
            = close_outputs lib
                { export_handle with input_handle := some { input with is_open := false } }
                [close_call_t.input] := by
          simp [export_handle_close, hi, ha, libewf_handle_close]
        rw [hcall]
        exact ⟨o2, o3, o4⟩
      · simp [export_handle_close, hi, ha, libewf_handle_close]
  obtain ⟨h1, h2, h3⟩ := hfields
  cases target with
  | ewf_output => exact h1
  | raw_output => exact h2
  | stdout =>
    unfold has_output_target
    rw [h3]

theorem open_output_establishes (lib : open_output_answers_t)
    (export_handle : export_handle_t) (output_format : Nat) (filename : Option String)
    (target : output_target_t) :
    has_output_target
        (export_handle_open_output lib export_handle output_format filename).2 target
      = (has_output_target export_handle target
          || decide (established_target
              (output_call_t.open_output lib output_format filename) = some target)) := by
  have hne : EXPORT_HANDLE_OUTPUT_FORMAT_RAW ≠ EXPORT_HANDLE_OUTPUT_FORMAT_EWF := by decide
  have hlen : "-".length = 1 := by decide
  cases filename with
  | none =>
    by_cases hewf : output_format = EXPORT_HANDLE_OUTPUT_FORMAT_EWF
    · simp [export_handle_open_output, established_target, hewf]
    · by_cases hraw : output_format = EXPORT_HANDLE_OUTPUT_FORMAT_RAW
      · simp [export_handle_open_output, established_target, hraw, hne]
      · simp [export_handle_open_output, established_target, hewf, hraw]
  | some name =>
    by_cases hewf : output_format = EXPORT_HANDLE_OUTPUT_FORMAT_EWF
    · cases hpresent : export_handle.ewf_output_handle with
      | some output =>
        cases target <;>
          simp [export_handle_open_output, established_target, hewf, hpresent,
            has_output_target]
      | none =>
        by_cases hinit : lib.handle_initialize = 1
        · by_cases hopen : lib.handle_open = 1
          · cases target <;>
              simp [export_handle_open_output, established_target, hewf, hpresent,
                has_output_target, hinit, hopen]
          · cases target <;>
              simp [export_handle_open_output, established_target, hewf, hpresent,
                has_output_target, hinit, hopen]
        · cases target <;>
            simp [export_handle_open_output, established_target, hewf, hpresent,
              has_output_target, hinit]
    · by_cases hraw : output_format = EXPORT_HANDLE_OUTPUT_FORMAT_RAW
      · by_cases hname : name = "-"
        · cases target <;>
            simp [export_handle_open_output, established_target, hraw, hne,
              has_output_target, hname, hlen]
        · cases hpresent : export_handle.raw_output_handle with
          | some output =>
            cases target <;>
              simp [export_handle_open_output, established_target, hraw, hne, hpresent,
                has_output_target, hname]
          | none =>
            by_cases hinit : lib.handle_initialize = 1
            · by_cases hopen : lib.handle_open = 1
              · cases target <;>
                  simp [export_handle_open_output, established_target, hraw, hne, hpresent,
                    has_output_target, hname, hinit, hopen]
              · cases target <;>
                  simp [export_handle_open_output, established_target, hraw, hne, hpresent,
                    has_output_target, hname, hinit, hopen]
            · cases target <;>
                simp [export_handle_open_output, established_target, hraw, hne, hpresent,
                  has_output_target, hname, hinit]
      · cases target <;>
          simp [export_handle_open_output, established_target, hewf, hraw,
            has_output_target]

theorem calls_establish (calls : List output_call_t) :
    ∀ (export_handle : export_handle_t) (target : output_target_t),
      has_output_target (apply_output_calls export_handle calls) target = true
        ↔ has_output_target export_handle target = true
          ∨ target ∈ established_targets calls := by
  induction calls with
  | nil =>
    intro export_handle target
    simp [apply_output_calls, established_targets]
  | cons call calls ih =>
    intro export_handle target
    have hstep : has_output_target (apply_output_call export_handle call) target = true
        ↔ has_output_target export_handle target = true
          ∨ established_target call = some target := by
      cases call with
      | open_output lib output_format filename =>
        simp only [apply_output_call]
        rw [open_output_establishes]
        simp
      | close lib =>
        simp only [apply_output_call]
        rw [close_keeps_output_target]
        simp [established_target]
    have hrest := ih (apply_output_call export_handle call) target
    simp only [apply_output_calls, List.foldl_cons] at hrest ⊢
    rw [hrest, hstep]
    unfold established_targets
    rw [List.filterMap_cons]
    cases hcall : established_target call with
    | none => simp
    | some established =>
      simp only [List.mem_cons, Option.some.injEq]
      constructor
      · rintro ((h | h) | h)
        · exact Or.inl h
        · exact Or.inr (Or.inl h.symm)
        · exact Or.inr (Or.inr h)
      · rintro (h | h | h)
        · exact Or.inl (Or.inl h)
        · exact Or.inl (Or.inr h.symm)
        · exact Or.inr h

theorem output_targets_le_one_iff (export_handle : export_handle_t) :
    output_targets export_handle ≤ 1
      ↔ ∀ first second : output_target_t,
          has_output_target export_handle first = true →
          has_output_target export_handle second = true → first = second := by
  unfold output_targets
  constructor
  · intro hle first second hfirst hsecond
    cases first <;> cases second <;> first
      | rfl
      | (simp only [has_output_target, decide_eq_true_eq] at hfirst hsecond
         simp only [hfirst, hsecond, if_true, if_pos, ne_eq, not_false_eq_true] at hle
         omega)
  · intro hall
    by_contra hmany
    by_cases h1 : export_handle.ewf_output_handle.isSome = true
    · by_cases h2 : export_handle.raw_output_handle.isSome = true
      · exact absurd (hall output_target_t.ewf_output output_target_t.raw_output h1 h2)
          (by decide)
      · by_cases h3 : export_handle.use_stdout ≠ 0
        · exact absurd (hall output_target_t.ewf_output output_target_t.stdout h1
            (by simp [has_output_target, h3])) (by decide)
        · simp [h1, h2, h3] at hmany
    · by_cases h2 : export_handle.raw_output_handle.isSome = true
      · by_cases h3 : export_handle.use_stdout ≠ 0
        · exact absurd (hall output_target_t.raw_output output_target_t.stdout h2
            (by simp [has_output_target, h3])) (by decide)
        · simp [h1, h2, h3] at hmany
      · by_cases h3 : export_handle.use_stdout ≠ 0
        · simp [h1, h2, h3] at hmany
        · simp [h1, h2, h3] at hmany

/-- C17, counterexample: from the freshly initialized handle, a successful
export_handle_open_output with the EWF format followed by export_handle_open_output with
the raw format and the filename "-" (both return 1) leaves the EWF output handle present
and use_stdout set; a raw file after the standard output leaves use_stdout set and the raw
output handle present. -/
theorem open_output_twice_two_targets :
    export_handle_initialize sample_initialize_answers none = (1, some sample_fresh_session)
    ∧ (export_handle_open_output sample_open_output_answers sample_fresh_session
        EXPORT_HANDLE_OUTPUT_FORMAT_EWF (some "out")).1 = 1
    ∧ (export_handle_open_output sample_open_output_answers
        (export_handle_open_output sample_open_output_answers sample_fresh_session
          EXPORT_HANDLE_OUTPUT_FORMAT_EWF (some "out")).2
        EXPORT_HANDLE_OUTPUT_FORMAT_RAW (some "-")).1 = 1
    ∧ (apply_output_calls sample_fresh_session
        [output_call_t.open_output sample_open_output_answers
           EXPORT_HANDLE_OUTPUT_FORMAT_EWF (some "out"),
         output_call_t.open_output sample_open_output_answers
           EXPORT_HANDLE_OUTPUT_FORMAT_RAW (some "-")]).ewf_output_handle.isSome = true
    ∧ (apply_output_calls sample_fresh_session
        [output_call_t.open_output sample_open_output_answers
           EXPORT_HANDLE_OUTPUT_FORMAT_EWF (some "out"),
         output_call_t.open_output sample_open_output_answers
           EXPORT_HANDLE_OUTPUT_FORMAT_RAW (some "-")]).use_stdout = 1
    ∧ output_targets (apply_output_calls sample_fresh_session
        [output_call_t.open_output sample_open_output_answers
           EXPORT_HANDLE_OUTPUT_FORMAT_EWF (some "out"),
         output_call_t.open_output sample_open_output_answers
           EXPORT_HANDLE_OUTPUT_FORMAT_RAW (some "-")]) = 2
    ∧ output_targets (apply_output_calls sample_fresh_session
        [output_call_t.open_output sample_open_output_answers
           EXPORT_HANDLE_OUTPUT_FORMAT_RAW (some "-"),
         output_call_t.open_output sample_open_output_answers
           EXPORT_HANDLE_OUTPUT_FORMAT_RAW (some "out.raw")]) = 2 := by
  refine ⟨rfl, ?_, ?_, ?_, ?_, ?_, ?_⟩ <;> decide

/-- C17 (amended): in every state reachable from a freshly initialized export handle by any
sequence of export_handle_open_output and export_handle_close calls (with any formats and
filenames, container opens succeeding or failing), each of the three output targets holds
exactly when a call of the sequence established it; so at most one of {EWF output handle
present, raw output handle present, use_stdout set} holds if and only if the calls that
establish a target all establish the same one, as they do in any sequence of opens of one
kind, with retries after failed opens and with closes. -/
theorem output_targets_of_calls (lib : initialize_answers_t)
    (export_handle : export_handle_t) (calls : List output_call_t)
    (hfresh : export_handle_initialize lib none = (1, some export_handle)) :
    (∀ target : output_target_t,
      has_output_target (apply_output_calls export_handle calls) target = true
        ↔ target ∈ established_targets calls)
    ∧ (output_targets (apply_output_calls export_handle calls) ≤ 1
        ↔ ∀ first ∈ established_targets calls, ∀ second ∈ established_targets calls,
            first = second) := by
  have hzero : export_handle = { export_handle_zero with
      input_handle := some libewf_handle_new } := by
    unfold export_handle_initialize at hfresh
    simp only at hfresh
    split_ifs at hfresh <;> simp_all
  have hnone : ∀ target : output_target_t,
      has_output_target export_handle target = false := by
    intro target
    rw [hzero]
    cases target <;> decide
  have htargets : ∀ target : output_target_t,
      has_output_target (apply_output_calls export_handle calls) target = true
        ↔ target ∈ established_targets calls := by
    intro target
    rw [calls_establish, hnone target]
    simp
  refine ⟨htargets, ?_⟩
  rw [output_targets_le_one_iff]
  constructor
  · intro hall first hfirst second hsecond
    exact hall first second ((htargets first).mpr hfirst) ((htargets second).mpr hsecond)
  · intro hall first second hfirst hsecond
    exact hall first ((htargets first).mp hfirst) second ((htargets second).mp hsecond)

/-- C17 (amended), witness: from the fresh handle, a close, an EWF open whose container does
not open, the EWF open again with success, a third EWF open (refused, the handle is set), a
raw open whose container does not open, and a close leave one output target, the EWF
output handle. -/
theorem output_targets_of_calls_witness :
    output_targets (apply_output_calls sample_fresh_session sample_output_calls) ≤ 1
    ∧ has_output_target (apply_output_calls sample_fresh_session sample_output_calls)
        output_target_t.ewf_output = true :=
  ⟨(output_targets_of_calls sample_initialize_answers sample_fresh_session
      sample_output_calls rfl).2.mpr (by decide),
   ((output_targets_of_calls sample_initialize_answers sample_fresh_session
      sample_output_calls rfl).1 output_target_t.ewf_output).mpr (by decide)⟩

/-! ## C14, C15, C16: export_handle_sanitize_filename -/

theorem is_replaced_character_iff (character : Int) :
    is_replaced_character character = true ↔
      (0x01 ≤ character ∧ character ≤ 0x1f)
      ∨ character ∈ ([33, 36, 37, 38, 42, 43, 47, 58, 59, 60, 62, 63, 64, 92, 126] : List Int) := by
  simp only [is_replaced_character, Bool.or_eq_true, Bool.and_eq_true, decide_eq_true_eq,
    beq_iff_eq, List.mem_cons, List.mem_singleton, List.not_mem_nil, or_false]
  constructor
  · intro h
    omega
  · intro h
    omega

theorem sanitized_character_not_replaced (character : Int) :
    is_replaced_character (sanitized_character character) = false := by
  unfold sanitized_character
  by_cases h : is_replaced_character character = true
  · rw [if_pos h]
    decide
  · rw [if_neg h]
    simpa using h

theorem sanitized_character_idempotent (character : Int) :
    sanitized_character (sanitized_character character) = sanitized_character character := by
  have h := sanitized_character_not_replaced character
  generalize sanitized_character character = once at h ⊢
  simp [sanitized_character, h]

theorem sanitize_filename_loop_getElem? (filename_size : Nat) :
    ∀ (remaining iterator : Nat) (filename : List Int),
      filename_size - iterator = remaining → ∀ index : Nat,
      (sanitize_filename_loop filename_size iterator filename)[index]?
        = if iterator ≤ index ∧ index < filename_size then
            filename[index]?.map sanitized_character
          else filename[index]? := by
  intro remaining
  induction remaining with
  | zero =>
    intro iterator filename hrem index
    have hdone : ¬ iterator < filename_size := by omega
    rw [sanitize_filename_loop, if_neg hdone, if_neg]
    omega
  | succ remaining ih =>
    intro iterator filename hrem index
    have hmore : iterator < filename_size := by omega
    rw [sanitize_filename_loop, if_pos hmore, ih (iterator + 1) _ (by omega) index]
    by_cases hidx : index = iterator
    · subst hidx
      have hout : ¬ (index + 1 ≤ index ∧ index < filename_size) := by omega
      have hin : index ≤ index ∧ index < filename_size := ⟨le_refl _, hmore⟩
      rw [if_neg hout, if_pos hin]
      by_cases hlen : index < filename.length
      · have hget : filename[index]? = some filename[index] :=
          List.getElem?_eq_getElem hlen
        have hgetD : filename.getD index 0 = filename[index] := by
          rw [List.getD_eq_getElem?_getD, hget]
          rfl
        rw [hgetD, hget]
        by_cases hrep : is_replaced_character filename[index] = true
        · rw [if_pos hrep, List.getElem?_set_self hlen]
          simp [sanitized_character, hrep]
        · rw [if_neg hrep, hget]
          simp [sanitized_character, hrep]
      · have hnone : filename[index]? = none := List.getElem?_eq_none (by omega)
        have hgetD : filename.getD index 0 = 0 := by
          rw [List.getD_eq_getElem?_getD, hnone]
          rfl
        have hzero : is_replaced_character 0 = false := by decide
        rw [hgetD, hzero]
        simp [hnone]
    · have hset : (if is_replaced_character (filename.getD iterator 0) = true then
          filename.set iterator 95 else filename)[index]? = filename[index]? := by
        split
        · exact List.getElem?_set_ne (fun h => hidx h.symm)
        · rfl
      rw [hset]
      by_cases hin : iterator ≤ index ∧ index < filename_size
      · rw [if_pos hin, if_pos ⟨by omega, hin.2⟩]
      · rw [if_neg hin, if_neg (fun h => hin ⟨by omega, h.2⟩)]

theorem sanitize_filename_loop_length_from (filename_size : Nat) :
    ∀ (remaining iterator : Nat) (filename : List Int),
      filename_size - iterator = remaining →
      (sanitize_filename_loop filename_size iterator filename).length = filename.length := by
  intro remaining
  induction remaining with
  | zero =>
    intro iterator filename hrem
    have hdone : ¬ iterator < filename_size := by omega
    rw [sanitize_filename_loop, if_neg hdone]
  | succ remaining ih =>
    intro iterator filename hrem
    have hmore : iterator < filename_size := by omega
    rw [sanitize_filename_loop, if_pos hmore, ih (iterator + 1) _ (by omega)]
    split
    · exact List.length_set _ _ _
    · rfl

theorem sanitize_filename_loop_idempotent (filename_size : Nat) (filename : List Int) :
    sanitize_filename_loop filename_size 0 (sanitize_filename_loop filename_size 0 filename)
      = sanitize_filename_loop filename_size 0 filename := by
  apply List.ext_getElem?
  intro index
  rw [sanitize_filename_loop_getElem? filename_size filename_size 0 _ rfl index,
    sanitize_filename_loop_getElem? filename_size filename_size 0 filename rfl index]
  split
  · cases filename[index]? with
    | none => rfl
    | some character => simp [sanitized_character_idempotent]
  · rfl

/-- C14: export_handle_sanitize_filename, for every character array and every
filename_size <= SSIZE_MAX, returns 1 and leaves an array of the same length in which the
character at every index below filename_size is the underscore (code 95) when the input
character is in 0x01..0x1F or is one of the characters with the codes 33, 36, 37, 38, 42,
43, 47, 58, 59, 60, 62, 63, 64, 92, 126 (exclamation mark, dollar, percent, ampersand,
asterisk, plus, slash, colon, semicolon, less than, greater than, question mark, at,
backslash, tilde) and is the input character otherwise, the NUL terminator included; the
characters at an index of filename_size or more are the input characters. -/
theorem sanitize_filename_replaces (filename : List Int) (filename_size : Nat)
    (hsize : filename_size ≤ SSIZE_MAX) :
    ∃ sanitized : List Int,
      export_handle_sanitize_filename (some filename) filename_size = (1, some sanitized)
      ∧ sanitized.length = filename.length
      ∧ (∀ index : Nat, index < filename_size → ∀ character : Int,
          filename[index]? = some character →
          ((0x01 ≤ character ∧ character ≤ 0x1f)
              ∨ character ∈ ([33, 36, 37, 38, 42, 43, 47, 58, 59, 60, 62, 63, 64, 92, 126] :
                  List Int) →
            sanitized[index]? = some 95)
          ∧ (¬ ((0x01 ≤ character ∧ character ≤ 0x1f)
              ∨ character ∈ ([33, 36, 37, 38, 42, 43, 47, 58, 59, 60, 62, 63, 64, 92, 126] :
                  List Int)) →
            sanitized[index]? = some character))
      ∧ (∀ index : Nat, filename_size ≤ index → sanitized[index]? = filename[index]?) := by
  refine ⟨sanitize_filename_loop filename_size 0 filename, ?_, ?_, ?_, ?_⟩
  · simp [export_handle_sanitize_filename, Nat.not_lt.mpr hsize]
  · exact sanitize_filename_loop_length_from filename_size filename_size 0 filename rfl
  · intro index hindex character hchar
    have hget := sanitize_filename_loop_getElem? filename_size filename_size 0 filename rfl
      index
    rw [if_pos ⟨Nat.zero_le _, hindex⟩, hchar] at hget
    constructor
    · intro hrep
      have h := (is_replaced_character_iff character).mpr hrep
      rw [hget]
      simp [sanitized_character, h]
    · intro hrep
      have h : ¬ is_replaced_character character = true :=
        fun h => hrep ((is_replaced_character_iff character).mp h)
      rw [hget]
      simp [sanitized_character, h]
  · intro index hindex
    rw [sanitize_filename_loop_getElem? filename_size filename_size 0 filename rfl index,
      if_neg (by omega)]

/-- C14, witness: the characters of "a/b:c" with the NUL terminator (97, 47, 98, 58, 99, 0)
and filename_size 6 become those of "a_b_c" (97, 95, 98, 95, 99, 0). -/
theorem sanitize_filename_replaces_witness :
    export_handle_sanitize_filename (some [97, 47, 98, 58, 99, 0]) 6
      = (1, some [97, 95, 98, 95, 99, 0]) := by
  obtain ⟨sanitized, hcall, -, -, -⟩ :=
    sanitize_filename_replaces [97, 47, 98, 58, 99, 0] 6 (by decide)
  rw [hcall]
  have hvalue : sanitized = [97, 95, 98, 95, 99, 0] := by
    have h : export_handle_sanitize_filename (some [97, 47, 98, 58, 99, 0]) 6
        = (1, some [97, 95, 98, 95, 99, 0]) := by
      simp [export_handle_sanitize_filename, sanitize_filename_loop, is_replaced_character,
        SSIZE_MAX]
    rw [hcall] at h
    simpa using h
  rw [hvalue]

/-- C15: for every input with filename_size <= SSIZE_MAX, the output of
export_handle_sanitize_filename contains, at the indices below filename_size, no control
character 0x01..0x1F and none of the characters with the codes 33, 36, 37, 38, 42, 43, 47,
58, 59, 60, 62, 63, 64, 92, 126, so in particular neither the slash (47) nor the backslash
(92). -/
theorem sanitize_filename_output_clean (filename : List Int) (filename_size : Nat)
    (hsize : filename_size ≤ SSIZE_MAX) :
    ∃ sanitized : List Int,
      export_handle_sanitize_filename (some filename) filename_size = (1, some sanitized)
      ∧ ∀ index : Nat, index < filename_size → ∀ character : Int,
          sanitized[index]? = some character →
          ¬ (0x01 ≤ character ∧ character ≤ 0x1f)
          ∧ character ∉ ([33, 36, 37, 38, 42, 43, 47, 58, 59, 60, 62, 63, 64, 92, 126] :
              List Int)
          ∧ character ≠ 47 ∧ character ≠ 92 := by
  refine ⟨sanitize_filename_loop filename_size 0 filename, ?_, ?_⟩
  · simp [export_handle_sanitize_filename, Nat.not_lt.mpr hsize]
  · intro index hindex character hchar
    have hget := sanitize_filename_loop_getElem? filename_size filename_size 0 filename rfl
      index
    rw [if_pos ⟨Nat.zero_le _, hindex⟩, hchar] at hget
    have hclean : is_replaced_character character = false := by
      cases hin : filename[index]? with
      | none => rw [hin] at hget; simp at hget
      | some input =>
        rw [hin] at hget
        simp only [Option.map_some', Option.some.injEq] at hget
        rw [hget]
        exact sanitized_character_not_replaced input
    have hnot : ¬ ((0x01 ≤ character ∧ character ≤ 0x1f)
        ∨ character ∈ ([33, 36, 37, 38, 42, 43, 47, 58, 59, 60, 62, 63, 64, 92, 126] :
            List Int)) := by
      rw [← is_replaced_character_iff]
      simp [hclean]
    refine ⟨fun h => hnot (Or.inl h), fun h => hnot (Or.inr h), ?_, ?_⟩
    · intro h
      exact hnot (Or.inr (by simp [h]))
    · intro h
      exact hnot (Or.inr (by simp [h]))

/-- C15, witness: the output for the characters 1, 47, 92, 65 with filename_size 4 is
95, 95, 95, 65. -/
theorem sanitize_filename_output_clean_witness :
    export_handle_sanitize_filename (some [1, 47, 92, 65]) 4 = (1, some [95, 95, 95, 65]) := by
  obtain ⟨sanitized, hcall, -⟩ := sanitize_filename_output_clean [1, 47, 92, 65] 4 (by decide)
  rw [hcall]
  have h : export_handle_sanitize_filename (some [1, 47, 92, 65]) 4
      = (1, some [95, 95, 95, 65]) := by
    simp [export_handle_sanitize_filename, sanitize_filename_loop, is_replaced_character,
      SSIZE_MAX]
  rw [hcall] at h
  exact h

/-- C16: export_handle_sanitize_filename is idempotent: for every filename (NULL included)
and every filename_size, the call on the output of a call, with the same size, returns what
the first call returned, status and characters. -/
theorem sanitize_filename_idempotent (filename : Option (List Int)) (filename_size : Nat) :
    export_handle_sanitize_filename
        (export_handle_sanitize_filename filename filename_size).2 filename_size
      = export_handle_sanitize_filename filename filename_size := by
  cases filename with
  | none => rfl
  | some characters =>
    by_cases hsize : filename_size > SSIZE_MAX
    · simp [export_handle_sanitize_filename, hsize]
    · simp [export_handle_sanitize_filename, hsize, sanitize_filename_loop_idempotent]

/-! ## C12, C13: export_handle_swap_byte_pairs -/

theorem swap_byte_pairs_loop_spec (read_size : Nat) :
    ∀ (pairs iterator : Nat) (data : List Nat),
      iterator + 2 * pairs = read_size → read_size ≤ data.length →
      (swap_byte_pairs_loop read_size iterator data).length = data.length
      ∧ (∀ index : Nat, index < iterator ∨ read_size ≤ index →
          (swap_byte_pairs_loop read_size iterator data)[index]? = data[index]?)
      ∧ (∀ k : Nat, k < pairs →
          (swap_byte_pairs_loop read_size iterator data)[iterator + 2 * k]?
            = data[iterator + 2 * k + 1]?
          ∧ (swap_byte_pairs_loop read_size iterator data)[iterator + 2 * k + 1]?
            = data[iterator + 2 * k]?) := by
  intro pairs
  induction pairs with
  | zero =>
    intro iterator data hrem _
    have hdone : ¬ iterator < read_size := by omega
    rw [swap_byte_pairs_loop, if_neg hdone]
    exact ⟨rfl, fun _ _ => rfl, fun k hk => absurd hk (Nat.not_lt_zero k)⟩
  | succ pairs ih =>
    intro iterator data hrem hlen
    have hmore : iterator < read_size := by omega
    have h0 : iterator < data.length := by omega
    have h1 : iterator + 1 < data.length := by omega
    have hget0 : data.getD iterator 0 = data[iterator] := by
      rw [List.getD_eq_getElem?_getD, List.getElem?_eq_getElem h0]
      rfl
    have hget1 : data.getD (iterator + 1) 0 = data[iterator + 1] := by
      rw [List.getD_eq_getElem?_getD, List.getElem?_eq_getElem h1]
      rfl
    have hlen1 : ((data.set iterator data[iterator + 1]).set (iterator + 1)
        data[iterator]).length = data.length := by
      rw [List.length_set, List.length_set]
    have hother : ∀ index : Nat, index ≠ iterator → index ≠ iterator + 1 →
        ((data.set iterator data[iterator + 1]).set (iterator + 1) data[iterator])[index]?
          = data[index]? := by
      intro index hne0 hne1
      rw [List.getElem?_set_ne (fun h => hne1 h.symm),
        List.getElem?_set_ne (fun h => hne0 h.symm)]
    have hfirst : ((data.set iterator data[iterator + 1]).set (iterator + 1)
        data[iterator])[iterator]? = data[iterator + 1]? := by
      rw [List.getElem?_set_ne (by omega), List.getElem?_set_self h0,
        List.getElem?_eq_getElem h1]
    have hsecond : ((data.set iterator data[iterator + 1]).set (iterator + 1)
        data[iterator])[iterator + 1]? = data[iterator]? := by
      rw [List.getElem?_set_self (by rw [List.length_set]; exact h1),
        List.getElem?_eq_getElem h0]
    rw [swap_byte_pairs_loop, if_pos hmore, hget0, hget1]
    obtain ⟨ihlen, ihout, ihpairs⟩ := ih (iterator + 2)
      ((data.set iterator data[iterator + 1]).set (iterator + 1) data[iterator])
      (by omega) (by rw [hlen1]; exact hlen)
    refine ⟨by rw [ihlen, hlen1], ?_, ?_⟩
    · intro index hindex
      rw [ihout index (by omega), hother index (by omega) (by omega)]
    · intro k hk
      cases k with
      | zero =>
        simp only [Nat.mul_zero, Nat.add_zero]
        rw [ihout iterator (by omega), ihout (iterator + 1) (by omega), hfirst, hsecond]
        exact ⟨rfl, rfl⟩
      | succ k =>
        have hk2 := ihpairs k (by omega)
        have e1 : iterator + 2 * (k + 1) = iterator + 2 + 2 * k := by ring
        rw [e1, hk2.1, hk2.2, hother _ (by omega) (by omega),
          hother _ (by omega) (by omega)]
        exact ⟨rfl, rfl⟩

theorem storage_media_buffer_data_with_data (answer : get_data_answer_t)
    (storage_media_buffer : storage_media_buffer_t) (data : List Nat) :
    storage_media_buffer_data answer
        (storage_media_buffer_with_data answer storage_media_buffer data) = data
    ∧ storage_media_buffer_data_size answer
        (storage_media_buffer_with_data answer storage_media_buffer data)
      = storage_media_buffer_data_size answer storage_media_buffer := by
  cases h : answer.data_in_compression_buffer <;>
    simp [storage_media_buffer_data, storage_media_buffer_with_data,
      storage_media_buffer_data_size, h]

/-- C12: export_handle_swap_byte_pairs, for every buffer whose declared data (the data that
storage_media_buffer_get_data designates, inside the capacity of the buffer) has an even
nonzero length n equal to read_size (n <= SSIZE_MAX): the call returns 1, and the resulting
data d' has the length of the data d before and satisfies d'[2k] = d[2k+1] and
d'[2k+1] = d[2k] for every k < n/2; the bytes after the declared data and the declared
length are unchanged. -/
theorem swap_byte_pairs_swaps (get_data : get_data_answer_t)
    (storage_media_buffer : storage_media_buffer_t) (read_size : Nat)
    (hget : get_data.result = 1)
    (hsize : read_size = storage_media_buffer_data_size get_data storage_media_buffer)
    (hnonzero : read_size ≠ 0) (heven : read_size % 2 = 0) (hmax : read_size ≤ SSIZE_MAX)
    (hcapacity : read_size
      ≤ (storage_media_buffer_data get_data storage_media_buffer).length) :
    (export_handle_swap_byte_pairs get_data storage_media_buffer read_size).1 = 1
    ∧ (storage_media_buffer_data get_data
        (export_handle_swap_byte_pairs get_data storage_media_buffer read_size).2).length
      = (storage_media_buffer_data get_data storage_media_buffer).length
    ∧ (∀ k : Nat, k < read_size / 2 →
        (storage_media_buffer_data get_data
          (export_handle_swap_byte_pairs get_data storage_media_buffer read_size).2)[2 * k]?
          = (storage_media_buffer_data get_data storage_media_buffer)[2 * k + 1]?
        ∧ (storage_media_buffer_data get_data
          (export_handle_swap_byte_pairs get_data storage_media_buffer
            read_size).2)[2 * k + 1]?
          = (storage_media_buffer_data get_data storage_media_buffer)[2 * k]?)
    ∧ (∀ index : Nat, read_size ≤ index →
        (storage_media_buffer_data get_data
          (export_handle_swap_byte_pairs get_data storage_media_buffer read_size).2)[index]?
          = (storage_media_buffer_data get_data storage_media_buffer)[index]?)
    ∧ storage_media_buffer_data_size get_data
        (export_handle_swap_byte_pairs get_data storage_media_buffer read_size).2
      = read_size := by
  have hodd : read_size &&& 1 = 0 := by rw [Nat.and_one_is_mod]; exact heven
  have hcall : export_handle_swap_byte_pairs get_data storage_media_buffer read_size
      = (1, storage_media_buffer_with_data get_data storage_media_buffer
          (swap_byte_pairs_loop read_size 0
            (storage_media_buffer_data get_data storage_media_buffer))) := by
    simp [export_handle_swap_byte_pairs, hnonzero, Nat.not_lt.mpr hmax, hodd, hget, ← hsize]
  obtain ⟨hlen, hout, hpairs⟩ := swap_byte_pairs_loop_spec read_size (read_size / 2) 0
    (storage_media_buffer_data get_data storage_media_buffer) (by omega) hcapacity
  have hdata := storage_media_buffer_data_with_data get_data storage_media_buffer
    (swap_byte_pairs_loop read_size 0
      (storage_media_buffer_data get_data storage_media_buffer))
  rw [hcall]
  simp only [hdata.1, hdata.2]
  refine ⟨trivial, hlen, ?_, ?_, hsize.symm⟩
  · intro k hk
    have h := hpairs k hk
    simpa only [Nat.zero_add] using h
  · intro index hindex
    exact hout index (Or.inr hindex)

/-- C12, witness: the raw data 1, 2, 3, 4 with read_size 4 becomes 2, 1, 4, 3. -/
theorem swap_byte_pairs_swaps_witness :
    (export_handle_swap_byte_pairs { result := 1, data_in_compression_buffer := false }
        sample_buffer 4).1 = 1
    ∧ (export_handle_swap_byte_pairs { result := 1, data_in_compression_buffer := false }
        sample_buffer 4).2.raw_buffer = [2, 1, 4, 3] := by
  have h := swap_byte_pairs_swaps { result := 1, data_in_compression_buffer := false }
    sample_buffer 4 rfl (by decide) (by decide) (by decide) (by decide) (by decide)
  refine ⟨h.1, ?_⟩
  simp [export_handle_swap_byte_pairs, storage_media_buffer_data_size,
    storage_media_buffer_data, storage_media_buffer_with_data, sample_buffer, SSIZE_MAX,
    swap_byte_pairs_loop]

/-- C13: export_handle_swap_byte_pairs returns -1 if and only if read_size is zero, exceeds
SSIZE_MAX, is odd, the buffer data cannot be retrieved (storage_media_buffer_get_data does
not answer 1), or read_size differs from the declared data length of the buffer; it returns
1 otherwise; and on every failure the buffer is returned unchanged. -/
theorem swap_byte_pairs_fails_iff (get_data : get_data_answer_t)
    (storage_media_buffer : storage_media_buffer_t) (read_size : Nat) :
    ((export_handle_swap_byte_pairs get_data storage_media_buffer read_size).1 = -1 ↔
      read_size = 0 ∨ read_size > SSIZE_MAX ∨ read_size % 2 = 1 ∨ get_data.result ≠ 1
      ∨ read_size ≠ storage_media_buffer_data_size get_data storage_media_buffer)
    ∧ ((export_handle_swap_byte_pairs get_data storage_media_buffer read_size).1 = -1
      ∨ (export_handle_swap_byte_pairs get_data storage_media_buffer read_size).1 = 1)
    ∧ ((export_handle_swap_byte_pairs get_data storage_media_buffer read_size).1 = -1 →
      (export_handle_swap_byte_pairs get_data storage_media_buffer read_size).2
        = storage_media_buffer) := by
  have hmod : read_size &&& 1 = read_size % 2 := Nat.and_one_is_mod read_size
  by_cases h1 : read_size = 0 ∨ read_size > SSIZE_MAX
  · have hcall : export_handle_swap_byte_pairs get_data storage_media_buffer read_size
        = (-1, storage_media_buffer) := by
      simp only [export_handle_swap_byte_pairs, if_pos h1]
    rw [hcall]
    refine ⟨⟨fun _ => ?_, fun _ => rfl⟩, Or.inl rfl, fun _ => rfl⟩
    rcases h1 with h | h
    · exact Or.inl h
    · exact Or.inr (Or.inl h)
  · by_cases h2 : read_size % 2 = 1
    · have hcall : export_handle_swap_byte_pairs get_data storage_media_buffer read_size
          = (-1, storage_media_buffer) := by
        simp [export_handle_swap_byte_pairs, h1, hmod, h2]
      rw [hcall]
      exact ⟨⟨fun _ => Or.inr (Or.inr (Or.inl h2)), fun _ => rfl⟩, Or.inl rfl, fun _ => rfl⟩
    · have h2z : read_size % 2 = 0 := by omega
      by_cases h3 : get_data.result = 1
      · by_cases h4 : read_size
            = storage_media_buffer_data_size get_data storage_media_buffer
        · have hcall : (export_handle_swap_byte_pairs get_data storage_media_buffer
              read_size).1 = 1 := by
            simp [export_handle_swap_byte_pairs, h1, hmod, h2z, h3, ← h4]
          rw [hcall]
          refine ⟨⟨fun h => absurd h (by decide), fun h => ?_⟩, Or.inr rfl,
            fun h => absurd h (by decide)⟩
          push_neg at h1
          rcases h with h | h | h | h | h
          · exact absurd h h1.1
          · omega
          · omega
          · exact absurd h3 h
          · exact absurd h4 h
        · have hcall : export_handle_swap_byte_pairs get_data storage_media_buffer read_size
              = (-1, storage_media_buffer) := by
            simp [export_handle_swap_byte_pairs, h1, hmod, h2z, h3, h4]
          rw [hcall]
          exact ⟨⟨fun _ => Or.inr (Or.inr (Or.inr (Or.inr h4))), fun _ => rfl⟩, Or.inl rfl,
            fun _ => rfl⟩
      · have hcall : export_handle_swap_byte_pairs get_data storage_media_buffer read_size
            = (-1, storage_media_buffer) := by
          simp [export_handle_swap_byte_pairs, h1, hmod, h2z, h3]
        rw [hcall]
        exact ⟨⟨fun _ => Or.inr (Or.inr (Or.inr (Or.inl h3))), fun _ => rfl⟩, Or.inl rfl,
          fun _ => rfl⟩

/-- C13, witness: an odd read_size and a read_size that differs from the declared data
length of 4 are refused with the buffer unchanged. -/
theorem swap_byte_pairs_fails_iff_witness :
    export_handle_swap_byte_pairs { result := 1, data_in_compression_buffer := false }
        sample_buffer 3 = (-1, sample_buffer)
    ∧ export_handle_swap_byte_pairs { result := 1, data_in_compression_buffer := false }
        sample_buffer 2 = (-1, sample_buffer) := by
  have h3 := swap_byte_pairs_fails_iff { result := 1, data_in_compression_buffer := false }
    sample_buffer 3
  have h2 := swap_byte_pairs_fails_iff { result := 1, data_in_compression_buffer := false }
    sample_buffer 2
  have f3 := h3.1.mpr (Or.inr (Or.inr (Or.inl (by decide))))
  have f2 := h2.1.mpr (Or.inr (Or.inr (Or.inr (Or.inr (by decide)))))
  exact ⟨Prod.ext f3 (h3.2.2 f3), Prod.ext f2 (h2.2.2 f2)⟩

/-! ## C21: the abort of an output whose handle is missing -/

/-- C21 (code bug): after an export_handle_open_output with the EWF format whose container
open failed (it returned 1, output_format is EWF and the EWF output handle is absent),
export_handle_signal_abort signals the input and then passes the missing EWF output handle
to libewf_handle_signal_abort, which refuses it: the call returns -1.  The same happens with
the raw format, use_stdout clear and no raw output handle. -/
theorem signal_abort_missing_output_handle :
    sample_failed_ewf_open_session.output_format = EXPORT_HANDLE_OUTPUT_FORMAT_EWF
    ∧ sample_failed_ewf_open_session.ewf_output_handle = none
    ∧ (export_handle_signal_abort sample_signal_abort_answers
        sample_failed_ewf_open_session).1 = -1
    ∧ (export_handle_signal_abort sample_signal_abort_answers
        sample_failed_ewf_open_session).2.2
        = [abort_call_t.input, abort_call_t.ewf_output false]
    ∧ sample_failed_raw_open_session.output_format = EXPORT_HANDLE_OUTPUT_FORMAT_RAW
    ∧ sample_failed_raw_open_session.use_stdout = 0
    ∧ sample_failed_raw_open_session.raw_output_handle = none
    ∧ (export_handle_signal_abort sample_signal_abort_answers
        sample_failed_raw_open_session).1 = -1
    ∧ (export_handle_signal_abort sample_signal_abort_answers
        sample_failed_raw_open_session).2.2
        = [abort_call_t.input, abort_call_t.raw_output false] := by
  refine ⟨?_, ?_, ?_, ?_, ?_, ?_, ?_, ?_, ?_⟩ <;> decide

/-! ## C30: a seek leaves input_offset alone -/

/-- C30: export_handle_seek_offset returns the requested offset on success (input handle
present, the library not answering -1), moves the container to that offset and leaves
input_offset unchanged, for every offset and also on failure; so a read error appended by a
following export_handle_prepare_read_buffer (chunk-level strategy, the chunk failing its
verification) has its start sector computed from the input_offset held before the seek, not
from the offset the container was moved to. -/
theorem seek_offset_keeps_input_offset (seek_answer : Int) (export_handle : export_handle_t)
    (offset : Int) :
    (export_handle_seek_offset seek_answer export_handle offset).2.input_offset
      = export_handle.input_offset
    ∧ (∀ input, export_handle.input_handle = some input → seek_answer ≠ -1 →
        export_handle_seek_offset seek_answer export_handle offset
          = (offset, { export_handle with
                       input_handle := some { input with current_offset := offset } }))
    ∧ (∀ (lib : libewf_answers_t) (storage_media_buffer : storage_media_buffer_t),
        export_handle.input_handle.isSome = true → seek_answer ≠ -1 →
        lib.prepare_read_chunk = -1 → lib.append_checksum_error = 1 →
        0 < export_handle.bytes_per_sector →
        input_checksum_errors (export_handle_prepare_read_buffer true lib
            (export_handle_seek_offset seek_answer export_handle offset).2
            storage_media_buffer).2.1
          = input_checksum_errors export_handle
            ++ [(start_sector export_handle.input_offset export_handle.bytes_per_sector,
                 number_of_sectors export_handle.input_chunk_size
                   export_handle.bytes_per_sector)]) := by
  have hcall : ∀ input, export_handle.input_handle = some input → seek_answer ≠ -1 →
      export_handle_seek_offset seek_answer export_handle offset
        = (offset, { export_handle with
                     input_handle := some { input with current_offset := offset } }) := by
    intro input hinput hseek
    simp [export_handle_seek_offset, hinput, libewf_handle_seek_offset, hseek]
  refine ⟨?_, hcall, ?_⟩
  · cases hi : export_handle.input_handle with
    | none => simp [export_handle_seek_offset, hi]
    | some input =>
      by_cases hseek : seek_answer = -1
      · simp [export_handle_seek_offset, hi, libewf_handle_seek_offset, hseek]
      · rw [hcall input hi hseek]
  · intro lib storage_media_buffer hsome hseek hfail hc hb
    obtain ⟨input, hinput⟩ := Option.isSome_iff_exists.mp hsome
    rw [hcall input hinput hseek]
    have hb0 : export_handle.bytes_per_sector ≠ 0 := Nat.pos_iff_ne_zero.mp hb
    have hs := append_read_error_spec true lib
      { export_handle with input_handle := some { input with current_offset := offset } }
      export_handle.input_offset export_handle.input_chunk_size
    simp only [] at hs
    obtain ⟨-, -, hin, -⟩ := hs
    rw [prepare_read_buffer_of_failure lib
      { export_handle with input_handle := some { input with current_offset := offset } }
      storage_media_buffer rfl hfail]
    have hledger : input_checksum_errors
        { export_handle with input_handle := some { input with current_offset := offset } }
        = input_checksum_errors export_handle := by
      simp [input_checksum_errors, hinput]
    split
    · rw [hin, if_pos ⟨trivial, hb0, rfl, hc⟩, hledger]
    · show input_checksum_errors (export_handle_append_read_error true lib _ _ _).2 = _
      rw [hin, if_pos ⟨trivial, hb0, rfl, hc⟩, hledger]

/-- C30, witness: after a seek to byte 65536 (sector 128) on a session with input_offset 0,
the failing chunk is recorded from sector 0. -/
theorem seek_offset_keeps_input_offset_witness :
    (export_handle_seek_offset 65536 sample_raw_session 65536).1 = 65536
    ∧ input_checksum_errors (export_handle_prepare_read_buffer true sample_failing_answers
        (export_handle_seek_offset 65536 sample_raw_session 65536).2
        sample_chunk_buffer).2.1 = [(0, 64)] := by
  have h := seek_offset_keeps_input_offset 65536 sample_raw_session 65536
  have hcall := h.2.1 sample_input rfl (by decide)
  have hledger := h.2.2 sample_failing_answers sample_chunk_buffer rfl (by decide) rfl rfl
    (by decide)
  refine ⟨by rw [hcall], ?_⟩
  rw [hledger]
  decide

/-! ## C22: the hash strings after export_handle_finalize -/

theorem finalize_output_spec (lib : finalize_answers_t) (export_handle : export_handle_t)
    (calls : List hash_value_call_t) :
    (finalize_output lib export_handle calls).2 = (export_handle, calls) := by
  unfold finalize_output
  split <;> rfl

theorem finalize_sha1_spec (lib : finalize_answers_t) (export_handle : export_handle_t)
    (calls : List hash_value_call_t) :
    (finalize_sha1 lib export_handle calls).2.1.calculated_md5_hash_string
      = export_handle.calculated_md5_hash_string
    ∧ (export_handle.calculated_sha1_hash_string = none →
        (finalize_sha1 lib export_handle calls).1 ≠ -1 →
        ((finalize_sha1 lib export_handle calls).2.1.calculated_sha1_hash_string.isSome = true
          ↔ export_handle.calculate_sha1 ≠ 0)) := by
  by_cases henabled : export_handle.calculate_sha1 = 0
  · have hcall : finalize_sha1 lib export_handle calls
        = finalize_output lib export_handle calls := by
      simp [finalize_sha1, henabled]
    rw [hcall, finalize_output_spec]
    refine ⟨rfl, fun hnone _ => ?_⟩
    simp [hnone, henabled]
  · by_cases h1 : lib.sha1_memory_allocate = false
    · simp [finalize_sha1, henabled, h1]
    · by_cases h2 : lib.sha1_finalize = 1
      · by_cases h3 : lib.sha1_copy_to_string = 1
        · by_cases h4 : (export_handle_set_hash_value lib.sha1_set_hash_value
              { export_handle with calculated_sha1_hash_string := some lib.sha1_hash_string }
              "SHA1" lib.sha1_hash_string).1 = 1
          · have hcall : finalize_sha1 lib export_handle calls
                = finalize_output lib
                    { export_handle with
                      calculated_sha1_hash_string := some lib.sha1_hash_string }
                    (calls ++ (export_handle_set_hash_value lib.sha1_set_hash_value
                      { export_handle with
                        calculated_sha1_hash_string := some lib.sha1_hash_string }
                      "SHA1" lib.sha1_hash_string).2) := by
              simp [finalize_sha1, henabled, h1, h2, h3, h4]
            rw [hcall, finalize_output_spec]
            simp [henabled]
          · simp [finalize_sha1, henabled, h1, h2, h3, h4]
        · simp [finalize_sha1, henabled, h1, h2, h3]
      · simp [finalize_sha1, henabled, h1, h2]

theorem finalize_md5_spec (lib : finalize_answers_t) (export_handle : export_handle_t)
    (hmd5 : export_handle.calculated_md5_hash_string = none)
    (hsha1 : export_handle.calculated_sha1_hash_string = none)
    (hok : (finalize_md5 lib export_handle).1 ≠ -1) :
    ((finalize_md5 lib export_handle).2.1.calculated_md5_hash_string.isSome = true
      ↔ export_handle.calculate_md5 ≠ 0)
    ∧ ((finalize_md5 lib export_handle).2.1.calculated_sha1_hash_string.isSome = true
      ↔ export_handle.calculate_sha1 ≠ 0) := by
  by_cases henabled : export_handle.calculate_md5 = 0
  · have hcall : finalize_md5 lib export_handle = finalize_sha1 lib export_handle [] := by
      simp [finalize_md5, henabled]
    rw [hcall] at hok ⊢
    have hs := finalize_sha1_spec lib export_handle []
    refine ⟨?_, hs.2 hsha1 hok⟩
    rw [hs.1, hmd5]
    simp [henabled]
  · by_cases h1 : lib.md5_memory_allocate = false
    · simp [finalize_md5, henabled, h1] at hok
    · by_cases h2 : lib.md5_finalize = 1
      · by_cases h3 : lib.md5_copy_to_string = 1
        · by_cases h4 : (export_handle_set_hash_value lib.md5_set_hash_value
              { export_handle with calculated_md5_hash_string := some lib.md5_hash_string }
              "MD5" lib.md5_hash_string).1 = 1
          · have hcall : finalize_md5 lib export_handle
                = finalize_sha1 lib
                    { export_handle with
                      calculated_md5_hash_string := some lib.md5_hash_string }
                    (export_handle_set_hash_value lib.md5_set_hash_value
                      { export_handle with
                        calculated_md5_hash_string := some lib.md5_hash_string }
                      "MD5" lib.md5_hash_string).2 := by
              simp [finalize_md5, henabled, h1, h2, h3, h4]
            rw [hcall] at hok ⊢
            have hs := finalize_sha1_spec lib
              { export_handle with calculated_md5_hash_string := some lib.md5_hash_string }
              (export_handle_set_hash_value lib.md5_set_hash_value
                { export_handle with
                  calculated_md5_hash_string := some lib.md5_hash_string }
                "MD5" lib.md5_hash_string).2
            refine ⟨?_, hs.2 hsha1 hok⟩
            rw [hs.1]
            simp [henabled]
          · simp [finalize_md5, henabled, h1, h2, h3, h4] at hok
        · simp [finalize_md5, henabled, h1, h2, h3] at hok
      · simp [finalize_md5, henabled, h1, h2] at hok

/-- C22: export_handle_finalize with both digests disabled and RAW output returns 0, leaves
the export handle as it was, so that calculated_md5_hash_string and
calculated_sha1_hash_string stay absent, and hands no hash value to a container.  More
generally, after a first finalize (both strings absent before) that does not return -1,
each calculated hash string is present if and only if the corresponding digest was
enabled. -/
theorem finalize_hash_strings (lib : finalize_answers_t) (export_handle : export_handle_t) :
    (export_handle.calculate_md5 = 0 → export_handle.calculate_sha1 = 0 →
      export_handle.output_format = EXPORT_HANDLE_OUTPUT_FORMAT_RAW →
      export_handle_finalize lib export_handle = (0, export_handle, []))
    ∧ (export_handle.calculated_md5_hash_string = none →
        export_handle.calculated_sha1_hash_string = none →
        (export_handle_finalize lib export_handle).1 ≠ -1 →
        ((export_handle_finalize lib export_handle).2.1.calculated_md5_hash_string.isSome
            = true ↔ export_handle.calculate_md5 ≠ 0)
        ∧ ((export_handle_finalize lib export_handle).2.1.calculated_sha1_hash_string.isSome
            = true ↔ export_handle.calculate_sha1 ≠ 0)) := by
  have hne : EXPORT_HANDLE_OUTPUT_FORMAT_RAW ≠ EXPORT_HANDLE_OUTPUT_FORMAT_EWF := by decide
  constructor
  · intro h1 h2 hf
    simp [export_handle_finalize, finalize_md5, finalize_sha1, finalize_output, h1, h2, hf,
      hne]
  · intro hmd5 hsha1 hok
    by_cases hmissing : export_handle.output_format = EXPORT_HANDLE_OUTPUT_FORMAT_EWF
        ∧ export_handle.ewf_output_handle.isNone
    · simp [export_handle_finalize, hmissing] at hok
    · have hcall : export_handle_finalize lib export_handle
          = finalize_md5 lib export_handle := by
        simp only [export_handle_finalize, if_neg hmissing]
      rw [hcall] at hok ⊢
      exact finalize_md5_spec lib export_handle hmd5 hsha1 hok

/-- C22, witness: with MD5 enabled and SHA1 disabled on the session with EWF output the
finalize returns the count of the write-finalize, the MD5 string is present, the SHA1
string is absent, and one hash value, MD5, was handed to the EWF output. -/
theorem finalize_hash_strings_witness :
    (export_handle_finalize sample_finalize_answers
        { sample_ewf_session with calculate_md5 := 1 }).1 = 0
    ∧ (export_handle_finalize sample_finalize_answers
        { sample_ewf_session with calculate_md5 := 1 }).2.1.calculated_md5_hash_string.isSome
        = true
    ∧ (export_handle_finalize sample_finalize_answers
        { sample_ewf_session with calculate_md5 := 1 }).2.1.calculated_sha1_hash_string
        = none
    ∧ export_handle_finalize sample_finalize_answers sample_stdout_session
        = (0, sample_stdout_session, []) := by
  have h := finalize_hash_strings sample_finalize_answers
    { sample_ewf_session with calculate_md5 := 1 }
  have hok : (export_handle_finalize sample_finalize_answers
      { sample_ewf_session with calculate_md5 := 1 }).1 = 0 := by decide
  have hboth := h.2 rfl rfl (by rw [hok]; decide)
  refine ⟨hok, hboth.1.mpr (by decide), ?_, ?_⟩
  · have hnot : ¬ ((export_handle_finalize sample_finalize_answers
        { sample_ewf_session with calculate_md5 := 1 }).2.1.calculated_sha1_hash_string.isSome
        = true) := fun hsome => (hboth.2.mp hsome) rfl
    cases hs : (export_handle_finalize sample_finalize_answers
        { sample_ewf_session with calculate_md5 := 1 }).2.1.calculated_sha1_hash_string with
    | none => rfl
    | some value => rw [hs] at hnot; simp at hnot
  · exact (finalize_hash_strings sample_finalize_answers sample_stdout_session).1 rfl rfl rfl

/-! ## C26: the target path -/

theorem sanitize_filename_loop_whole (filename : List Int) :
    sanitize_filename_loop filename.length 0 filename = filename.map sanitized_character := by
  apply List.ext_getElem?
  intro index
  rw [sanitize_filename_loop_getElem? filename.length filename.length 0 filename rfl index,
    List.getElem?_map]
  by_cases hindex : index < filename.length
  · rw [if_pos ⟨Nat.zero_le _, hindex⟩]
  · rw [if_neg (fun h => hindex h.2), List.getElem?_eq_none (by omega)]
    rfl

theorem target_path_layout (path filename : List Int) (export_path_size : Nat)
    (hsize : 1 ≤ export_path_size) (hpath : export_path_size ≤ path.length) :
    array_write
        ((array_write (List.replicate (export_path_size + filename.length) 0) 0
          (path.take export_path_size)).set (export_path_size - 1) LIBSYSTEM_PATH_SEPARATOR)
        export_path_size filename
      = path.take (export_path_size - 1) ++ [LIBSYSTEM_PATH_SEPARATOR] ++ filename := by
  have hlen : (path.take export_path_size).length = export_path_size := by
    rw [List.length_take]; omega
  have hcopy : array_write (List.replicate (export_path_size + filename.length) 0) 0
      (path.take export_path_size)
      = path.take export_path_size ++ List.replicate filename.length 0 := by
    simp [array_write, hlen]
  have hsplit : path.take export_path_size
      = path.take (export_path_size - 1) ++ (path.drop (export_path_size - 1)).take 1 := by
    have h := List.take_add path (export_path_size - 1) 1
    rw [show export_path_size - 1 + 1 = export_path_size by omega] at h
    exact h
  have hlen1 : (path.take (export_path_size - 1)).length = export_path_size - 1 := by
    rw [List.length_take]; omega
  obtain ⟨last, hlast⟩ : ∃ last, (path.drop (export_path_size - 1)).take 1 = [last] := by
    cases hd : path.drop (export_path_size - 1) with
    | nil =>
      have := congrArg List.length hd
      rw [List.length_drop] at this
      simp at this
      omega
    | cons head tail => exact ⟨head, rfl⟩
  have hset : (path.take export_path_size ++ List.replicate filename.length 0).set
      (export_path_size - 1) LIBSYSTEM_PATH_SEPARATOR
      = path.take (export_path_size - 1) ++ [LIBSYSTEM_PATH_SEPARATOR]
        ++ List.replicate filename.length 0 := by
    rw [hsplit, hlast]
    rw [List.append_assoc, List.append_assoc]
    rw [List.set_append_right _ _ (by rw [hlen1])]
    rw [hlen1, Nat.sub_self]
    rfl
  rw [hcopy, hset]
  have hleading : (path.take (export_path_size - 1) ++ [LIBSYSTEM_PATH_SEPARATOR]).length
      = export_path_size := by
    rw [List.length_append, hlen1]
    simp
    omega
  unfold array_write
  rw [List.take_append_eq_append_take, hleading, Nat.sub_self, List.take_zero,
    List.append_nil, List.take_of_length_le (by rw [hleading])]
  rw [List.drop_append_eq_append_drop, hleading,
    List.drop_of_length_le (by rw [hleading]; omega)]
  simp

theorem sanitized_character_zero : sanitized_character 0 = 0 := by
  decide

/-- C26: a successful export_handle_create_target_path, for an export path of
export_path_size >= 1 characters, sets the target path size to export_path_size plus the
converted size of the name and the target path to the first export_path_size - 1 characters
of the export path as they are, then the path separator, then the sanitized converted name,
which ends in the terminator when the converted name does; and a call with a target path
that is already set returns -1 and leaves the target path and its size as they were. -/
theorem create_target_path_layout (lib : create_target_path_answers_t)
    (export_path : Option (List Int)) (path : List Int) (export_path_size : Nat)
    (utf8_filename : Option (List Nat)) (utf8_filename_size : Nat)
    (target_path : Option (List Int)) (target_path_size : Nat)
    (hexport : export_path = some path)
    (hsize : 1 ≤ export_path_size) (hpath : export_path_size ≤ path.length)
    (hsuccess : (export_handle_create_target_path lib export_path export_path_size
      utf8_filename utf8_filename_size target_path target_path_size).map
        (fun result => result.1) = some 1) :
    export_handle_create_target_path lib export_path export_path_size
        utf8_filename utf8_filename_size target_path target_path_size
      = some (1,
          some (path.take (export_path_size - 1) ++ [LIBSYSTEM_PATH_SEPARATOR]
            ++ lib.filename.map sanitized_character),
          export_path_size + lib.filename.length)
    ∧ (path.take (export_path_size - 1) ++ [LIBSYSTEM_PATH_SEPARATOR]
        ++ lib.filename.map sanitized_character).length
        = export_path_size + lib.filename.length
    ∧ (lib.filename.getLast? = some 0 →
        (path.take (export_path_size - 1) ++ [LIBSYSTEM_PATH_SEPARATOR]
          ++ lib.filename.map sanitized_character).getLast? = some 0)
    ∧ ∀ (other : create_target_path_answers_t) (other_path : Option (List Int))
        (other_path_size : Nat) (other_filename : Option (List Nat))
        (other_filename_size : Nat) (existing : List Int) (existing_size : Nat),
        export_handle_create_target_path other other_path other_path_size other_filename
            other_filename_size (some existing) existing_size
          = some (-1, some existing, existing_size) := by
  subst hexport
  have hleading : (path.take (export_path_size - 1) ++ [LIBSYSTEM_PATH_SEPARATOR]).length
      = export_path_size := by
    rw [List.length_append, List.length_take]
    simp
    omega
  refine ⟨?_, ?_, ?_, ?_⟩
  · have hlayout := target_path_layout path lib.filename export_path_size hsize hpath
    cases utf8_filename with
    | none => simp [export_handle_create_target_path] at hsuccess
    | some name =>
      unfold export_handle_create_target_path at hsuccess ⊢
      simp only [] at hsuccess ⊢
      by_cases h1 : utf8_filename_size > SSIZE_MAX
      · rw [if_pos h1] at hsuccess
        simp at hsuccess
      rw [if_neg h1] at hsuccess ⊢
      by_cases h2 : target_path.isSome = true
      · rw [if_pos h2] at hsuccess
        simp at hsuccess
      rw [if_neg h2] at hsuccess ⊢
      by_cases h3 : lib.string_size_from_utf8_string ≠ 1
      · rw [if_pos h3] at hsuccess
        simp at hsuccess
      rw [if_neg h3] at hsuccess ⊢
      by_cases h4 : lib.memory_allocate = false
      · rw [if_pos h4] at hsuccess
        simp at hsuccess
      rw [if_neg h4] at hsuccess ⊢
      by_cases h5 : lib.string_copy_from_utf8_string ≠ 1
      · rw [if_pos h5] at hsuccess
        simp at hsuccess
      rw [if_neg h5] at hsuccess ⊢
      rw [hlayout] at hsuccess ⊢
      have hdrop : (path.take (export_path_size - 1) ++ [LIBSYSTEM_PATH_SEPARATOR]
          ++ lib.filename).drop export_path_size = lib.filename := by
        rw [List.drop_append_eq_append_drop, hleading, Nat.sub_self,
          List.drop_of_length_le (by rw [hleading])]
        rfl
      have htake : (path.take (export_path_size - 1) ++ [LIBSYSTEM_PATH_SEPARATOR]
          ++ lib.filename).take export_path_size
          = path.take (export_path_size - 1) ++ [LIBSYSTEM_PATH_SEPARATOR] := by
        rw [List.take_append_eq_append_take, hleading, Nat.sub_self,
          List.take_of_length_le (by rw [hleading])]
        simp
      rw [hdrop, htake] at hsuccess ⊢
      by_cases h6 : lib.filename.length > SSIZE_MAX
      · simp [export_handle_sanitize_filename, h6] at hsuccess
      · simp [export_handle_sanitize_filename, h6, sanitize_filename_loop_whole]
  · rw [List.length_append, hleading, List.length_map]
  · intro hlast
    cases hfile : lib.filename.reverse with
    | nil =>
      have hnil : lib.filename = [] := by simpa using hfile
      rw [hnil] at hlast
      simp at hlast
    | cons head tail =>
      have hfilename : lib.filename = tail.reverse ++ [head] := by
        have := congrArg List.reverse hfile
        simpa using this
      rw [hfilename] at hlast ⊢
      have hhead : head = 0 := by simpa using hlast
      subst hhead
      have hsplit : path.take (export_path_size - 1) ++ [LIBSYSTEM_PATH_SEPARATOR]
          ++ (tail.reverse ++ [0]).map sanitized_character
          = (path.take (export_path_size - 1) ++ [LIBSYSTEM_PATH_SEPARATOR]
              ++ tail.reverse.map sanitized_character) ++ [0] := by
        simp [sanitized_character_zero]
      rw [hsplit, List.getLast?_concat]
  · intro other other_path other_path_size other_filename other_filename_size existing
      existing_size
    cases other_path with
    | none => rfl
    | some other_characters =>
      cases other_filename with
      | none => rfl
      | some other_name =>
        unfold export_handle_create_target_path
        simp only []
        by_cases h1 : other_filename_size > SSIZE_MAX
        · rw [if_pos h1]
        · rw [if_neg h1]
          rfl

/-- C26 at the export path "/out" and the name "a/b:c": the target path is "/out/a_b_c" with
its terminator, of size 5 + 6. -/
theorem create_target_path_layout_witness :
    export_handle_create_target_path sample_create_target_path_answers
        (some sample_export_path) 5 (some [97, 47, 98, 58, 99, 0]) 6 none 0
      = some (1, some [47, 111, 117, 116, 47, 97, 95, 98, 95, 99, 0], 11) := by
  have hsuccess : (export_handle_create_target_path sample_create_target_path_answers
      (some sample_export_path) 5 (some [97, 47, 98, 58, 99, 0]) 6 none 0).map
        (fun result => result.1) = some 1 := by
    simp [export_handle_create_target_path, export_handle_sanitize_filename,
      sample_create_target_path_answers, SSIZE_MAX]
  have h := (create_target_path_layout sample_create_target_path_answers
    (some sample_export_path) sample_export_path 5 (some [97, 47, 98, 58, 99, 0]) 6 none 0
    rfl (by decide) (by decide) hsuccess).1
  rw [h]
  decide

/-! ## The file system -/

theorem file_node_append_nil (node : file_node_t) : file_node_append node [] = node := by
  cases node <;> simp [file_node_append]

theorem file_node_append_append (node : file_node_t) (first second : List Nat) :
    file_node_append (file_node_append node first) second
      = file_node_append node (first ++ second) := by
  cases node <;> simp [file_node_append]

theorem file_stream_write_nil (file_system : file_system_t) (stream : List Int) :
    libsystem_file_stream_write file_system stream [] = file_system := by
  unfold libsystem_file_stream_write
  simp [file_node_append_nil]

theorem file_stream_write_write (file_system : file_system_t) (stream : List Int)
    (first second : List Nat) :
    libsystem_file_stream_write (libsystem_file_stream_write file_system stream first)
        stream second
      = libsystem_file_stream_write file_system stream (first ++ second) := by
  unfold libsystem_file_stream_write
  rw [List.map_map]
  apply List.map_congr_left
  intro node _
  simp only [Function.comp]
  by_cases hnode : node.1 = stream
  · simp [hnode, file_node_append_append]
  · simp [hnode]

theorem file_system_lookup_write (file_system : file_system_t) (stream : List Int)
    (data : List Nat) (path : List Int) :
    file_system_lookup (libsystem_file_stream_write file_system stream data) path
      = if path = stream then
          (file_system_lookup file_system path).map (fun node => file_node_append node data)
        else file_system_lookup file_system path := by
  unfold file_system_lookup libsystem_file_stream_write
  induction file_system with
  | nil => simp
  | cons node rest ih =>
    rcases node with ⟨node_path, kind⟩
    by_cases hnode : node_path = path
    · subst hnode
      by_cases hstream : node_path = stream
      · simp [hstream]
      · simp [hstream]
    · by_cases hstream : node_path = stream
      · have hpath : ¬ stream = path := fun h => hnode (hstream.trans h)
        simp only [List.map_cons, hstream, if_true, List.find?_cons, hpath, decide_False]
        simpa [hstream] using ih
      · simp only [List.map_cons, hstream, if_false, List.find?_cons, hnode, decide_False]
        simpa using ih

theorem file_system_lookup_added (file_system : file_system_t) (path : List Int)
    (node : file_node_t) (other : List Int) :
    file_system_lookup (file_system.filter (fun kept => kept.1 ≠ path) ++ [(path, node)]) other
      = if other = path then some node else file_system_lookup file_system other := by
  unfold file_system_lookup
  induction file_system with
  | nil =>
    by_cases hother : other = path
    · simp [hother]
    · have : ¬ path = other := fun h => hother h.symm
      simp [hother, this, List.find?_cons]
  | cons head rest ih =>
    rcases head with ⟨head_path, kind⟩
    by_cases hhead : head_path = path
    · simp only [List.filter_cons, hhead, ne_eq, not_true_eq_false, decide_False]
      by_cases hother : other = path
      · simp only [hother, if_true] at ih ⊢
        simp
      · have : ¬ path = other := fun h => hother h.symm
        simp only [hother, if_false] at ih ⊢
        simp only [List.find?_cons, this, decide_False]
        simpa using ih
    · by_cases hmatch : head_path = other
      · have hother : ¬ other = path := fun h => hhead (hmatch.trans h)
        simp [List.filter_cons, hhead, hmatch, hother, List.find?_cons]
      · simp only [List.filter_cons, hhead, ne_eq, not_false_eq_true, decide_True, if_true,
          List.cons_append, List.find?_cons, hmatch, decide_False]
        simpa using ih

/-! ## The blocks of the file entry data -/

theorem block_sizes_small (size : Nat) (hpositive : 0 < size)
    (hsmall : size < EXPORT_HANDLE_BUFFER_SIZE) : block_sizes size = [size] := by
  unfold block_sizes
  rw [Nat.div_eq_of_lt hsmall, Nat.mod_eq_of_lt hsmall, if_neg (by omega)]
  rfl

theorem block_sizes_step (size : Nat) (hlarge : EXPORT_HANDLE_BUFFER_SIZE ≤ size) :
    block_sizes size
      = EXPORT_HANDLE_BUFFER_SIZE :: block_sizes (size - EXPORT_HANDLE_BUFFER_SIZE) := by
  unfold block_sizes
  have hdiv : size / EXPORT_HANDLE_BUFFER_SIZE
      = (size - EXPORT_HANDLE_BUFFER_SIZE) / EXPORT_HANDLE_BUFFER_SIZE + 1 := by
    unfold EXPORT_HANDLE_BUFFER_SIZE at hlarge ⊢
    omega
  have hmod : (size - EXPORT_HANDLE_BUFFER_SIZE) % EXPORT_HANDLE_BUFFER_SIZE
      = size % EXPORT_HANDLE_BUFFER_SIZE := by
    unfold EXPORT_HANDLE_BUFFER_SIZE at hlarge ⊢
    omega
  rw [hdiv, hmod, List.replicate_succ, List.cons_append]

theorem block_sizes_sum (size : Nat) : (block_sizes size).sum = size := by
  unfold block_sizes
  rw [List.sum_append, List.sum_replicate]
  have hsplit := Nat.div_add_mod size EXPORT_HANDLE_BUFFER_SIZE
  by_cases hmod : size % EXPORT_HANDLE_BUFFER_SIZE = 0
  · rw [if_pos hmod]
    simp only [List.sum_nil, smul_eq_mul]
    rw [hmod] at hsplit
    rw [Nat.mul_comm]
    omega
  · rw [if_neg hmod]
    simp only [List.sum_cons, List.sum_nil, smul_eq_mul]
    rw [Nat.mul_comm]
    omega

theorem stream_operations_append (stream : List Int) (first second : List Nat) :
    stream_operations stream (first ++ second)
      = stream_operations stream first ++ stream_operations stream second := by
  induction first with
  | nil => rfl
  | cons block rest ih => simp [stream_operations, ih]

theorem operations_regroup (before : List file_operation_t) (first second : file_operation_t)
    (middle after : List file_operation_t) :
    before ++ [first] ++ [second] ++ middle ++ after
      = before ++ first :: second :: middle ++ after := by
  simp

theorem take_block_append (data : List Nat) (position block size : Nat)
    (hblock : block ≤ size) :
    (data.drop position).take block ++ (data.drop (position + block)).take (size - block)
      = (data.drop position).take size := by
  have hsplit := List.take_add (data.drop position) block (size - block)
  rw [Nat.add_sub_cancel' hblock, List.drop_drop] at hsplit
  rw [hsplit]

theorem export_file_entry_data_loop_complete (values : file_entry_values_t)
    (stream : List Int) (hwrite : values.file_stream_write_fails_at = none) :
    ∀ (file_entry_data_size position : Nat) (world : world_t),
      position + file_entry_data_size ≤ values.data.length →
      export_file_entry_data_loop values stream file_entry_data_size position world
        = (1,
           { file_system :=
               libsystem_file_stream_write world.file_system stream
                 ((values.data.drop position).take file_entry_data_size),
             operations :=
               world.operations
                 ++ stream_operations stream (block_sizes file_entry_data_size) }) := by
  intro file_entry_data_size
  induction file_entry_data_size using Nat.strong_induction_on with
  | _ size ih =>
    intro position world hdata
    rw [export_file_entry_data_loop]
    by_cases hpositive : size > 0
    · rw [if_pos hpositive]
      simp only []
      by_cases hlarge : size ≥ EXPORT_HANDLE_BUFFER_SIZE
      · rw [if_pos hlarge]
        have hbuffer : EXPORT_HANDLE_BUFFER_SIZE = 8192 := rfl
        have hlength : (libewf_file_entry_read_buffer values position
            EXPORT_HANDLE_BUFFER_SIZE).length = EXPORT_HANDLE_BUFFER_SIZE := by
          unfold libewf_file_entry_read_buffer
          rw [List.length_take, List.length_drop]
          omega
        rw [if_neg (by rw [hlength]; exact fun h => h rfl), hwrite,
          if_neg (by simp)]
        rw [ih (size - EXPORT_HANDLE_BUFFER_SIZE) (by omega) _ _ (by omega)]
        rw [block_sizes_step size hlarge]
        rw [stream_operations]
        simp only [record_operation, libewf_file_entry_read_buffer]
        rw [file_stream_write_write,
          take_block_append values.data position EXPORT_HANDLE_BUFFER_SIZE size hlarge]
        simp only [List.append_assoc, List.singleton_append, List.cons_append, List.nil_append]
      · rw [if_neg hlarge]
        have hlength : (libewf_file_entry_read_buffer values position size).length = size := by
          unfold libewf_file_entry_read_buffer
          rw [List.length_take, List.length_drop]
          omega
        rw [if_neg (by rw [hlength]; exact fun h => h rfl), hwrite,
          if_neg (by simp)]
        rw [Nat.sub_self, export_file_entry_data_loop, if_neg (by omega)]
        rw [block_sizes_small size hpositive (by omega)]
        simp [record_operation, libewf_file_entry_read_buffer, stream_operations]
    · have hzero : size = 0 := by omega
      subst hzero
      rw [if_neg hpositive]
      simp [file_stream_write_nil, block_sizes, stream_operations]

theorem export_file_entry_data_loop_short (values : file_entry_values_t)
    (stream : List Int) (hwrite : values.file_stream_write_fails_at = none) :
    ∀ (file_entry_data_size position : Nat) (world : world_t),
      position ≤ values.data.length →
      values.data.length < position + file_entry_data_size →
      export_file_entry_data_loop values stream file_entry_data_size position world
        = (-1,
           { file_system :=
               libsystem_file_stream_write world.file_system stream
                 ((values.data.drop position).take
                   (EXPORT_HANDLE_BUFFER_SIZE
                     * ((values.data.length - position) / EXPORT_HANDLE_BUFFER_SIZE))),
             operations :=
               world.operations
                 ++ stream_operations stream
                     (List.replicate
                       ((values.data.length - position) / EXPORT_HANDLE_BUFFER_SIZE)
                       EXPORT_HANDLE_BUFFER_SIZE)
                 ++ [file_operation_t.read_buffer
                       (if file_entry_data_size
                            - EXPORT_HANDLE_BUFFER_SIZE
                              * ((values.data.length - position) / EXPORT_HANDLE_BUFFER_SIZE)
                            ≥ EXPORT_HANDLE_BUFFER_SIZE
                        then EXPORT_HANDLE_BUFFER_SIZE
                        else file_entry_data_size
                            - EXPORT_HANDLE_BUFFER_SIZE
                              * ((values.data.length - position) / EXPORT_HANDLE_BUFFER_SIZE)),
                     file_operation_t.file_stream_close stream] }) := by
  intro file_entry_data_size
  induction file_entry_data_size using Nat.strong_induction_on with
  | _ size ih =>
    intro position world hposition hdata
    have hpositive : size > 0 := by omega
    rw [export_file_entry_data_loop, if_pos hpositive]
    simp only []
    by_cases havailable : values.data.length - position < EXPORT_HANDLE_BUFFER_SIZE
    · have hquotient : (values.data.length - position) / EXPORT_HANDLE_BUFFER_SIZE = 0 :=
        Nat.div_eq_of_lt havailable
      have hlength : (libewf_file_entry_read_buffer values position
          (if size ≥ EXPORT_HANDLE_BUFFER_SIZE then EXPORT_HANDLE_BUFFER_SIZE else size)).length
          ≠ (if size ≥ EXPORT_HANDLE_BUFFER_SIZE then EXPORT_HANDLE_BUFFER_SIZE else size) := by
        unfold libewf_file_entry_read_buffer
        rw [List.length_take, List.length_drop]
        split <;> omega
      rw [if_pos hlength, hquotient]
      simp [record_operation, file_stream_write_nil, stream_operations]
    · have hlarge : size ≥ EXPORT_HANDLE_BUFFER_SIZE := by omega
      rw [if_pos hlarge]
      have hlength : (libewf_file_entry_read_buffer values position
          EXPORT_HANDLE_BUFFER_SIZE).length = EXPORT_HANDLE_BUFFER_SIZE := by
        unfold libewf_file_entry_read_buffer
        rw [List.length_take, List.length_drop]
        omega
      rw [if_neg (by rw [hlength]; exact fun h => h rfl), hwrite, if_neg (by simp)]
      have hbuffer : 0 < EXPORT_HANDLE_BUFFER_SIZE := by
        unfold EXPORT_HANDLE_BUFFER_SIZE
        omega
      rw [ih (size - EXPORT_HANDLE_BUFFER_SIZE) (by omega) _ _ (by omega) (by omega)]
      have hquotient : (values.data.length - position) / EXPORT_HANDLE_BUFFER_SIZE
          = (values.data.length - (position + EXPORT_HANDLE_BUFFER_SIZE))
              / EXPORT_HANDLE_BUFFER_SIZE + 1 := by
        have hsub : values.data.length - position
            = (values.data.length - (position + EXPORT_HANDLE_BUFFER_SIZE))
              + EXPORT_HANDLE_BUFFER_SIZE := by omega
        rw [hsub, Nat.add_div_right _ hbuffer]
      generalize (values.data.length - (position + EXPORT_HANDLE_BUFFER_SIZE))
        / EXPORT_HANDLE_BUFFER_SIZE = quotient at hquotient ⊢
      rw [hquotient, List.replicate_succ, stream_operations]
      simp only [record_operation, libewf_file_entry_read_buffer]
      rw [file_stream_write_write]
      have hblocks : EXPORT_HANDLE_BUFFER_SIZE * (quotient + 1) - EXPORT_HANDLE_BUFFER_SIZE
          = EXPORT_HANDLE_BUFFER_SIZE * quotient := by
        rw [Nat.mul_add, Nat.mul_one, Nat.add_sub_cancel]
      have htake := take_block_append values.data position EXPORT_HANDLE_BUFFER_SIZE
        (EXPORT_HANDLE_BUFFER_SIZE * (quotient + 1))
        (by rw [Nat.mul_add, Nat.mul_one]; omega)
      rw [hblocks] at htake
      rw [htake]
      have hrest : size - EXPORT_HANDLE_BUFFER_SIZE - EXPORT_HANDLE_BUFFER_SIZE * quotient
          = size - EXPORT_HANDLE_BUFFER_SIZE * (quotient + 1) := by
        rw [Nat.mul_add, Nat.mul_one]
        omega
      rw [hrest, operations_regroup]

/-! ## The branch of a regular file -/

theorem export_file_entry_of_file (values : file_entry_values_t)
    (sub_file_entries : List file_entry_t) (export_path : List Int) (export_path_size : Nat)
    (world : world_t) (target_path : List Int) (target_path_size : Nat)
    (htarget : file_entry_target_path values export_path export_path_size
      = some (1, some target_path, target_path_size))
    (hnew : libsystem_file_exists values.file_exists_fails world.file_system target_path = 0)
    (hflags : values.get_flags = 1)
    (hfile : values.flags &&& LIBEWF_FILE_ENTRY_FLAG_IS_FILE = LIBEWF_FILE_ENTRY_FLAG_IS_FILE) :
    export_handle_export_file_entry (file_entry_t.mk values sub_file_entries) export_path
        export_path_size world
      = some (export_file_entry_data values target_path
          (record_operation world (file_operation_t.file_exists target_path))) := by
  have hprobed : libsystem_file_exists values.file_exists_fails
      (record_operation world (file_operation_t.file_exists target_path)).file_system
      target_path = 0 := hnew
  rw [export_handle_export_file_entry]
  simp only [htarget, hprobed, hflags, hfile]
  simp

theorem export_file_entry_data_complete (values : file_entry_values_t)
    (target_path : List Int) (world : world_t)
    (hopen : values.file_stream_open = true) (hsize : values.get_size = 1)
    (hseek : values.seek_offset = 0) (halloc : values.memory_allocate_data = true)
    (hwrite : values.file_stream_write_fails_at = none)
    (hclose : values.file_stream_close = 0)
    (hdata : values.size ≤ values.data.length) :
    export_file_entry_data values target_path world
      = (1,
         { file_system :=
             libsystem_file_stream_write
               (libsystem_file_stream_open world.file_system target_path) target_path
               (values.data.take values.size),
           operations :=
             world.operations ++ [file_operation_t.file_stream_open target_path]
               ++ (if values.size > 0 then [file_operation_t.seek_offset 0] else [])
               ++ stream_operations target_path (block_sizes values.size)
               ++ [file_operation_t.file_stream_close target_path] }) := by
  unfold export_file_entry_data
  simp only [hopen, hsize, hseek, halloc, hclose]
  by_cases hpositive : values.size > 0
  · rw [if_pos hpositive,
      export_file_entry_data_loop_complete values target_path hwrite values.size 0 _
        (by omega)]
    have hpositive' : 0 < values.size := hpositive
    simp [record_operation, hpositive']
  · have hzero : values.size = 0 := by omega
    rw [if_neg hpositive, hzero]
    simp [record_operation, file_stream_write_nil, block_sizes, stream_operations]

theorem export_file_entry_data_short (values : file_entry_values_t)
    (target_path : List Int) (world : world_t)
    (hopen : values.file_stream_open = true) (hsize : values.get_size = 1)
    (hseek : values.seek_offset = 0) (halloc : values.memory_allocate_data = true)
    (hwrite : values.file_stream_write_fails_at = none)
    (hdata : values.data.length < values.size) :
    export_file_entry_data values target_path world
      = (-1,
         { file_system :=
             libsystem_file_stream_write
               (libsystem_file_stream_open world.file_system target_path) target_path
               (values.data.take
                 (EXPORT_HANDLE_BUFFER_SIZE * (values.data.length / EXPORT_HANDLE_BUFFER_SIZE))),
           operations :=
             world.operations
               ++ [file_operation_t.file_stream_open target_path,
                   file_operation_t.seek_offset 0]
               ++ stream_operations target_path
                   (List.replicate (values.data.length / EXPORT_HANDLE_BUFFER_SIZE)
                     EXPORT_HANDLE_BUFFER_SIZE)
               ++ [file_operation_t.read_buffer
                     (if values.size
                          - EXPORT_HANDLE_BUFFER_SIZE
                            * (values.data.length / EXPORT_HANDLE_BUFFER_SIZE)
                          ≥ EXPORT_HANDLE_BUFFER_SIZE
                      then EXPORT_HANDLE_BUFFER_SIZE
                      else values.size
                          - EXPORT_HANDLE_BUFFER_SIZE
                            * (values.data.length / EXPORT_HANDLE_BUFFER_SIZE)),
                   file_operation_t.file_stream_close target_path] }) := by
  unfold export_file_entry_data
  simp only [hopen, hsize, hseek, halloc]
  have hpositive : values.size > 0 := by omega
  rw [if_pos hpositive,
    export_file_entry_data_loop_short values target_path hwrite values.size 0 _
      (Nat.zero_le _) (by omega)]
  simp [record_operation]

theorem file_system_lookup_written (file_system : file_system_t) (target_path : List Int)
    (data : List Nat) :
    file_system_lookup
        (libsystem_file_stream_write (libsystem_file_stream_open file_system target_path)
          target_path data) target_path
      = some (file_node_t.file data) := by
  rw [file_system_lookup_write, if_pos rfl]
  unfold libsystem_file_stream_open
  rw [file_system_lookup_added, if_pos rfl]
  rfl

/-! ## C27: the blocks of a regular file -/

/-- C27: the export of a regular file entry of size s whose target is new and whose
collaborators succeed.  When every read returns the requested length (the entry holds at
least s bytes), the reads requested are 8192 as often as it fits in s followed by the
remainder if that is nonzero, each block is written before the next is read, the blocks sum up
to s and the target holds the first s bytes of the entry; for s = 0 there is no seek and no
read and the target is an empty file; and when a read returns less than requested (the entry
holds fewer than s bytes) the call returns -1 and the target holds only the whole blocks
before that read. -/
theorem file_entry_streaming (values : file_entry_values_t)
    (sub_file_entries : List file_entry_t) (export_path : List Int) (export_path_size : Nat)
    (world : world_t) (target_path : List Int) (target_path_size : Nat)
    (htarget : file_entry_target_path values export_path export_path_size
      = some (1, some target_path, target_path_size))
    (hnew : libsystem_file_exists values.file_exists_fails world.file_system target_path = 0)
    (hflags : values.get_flags = 1)
    (hfile : values.flags &&& LIBEWF_FILE_ENTRY_FLAG_IS_FILE = LIBEWF_FILE_ENTRY_FLAG_IS_FILE)
    (hopen : values.file_stream_open = true) (hsize : values.get_size = 1)
    (hseek : values.seek_offset = 0) (halloc : values.memory_allocate_data = true)
    (hwrite : values.file_stream_write_fails_at = none)
    (hclose : values.file_stream_close = 0) :
    (values.size ≤ values.data.length →
      export_handle_export_file_entry (file_entry_t.mk values sub_file_entries) export_path
          export_path_size world
        = some (1,
           { file_system :=
               libsystem_file_stream_write
                 (libsystem_file_stream_open world.file_system target_path) target_path
                 (values.data.take values.size),
             operations :=
               world.operations
                 ++ [file_operation_t.file_exists target_path,
                     file_operation_t.file_stream_open target_path]
                 ++ (if values.size > 0 then [file_operation_t.seek_offset 0] else [])
                 ++ stream_operations target_path (block_sizes values.size)
                 ++ [file_operation_t.file_stream_close target_path] })
      ∧ (block_sizes values.size).sum = values.size
      ∧ (values.data.take values.size).length = values.size
      ∧ (export_handle_export_file_entry (file_entry_t.mk values sub_file_entries)
            export_path export_path_size world).map
              (fun result => file_system_lookup result.2.file_system target_path)
          = some (some (file_node_t.file (values.data.take values.size))))
    ∧ (values.size = 0 →
      export_handle_export_file_entry (file_entry_t.mk values sub_file_entries) export_path
          export_path_size world
        = some (1,
           { file_system := libsystem_file_stream_open world.file_system target_path,
             operations :=
               world.operations
                 ++ [file_operation_t.file_exists target_path,
                     file_operation_t.file_stream_open target_path,
                     file_operation_t.file_stream_close target_path] })
      ∧ file_system_lookup (libsystem_file_stream_open world.file_system target_path)
            target_path
          = some (file_node_t.file []))
    ∧ (values.data.length < values.size →
      export_handle_export_file_entry (file_entry_t.mk values sub_file_entries) export_path
          export_path_size world
        = some (-1,
           { file_system :=
               libsystem_file_stream_write
                 (libsystem_file_stream_open world.file_system target_path) target_path
                 (values.data.take
                   (EXPORT_HANDLE_BUFFER_SIZE
                     * (values.data.length / EXPORT_HANDLE_BUFFER_SIZE))),
             operations :=
               world.operations
                 ++ [file_operation_t.file_exists target_path,
                     file_operation_t.file_stream_open target_path,
                     file_operation_t.seek_offset 0]
                 ++ stream_operations target_path
                     (List.replicate (values.data.length / EXPORT_HANDLE_BUFFER_SIZE)
                       EXPORT_HANDLE_BUFFER_SIZE)
                 ++ [file_operation_t.read_buffer
                       (if values.size
                            - EXPORT_HANDLE_BUFFER_SIZE
                              * (values.data.length / EXPORT_HANDLE_BUFFER_SIZE)
                            ≥ EXPORT_HANDLE_BUFFER_SIZE
                        then EXPORT_HANDLE_BUFFER_SIZE
                        else values.size
                            - EXPORT_HANDLE_BUFFER_SIZE
                              * (values.data.length / EXPORT_HANDLE_BUFFER_SIZE)),
                     file_operation_t.file_stream_close target_path] })
      ∧ (export_handle_export_file_entry (file_entry_t.mk values sub_file_entries)
            export_path export_path_size world).map
              (fun result => file_system_lookup result.2.file_system target_path)
          = some (some (file_node_t.file
              (values.data.take
                (EXPORT_HANDLE_BUFFER_SIZE
                  * (values.data.length / EXPORT_HANDLE_BUFFER_SIZE)))))) := by
  have hreduce := export_file_entry_of_file values sub_file_entries export_path
    export_path_size world target_path target_path_size htarget hnew hflags hfile
  refine ⟨?_, ?_, ?_⟩
  · intro hdata
    have hcall : export_handle_export_file_entry (file_entry_t.mk values sub_file_entries)
        export_path export_path_size world
        = some (1,
           { file_system :=
               libsystem_file_stream_write
                 (libsystem_file_stream_open world.file_system target_path) target_path
                 (values.data.take values.size),
             operations :=
               world.operations
                 ++ [file_operation_t.file_exists target_path,
                     file_operation_t.file_stream_open target_path]
                 ++ (if values.size > 0 then [file_operation_t.seek_offset 0] else [])
                 ++ stream_operations target_path (block_sizes values.size)
                 ++ [file_operation_t.file_stream_close target_path] }) := by
      rw [hreduce, export_file_entry_data_complete values target_path _ hopen hsize hseek
        halloc hwrite hclose hdata]
      simp [record_operation]
    refine ⟨hcall, block_sizes_sum values.size, ?_, ?_⟩
    · rw [List.length_take]
      omega
    · rw [hcall, Option.map_some']
      exact congrArg some (file_system_lookup_written _ _ _)
  · intro hzero
    refine ⟨?_, ?_⟩
    · rw [hreduce, export_file_entry_data_complete values target_path _ hopen hsize hseek
        halloc hwrite hclose (by omega), hzero]
      simp [record_operation, file_stream_write_nil, block_sizes, stream_operations]
    · have hwritten := file_system_lookup_written world.file_system target_path []
      rw [file_stream_write_nil] at hwritten
      exact hwritten
  · intro hdata
    have hcall : export_handle_export_file_entry (file_entry_t.mk values sub_file_entries)
        export_path export_path_size world
        = some (-1,
           { file_system :=
               libsystem_file_stream_write
                 (libsystem_file_stream_open world.file_system target_path) target_path
                 (values.data.take
                   (EXPORT_HANDLE_BUFFER_SIZE
                     * (values.data.length / EXPORT_HANDLE_BUFFER_SIZE))),
             operations :=
               world.operations
                 ++ [file_operation_t.file_exists target_path,
                     file_operation_t.file_stream_open target_path,
                     file_operation_t.seek_offset 0]
                 ++ stream_operations target_path
                     (List.replicate (values.data.length / EXPORT_HANDLE_BUFFER_SIZE)
                       EXPORT_HANDLE_BUFFER_SIZE)
                 ++ [file_operation_t.read_buffer
                       (if values.size
                            - EXPORT_HANDLE_BUFFER_SIZE
                              * (values.data.length / EXPORT_HANDLE_BUFFER_SIZE)
                            ≥ EXPORT_HANDLE_BUFFER_SIZE
                        then EXPORT_HANDLE_BUFFER_SIZE
                        else values.size
                            - EXPORT_HANDLE_BUFFER_SIZE
                              * (values.data.length / EXPORT_HANDLE_BUFFER_SIZE)),
                     file_operation_t.file_stream_close target_path] }) := by
      rw [hreduce, export_file_entry_data_short values target_path _ hopen hsize hseek
        halloc hwrite hdata]
      simp [record_operation]
    refine ⟨hcall, ?_⟩
    rw [hcall, Option.map_some']
    exact congrArg some (file_system_lookup_written _ _ _)

theorem sample_file_target_path (data : List Nat) :
    file_entry_target_path (sample_file_values data) sample_export_path 5
      = some (1, some [47, 111, 117, 116, 47, 102, 0], 7) := by
  simp [file_entry_target_path, sample_file_values, sample_file_entry_values,
    export_handle_create_target_path, export_handle_sanitize_filename,
    sanitize_filename_loop, is_replaced_character, SSIZE_MAX, array_write,
    sample_export_path, LIBSYSTEM_PATH_SEPARATOR]

theorem sample_data_length : sample_data.length = 12000 :=
  List.length_replicate 12000 0

/-- C27 at s = 12000: the blocks are 8192 then 3808, each read followed by its write. -/
theorem file_entry_streaming_witness :
    block_sizes 12000 = [8192, 3808]
    ∧ (export_handle_export_file_entry (file_entry_t.mk (sample_file_values sample_data) [])
        sample_export_path 5 sample_world).map (fun result => result.2.operations)
      = some [file_operation_t.file_exists [47, 111, 117, 116, 47, 102, 0],
         file_operation_t.file_stream_open [47, 111, 117, 116, 47, 102, 0],
         file_operation_t.seek_offset 0,
         file_operation_t.read_buffer 8192,
         file_operation_t.file_stream_write [47, 111, 117, 116, 47, 102, 0] 8192,
         file_operation_t.read_buffer 3808,
         file_operation_t.file_stream_write [47, 111, 117, 116, 47, 102, 0] 3808,
         file_operation_t.file_stream_close [47, 111, 117, 116, 47, 102, 0]] := by
  have hblocks : block_sizes 12000 = [8192, 3808] := by
    simp [block_sizes, EXPORT_HANDLE_BUFFER_SIZE, List.replicate]
  have hlength : (sample_file_values sample_data).size = 12000 := sample_data_length
  have h := (file_entry_streaming (sample_file_values sample_data) []
    sample_export_path 5 sample_world [47, 111, 117, 116, 47, 102, 0] 7
    (sample_file_target_path _)
    (by simp [libsystem_file_exists, file_system_lookup, sample_file_values,
      sample_file_entry_values, sample_world, sample_export_path])
    rfl (by decide) rfl rfl rfl rfl rfl rfl).1
    (Nat.le_refl _)
  refine ⟨hblocks, ?_⟩
  rw [h.1, hlength, hblocks, Option.map_some']
  simp [sample_world, stream_operations]

/-! ## C23: a target that exists is skipped -/

theorem export_file_entry_of_existing (values : file_entry_values_t)
    (sub_file_entries : List file_entry_t) (export_path : List Int) (export_path_size : Nat)
    (world : world_t) (target_path : List Int) (target_path_size : Nat)
    (htarget : file_entry_target_path values export_path export_path_size
      = some (1, some target_path, target_path_size))
    (hprobe : values.file_exists_fails = false)
    (hexists : (file_system_lookup world.file_system target_path).isSome = true) :
    export_handle_export_file_entry (file_entry_t.mk values sub_file_entries) export_path
        export_path_size world
      = some (1,
         { file_system := world.file_system,
           operations :=
             world.operations
               ++ [file_operation_t.file_exists target_path,
                   file_operation_t.log_skipping] }) := by
  have hresult : libsystem_file_exists values.file_exists_fails
      (record_operation world (file_operation_t.file_exists target_path)).file_system
      target_path = 1 := by
    simp [libsystem_file_exists, hprobe, record_operation, hexists]
  rw [export_handle_export_file_entry]
  simp only [htarget, hresult]
  simp [record_operation]

/-- C23: when the target path of a file entry, regular file or directory, exists on the file
system, export_handle_export_file_entry returns 1 after the existence check and the skip
notice alone: no file is opened or written, no directory is made, no sub file entry is
retrieved, and the file system is as before. -/
theorem export_file_entry_skips_existing (values : file_entry_values_t)
    (sub_file_entries : List file_entry_t) (export_path : List Int) (export_path_size : Nat)
    (world : world_t) (target_path : List Int) (target_path_size : Nat)
    (htarget : file_entry_target_path values export_path export_path_size
      = some (1, some target_path, target_path_size))
    (hprobe : values.file_exists_fails = false)
    (hexists : (file_system_lookup world.file_system target_path).isSome = true) :
    export_handle_export_file_entry (file_entry_t.mk values sub_file_entries) export_path
        export_path_size world
      = some (1,
         { file_system := world.file_system,
           operations :=
             world.operations
               ++ [file_operation_t.file_exists target_path,
                   file_operation_t.log_skipping] }) := by
  exact export_file_entry_of_existing values sub_file_entries export_path export_path_size
    world target_path target_path_size htarget hprobe hexists

/-- C23 at the regular file "f" of three bytes, whose target "/out/f" exists and holds one
byte: nothing is touched. -/
theorem export_file_entry_skips_existing_witness :
    export_handle_export_file_entry (file_entry_t.mk (sample_file_values [1, 2, 3]) [])
        sample_export_path 5
        { file_system :=
            [(sample_export_path, file_node_t.directory),
             ([47, 111, 117, 116, 47, 102, 0], file_node_t.file [9])],
          operations := [] }
      = some (1,
         { file_system :=
             [(sample_export_path, file_node_t.directory),
              ([47, 111, 117, 116, 47, 102, 0], file_node_t.file [9])],
           operations :=
             [file_operation_t.file_exists [47, 111, 117, 116, 47, 102, 0],
              file_operation_t.log_skipping] }) :=
  export_file_entry_skips_existing (sample_file_values [1, 2, 3]) [] sample_export_path 5
    { file_system :=
        [(sample_export_path, file_node_t.directory),
         ([47, 111, 117, 116, 47, 102, 0], file_node_t.file [9])],
      operations := [] }
    [47, 111, 117, 116, 47, 102, 0] 7 (sample_file_target_path _) rfl
    (by simp [file_system_lookup, sample_export_path])

/-! ## The branch of a directory -/

theorem export_file_entry_of_directory (values : file_entry_values_t)
    (sub_file_entries : List file_entry_t) (export_path : List Int) (export_path_size : Nat)
    (world : world_t) (target_path : List Int) (target_path_size : Nat)
    (htarget : file_entry_target_path values export_path export_path_size
      = some (1, some target_path, target_path_size))
    (hnew : libsystem_file_exists values.file_exists_fails world.file_system target_path = 0)
    (hflags : values.get_flags = 1)
    (hdirectory : values.flags &&& LIBEWF_FILE_ENTRY_FLAG_IS_FILE
      ≠ LIBEWF_FILE_ENTRY_FLAG_IS_FILE)
    (hmake : values.directory_make = 0)
    (hnumber : values.get_number_of_sub_file_entries = 1) :
    export_handle_export_file_entry (file_entry_t.mk values sub_file_entries) export_path
        export_path_size world
      = export_sub_file_entries sub_file_entries 0 target_path target_path_size
          { file_system := libsystem_directory_make world.file_system target_path,
            operations :=
              world.operations
                ++ [file_operation_t.file_exists target_path,
                    file_operation_t.directory_make target_path,
                    file_operation_t.log_created_directory target_path] } := by
  have hprobed : libsystem_file_exists values.file_exists_fails
      (record_operation world (file_operation_t.file_exists target_path)).file_system
      target_path = 0 := hnew
  rw [export_handle_export_file_entry]
  simp only [htarget, hprobed, hflags, hdirectory, export_handle_make_directory, hmake,
    hnumber]
  simp [record_operation]

theorem export_sub_file_entries_append (target_path : List Int) (target_path_size : Nat)
    (rest : List file_entry_t) :
    ∀ (before : List file_entry_t) (iterator : Nat) (world : world_t),
      export_sub_file_entries (before ++ rest) iterator target_path target_path_size world
        = (export_sub_file_entries before iterator target_path target_path_size world).bind
            (fun result =>
              if result.1 = 1 then
                export_sub_file_entries rest (iterator + before.length) target_path
                  target_path_size result.2
              else some result) := by
  intro before
  induction before with
  | nil =>
    intro iterator world
    simp [export_sub_file_entries]
  | cons head tail ih =>
    intro iterator world
    rcases head with ⟨values, sub_sub_file_entries⟩
    rw [List.cons_append, export_sub_file_entries, export_sub_file_entries]
    simp only []
    by_cases hretrieve : values.get_sub_file_entry ≠ 1
    · rw [if_pos hretrieve, if_pos hretrieve]
      simp
    · rw [if_neg hretrieve, if_neg hretrieve]
      cases hchild : export_handle_export_file_entry
          (file_entry_t.mk values sub_sub_file_entries) target_path target_path_size
          (record_operation world (file_operation_t.get_sub_file_entry iterator)) with
      | none => rfl
      | some exported =>
        simp only []
        by_cases hexported : exported.1 ≠ 1
        · rw [if_pos hexported, if_pos hexported]
          simp
        · rw [if_neg hexported, if_neg hexported]
          by_cases hfree : values.file_entry_free ≠ 1
          · rw [if_pos hfree, if_pos hfree]
            simp
          · rw [if_neg hfree, if_neg hfree, ih]
            rw [List.length_cons, Nat.add_assoc, Nat.add_comm 1]

/-! ## C25: the sub file entries in their order -/

/-- C25 (code bug): a directory entry whose sub file entries before index k were exported
with success (the export of the entry with those alone returns 1).  The call on the entry
with a further sub file entry k and any later ones continues from there: it retrieves entry
k with index k, exports it under the target path and frees it, and goes on with index k + 1
only if both succeed.  If the export of entry k returns a failure, the call returns -1 in the
state that this failed export left, whatever the later sub file entries are: none of them is
retrieved or exported.  But where the export of entry k does not return, because its target
path could not be built after the allocation and export_handle_create_target_path released
an address that no allocation returned, the call does not return an error: it does not
return. -/
theorem sub_file_entries_in_order (values : file_entry_values_t)
    (before after : List file_entry_t) (next_values : file_entry_values_t)
    (next_sub_file_entries : List file_entry_t) (export_path : List Int)
    (export_path_size : Nat) (world exported_before : world_t) (target_path : List Int)
    (target_path_size : Nat)
    (htarget : file_entry_target_path values export_path export_path_size
      = some (1, some target_path, target_path_size))
    (hnew : libsystem_file_exists values.file_exists_fails world.file_system target_path = 0)
    (hflags : values.get_flags = 1)
    (hdirectory : values.flags &&& LIBEWF_FILE_ENTRY_FLAG_IS_FILE
      ≠ LIBEWF_FILE_ENTRY_FLAG_IS_FILE)
    (hmake : values.directory_make = 0)
    (hnumber : values.get_number_of_sub_file_entries = 1)
    (hbefore : export_handle_export_file_entry (file_entry_t.mk values before) export_path
      export_path_size world = some (1, exported_before))
    (hretrieve : next_values.get_sub_file_entry = 1) :
    export_handle_export_file_entry
        (file_entry_t.mk values
          (before ++ file_entry_t.mk next_values next_sub_file_entries :: after))
        export_path export_path_size world
      = (export_handle_export_file_entry
            (file_entry_t.mk next_values next_sub_file_entries) target_path
            target_path_size
            (record_operation exported_before
              (file_operation_t.get_sub_file_entry before.length))).bind
          (fun exported =>
            if exported.1 ≠ 1 ∨ next_values.file_entry_free ≠ 1 then
              some (-1,
                record_operation exported.2
                  (file_operation_t.file_entry_free before.length))
            else
              export_sub_file_entries after (before.length + 1) target_path
                target_path_size
                (record_operation exported.2
                  (file_operation_t.file_entry_free before.length)))
    ∧ (∀ exported : Int × world_t,
        export_handle_export_file_entry
            (file_entry_t.mk next_values next_sub_file_entries) target_path
            target_path_size
            (record_operation exported_before
              (file_operation_t.get_sub_file_entry before.length)) = some exported →
        exported.1 ≠ 1 →
        export_handle_export_file_entry
            (file_entry_t.mk values
              (before ++ file_entry_t.mk next_values next_sub_file_entries :: after))
            export_path export_path_size world
          = some (-1,
              record_operation exported.2
                (file_operation_t.file_entry_free before.length)))
    ∧ (export_handle_export_file_entry
          (file_entry_t.mk next_values next_sub_file_entries) target_path target_path_size
          (record_operation exported_before
            (file_operation_t.get_sub_file_entry before.length)) = none →
        export_handle_export_file_entry
            (file_entry_t.mk values
              (before ++ file_entry_t.mk next_values next_sub_file_entries :: after))
            export_path export_path_size world = none) := by
  have hreduce := fun sub_file_entries =>
    export_file_entry_of_directory values sub_file_entries export_path export_path_size
      world target_path target_path_size htarget hnew hflags hdirectory hmake hnumber
  rw [hreduce before] at hbefore
  have hcall : export_handle_export_file_entry
      (file_entry_t.mk values
        (before ++ file_entry_t.mk next_values next_sub_file_entries :: after))
      export_path export_path_size world
      = (export_handle_export_file_entry
            (file_entry_t.mk next_values next_sub_file_entries) target_path
            target_path_size
            (record_operation exported_before
              (file_operation_t.get_sub_file_entry before.length))).bind
          (fun exported =>
            if exported.1 ≠ 1 ∨ next_values.file_entry_free ≠ 1 then
              some (-1,
                record_operation exported.2
                  (file_operation_t.file_entry_free before.length))
            else
              export_sub_file_entries after (before.length + 1) target_path
                target_path_size
                (record_operation exported.2
                  (file_operation_t.file_entry_free before.length))) := by
    rw [hreduce (before ++ file_entry_t.mk next_values next_sub_file_entries :: after),
      export_sub_file_entries_append, hbefore, Option.some_bind, if_pos rfl, Nat.zero_add,
      export_sub_file_entries]
    simp only [hretrieve]
    cases hchild : export_handle_export_file_entry
        (file_entry_t.mk next_values next_sub_file_entries) target_path target_path_size
        (record_operation exported_before
          (file_operation_t.get_sub_file_entry before.length)) with
    | none => simp
    | some exported =>
      by_cases hexported : exported.1 ≠ 1
      · simp [hexported]
      · by_cases hfree : next_values.file_entry_free ≠ 1
        · simp [hexported, hfree]
        · have hsuccess : exported.1 = 1 := by simpa using hexported
          simp [hsuccess, hfree]
  refine ⟨hcall, ?_, ?_⟩
  · intro exported hchild hfails
    rw [hcall, hchild, Option.some_bind, if_pos (Or.inl hfails)]
  · intro hchild
    rw [hcall, hchild]
    rfl

theorem sample_before_export :
    export_handle_export_file_entry
        (file_entry_t.mk sample_file_entry_values
          [file_entry_t.mk (sample_file_values [1, 2, 3]) []])
        sample_export_path 5 sample_empty_world
      = some (1, sample_exported_world) := by
  simp [export_handle_export_file_entry, export_sub_file_entries, sample_file_values,
    sample_empty_world, file_entry_target_path, sample_file_entry_values,
    export_handle_create_target_path, SSIZE_MAX, array_write, sample_export_path,
    export_handle_sanitize_filename, sanitize_filename_loop, is_replaced_character,
    LIBSYSTEM_PATH_SEPARATOR, libsystem_file_exists, file_system_lookup, record_operation,
    LIBEWF_FILE_ENTRY_FLAG_IS_FILE, export_file_entry_data, export_file_entry_data_loop,
    libsystem_file_stream_open, libsystem_file_stream_write, EXPORT_HANDLE_BUFFER_SIZE,
    libewf_file_entry_read_buffer, export_handle_make_directory, libsystem_directory_make,
    file_node_append, sample_exported_world]

theorem sample_unopened_export (world : world_t)
    (hnew : file_system_lookup world.file_system [47, 111, 117, 116, 47, 103, 0] = none) :
    export_handle_export_file_entry (file_entry_t.mk sample_unopened_file_values [])
        sample_export_path 5 world
      = some (-1,
         { file_system := world.file_system,
           operations :=
             world.operations
               ++ [file_operation_t.file_exists [47, 111, 117, 116, 47, 103, 0],
                   file_operation_t.file_stream_open [47, 111, 117, 116, 47, 103, 0]] }) := by
  have htarget : file_entry_target_path sample_unopened_file_values sample_export_path 5
      = some (1, some [47, 111, 117, 116, 47, 103, 0], 7) := by
    simp [file_entry_target_path, sample_unopened_file_values, sample_file_entry_values,
      export_handle_create_target_path, export_handle_sanitize_filename,
      sanitize_filename_loop, is_replaced_character, SSIZE_MAX, array_write,
      sample_export_path, LIBSYSTEM_PATH_SEPARATOR]
  rw [export_file_entry_of_file sample_unopened_file_values [] sample_export_path 5 world
    [47, 111, 117, 116, 47, 103, 0] 7 htarget
    (by simp [libsystem_file_exists, hnew, sample_unopened_file_values,
      sample_file_entry_values]) rfl (by decide)]
  simp [export_file_entry_data, sample_unopened_file_values, sample_file_entry_values,
    record_operation]

theorem sample_unconverted_export (world : world_t) :
    export_handle_export_file_entry (file_entry_t.mk sample_unconverted_file_values [])
        sample_export_path 5 world = none := by
  simp [export_handle_export_file_entry, file_entry_target_path,
    sample_unconverted_file_values, sample_file_entry_values,
    export_handle_create_target_path, SSIZE_MAX]

/-- C25 (code bug) at a directory with the sub file entries "f", "g" and "h": when "g"
cannot be opened, "f" is exported, the export of "g" fails, the call returns -1, and "h" is
neither retrieved nor exported; when the name of the second entry is not converted into
its target path, the call does not return. -/
theorem sub_file_entries_in_order_witness :
    export_handle_export_file_entry
        (file_entry_t.mk sample_file_entry_values
          ([file_entry_t.mk (sample_file_values [1, 2, 3]) []]
            ++ file_entry_t.mk sample_unopened_file_values []
              :: [file_entry_t.mk sample_last_file_values []]))
        sample_export_path 5 sample_empty_world
      = some (-1,
         { file_system := sample_exported_world.file_system,
           operations :=
             sample_exported_world.operations
               ++ [file_operation_t.get_sub_file_entry 1,
                   file_operation_t.file_exists [47, 111, 117, 116, 47, 103, 0],
                   file_operation_t.file_stream_open [47, 111, 117, 116, 47, 103, 0],
                   file_operation_t.file_entry_free 1] })
    ∧ export_handle_export_file_entry
        (file_entry_t.mk sample_file_entry_values
          ([file_entry_t.mk (sample_file_values [1, 2, 3]) []]
            ++ file_entry_t.mk sample_unconverted_file_values []
              :: [file_entry_t.mk sample_last_file_values []]))
        sample_export_path 5 sample_empty_world = none := by
  have htarget : file_entry_target_path sample_file_entry_values sample_export_path 5
      = some (1, some sample_export_path, 5) := by
    simp [file_entry_target_path, sample_file_entry_values]
  have hnew : libsystem_file_exists sample_file_entry_values.file_exists_fails
      sample_empty_world.file_system sample_export_path = 0 := by
    simp [libsystem_file_exists, file_system_lookup, sample_file_entry_values,
      sample_empty_world]
  have hfailing := sample_unopened_export
    (record_operation sample_exported_world (file_operation_t.get_sub_file_entry 1))
    (by simp [record_operation, file_system_lookup, sample_export_path,
      sample_exported_world])
  refine ⟨?_, ?_⟩
  · rw [(sub_file_entries_in_order sample_file_entry_values
      [file_entry_t.mk (sample_file_values [1, 2, 3]) []]
      [file_entry_t.mk sample_last_file_values []] sample_unopened_file_values []
      sample_export_path 5 sample_empty_world sample_exported_world sample_export_path 5
      htarget hnew rfl (by decide) rfl rfl sample_before_export rfl).2.1 _ hfailing
      (by decide)]
    simp [record_operation]
  · exact (sub_file_entries_in_order sample_file_entry_values
      [file_entry_t.mk (sample_file_values [1, 2, 3]) []]
      [file_entry_t.mk sample_last_file_values []] sample_unconverted_file_values []
      sample_export_path 5 sample_empty_world sample_exported_world sample_export_path 5
      htarget hnew rfl (by decide) rfl rfl sample_before_export rfl).2.2
      (sample_unconverted_export _)

/-! ## C24: the export of a tree -/

theorem export_sub_file_entries_cons (values : file_entry_values_t)
    (sub_sub_file_entries rest : List file_entry_t) (iterator : Nat)
    (target_path : List Int) (target_path_size : Nat) (world exported : world_t)
    (hretrieve : values.get_sub_file_entry = 1) (hfree : values.file_entry_free = 1)
    (hexport : export_handle_export_file_entry (file_entry_t.mk values sub_sub_file_entries)
      target_path target_path_size
      (record_operation world (file_operation_t.get_sub_file_entry iterator))
      = some (1, exported)) :
    export_sub_file_entries (file_entry_t.mk values sub_sub_file_entries :: rest) iterator
        target_path target_path_size world
      = export_sub_file_entries rest (iterator + 1) target_path target_path_size
          (record_operation exported (file_operation_t.file_entry_free iterator)) := by
  rw [export_sub_file_entries]
  simp only [hretrieve, hfree, hexport]
  simp

theorem sample_file1_export (data : List Nat) (hdata : 12000 ≤ data.length)
    (world : world_t) (hnew : file_system_lookup world.file_system sample_file1_path = none) :
    export_handle_export_file_entry (file_entry_t.mk (sample_file1_values data) [])
        sample_directory_path 10 world
      = some (1,
         { file_system :=
             libsystem_file_stream_write
               (libsystem_file_stream_open world.file_system sample_file1_path)
               sample_file1_path (data.take 12000),
           operations :=
             world.operations
               ++ [file_operation_t.file_exists sample_file1_path,
                   file_operation_t.file_stream_open sample_file1_path,
                   file_operation_t.seek_offset 0,
                   file_operation_t.read_buffer 8192,
                   file_operation_t.file_stream_write sample_file1_path 8192,
                   file_operation_t.read_buffer 3808,
                   file_operation_t.file_stream_write sample_file1_path 3808,
                   file_operation_t.file_stream_close sample_file1_path] }) := by
  have htarget : file_entry_target_path (sample_file1_values data) sample_directory_path 10
      = some (1, some sample_file1_path, 16) := by
    simp [file_entry_target_path, sample_file1_values, sample_file_entry_values,
      export_handle_create_target_path, export_handle_sanitize_filename,
      sanitize_filename_loop, is_replaced_character, SSIZE_MAX, array_write,
      sample_directory_path, sample_file1_path, LIBSYSTEM_PATH_SEPARATOR]
  have hblocks : block_sizes 12000 = [8192, 3808] := by
    simp [block_sizes, EXPORT_HANDLE_BUFFER_SIZE, List.replicate]
  rw [export_file_entry_of_file (sample_file1_values data) [] sample_directory_path 10 world
    sample_file1_path 16 htarget
    (by simp [libsystem_file_exists, hnew, sample_file1_values, sample_file_entry_values])
    rfl (show (1 : Nat) &&& 1 = 1 by decide),
    export_file_entry_data_complete (sample_file1_values data) sample_file1_path _ rfl rfl
      rfl rfl rfl rfl hdata]
  have hsize : (sample_file1_values data).size = 12000 := rfl
  have hcontent : (sample_file1_values data).data = data := rfl
  rw [hsize, hcontent, hblocks]
  simp [record_operation, stream_operations]

theorem sample_file2_export (world : world_t)
    (hnew : file_system_lookup world.file_system sample_file2_path = none) :
    export_handle_export_file_entry (file_entry_t.mk sample_file2_values [])
        sample_export_path 5 world
      = some (1,
         { file_system := libsystem_file_stream_open world.file_system sample_file2_path,
           operations :=
             world.operations
               ++ [file_operation_t.file_exists sample_file2_path,
                   file_operation_t.file_stream_open sample_file2_path,
                   file_operation_t.file_stream_close sample_file2_path] }) := by
  have htarget : file_entry_target_path sample_file2_values sample_export_path 5
      = some (1, some sample_file2_path, 11) := by
    simp [file_entry_target_path, sample_file2_values, sample_file_entry_values,
      export_handle_create_target_path, export_handle_sanitize_filename,
      sanitize_filename_loop, is_replaced_character, SSIZE_MAX, array_write,
      sample_export_path, sample_file2_path, LIBSYSTEM_PATH_SEPARATOR]
  rw [export_file_entry_of_file sample_file2_values [] sample_export_path 5 world
    sample_file2_path 11 htarget
    (by simp [libsystem_file_exists, hnew, sample_file2_values, sample_file_entry_values])
    rfl (by decide),
    export_file_entry_data_complete sample_file2_values sample_file2_path _ rfl rfl
      rfl rfl rfl rfl (Nat.zero_le _)]
  have hsize : sample_file2_values.size = 0 := rfl
  rw [hsize]
  simp [record_operation, stream_operations, block_sizes, file_stream_write_nil]

theorem sample_directory_export (data : List Nat) (hdata : 12000 ≤ data.length)
    (world : world_t)
    (hdirectory : file_system_lookup world.file_system sample_directory_path = none)
    (hfile1 : file_system_lookup world.file_system sample_file1_path = none) :
    export_handle_export_file_entry
        (file_entry_t.mk sample_directory_values
          [file_entry_t.mk (sample_file1_values data) []])
        sample_export_path 5 world
      = some (1,
         { file_system :=
             libsystem_file_stream_write
               (libsystem_file_stream_open
                 (libsystem_directory_make world.file_system sample_directory_path)
                 sample_file1_path)
               sample_file1_path (data.take 12000),
           operations :=
             world.operations
               ++ [file_operation_t.file_exists sample_directory_path,
                   file_operation_t.directory_make sample_directory_path,
                   file_operation_t.log_created_directory sample_directory_path,
                   file_operation_t.get_sub_file_entry 0,
                   file_operation_t.file_exists sample_file1_path,
                   file_operation_t.file_stream_open sample_file1_path,
                   file_operation_t.seek_offset 0,
                   file_operation_t.read_buffer 8192,
                   file_operation_t.file_stream_write sample_file1_path 8192,
                   file_operation_t.read_buffer 3808,
                   file_operation_t.file_stream_write sample_file1_path 3808,
                   file_operation_t.file_stream_close sample_file1_path,
                   file_operation_t.file_entry_free 0] }) := by
  have htarget : file_entry_target_path sample_directory_values sample_export_path 5
      = some (1, some sample_directory_path, 10) := by
    simp [file_entry_target_path, sample_directory_values, sample_file_entry_values,
      export_handle_create_target_path, export_handle_sanitize_filename,
      sanitize_filename_loop, is_replaced_character, SSIZE_MAX, array_write,
      sample_export_path, sample_directory_path, LIBSYSTEM_PATH_SEPARATOR]
  rw [export_file_entry_of_directory sample_directory_values _ sample_export_path 5 world
    sample_directory_path 10 htarget
    (by simp [libsystem_file_exists, hdirectory, sample_directory_values,
      sample_file_entry_values])
    rfl (by decide) rfl rfl,
    export_sub_file_entries_cons (sample_file1_values data) [] [] 0 sample_directory_path 10
      _ _ rfl rfl
      (sample_file1_export data hdata _
        (by
          simp only [record_operation, libsystem_directory_make, file_system_lookup_added,
            hfile1]
          simp [sample_file1_path, sample_directory_path])),
    export_sub_file_entries]
  simp [record_operation]

theorem sample_tree_export (data : List Nat) (hdata : 12000 ≤ data.length) (world : world_t)
    (hroot : file_system_lookup world.file_system sample_export_path = none)
    (hdirectory : file_system_lookup world.file_system sample_directory_path = none)
    (hfile1 : file_system_lookup world.file_system sample_file1_path = none)
    (hfile2 : file_system_lookup world.file_system sample_file2_path = none) :
    export_handle_export_file_entry (sample_tree data) sample_export_path 5 world
      = some (1,
         { file_system :=
             libsystem_file_stream_open
               (libsystem_file_stream_write
                 (libsystem_file_stream_open
                   (libsystem_directory_make
                     (libsystem_directory_make world.file_system sample_export_path)
                     sample_directory_path)
                   sample_file1_path)
                 sample_file1_path (data.take 12000))
               sample_file2_path,
           operations :=
             world.operations
               ++ [file_operation_t.file_exists sample_export_path,
                   file_operation_t.directory_make sample_export_path,
                   file_operation_t.log_created_directory sample_export_path,
                   file_operation_t.get_sub_file_entry 0,
                   file_operation_t.file_exists sample_directory_path,
                   file_operation_t.directory_make sample_directory_path,
                   file_operation_t.log_created_directory sample_directory_path,
                   file_operation_t.get_sub_file_entry 0,
                   file_operation_t.file_exists sample_file1_path,
                   file_operation_t.file_stream_open sample_file1_path,
                   file_operation_t.seek_offset 0,
                   file_operation_t.read_buffer 8192,
                   file_operation_t.file_stream_write sample_file1_path 8192,
                   file_operation_t.read_buffer 3808,
                   file_operation_t.file_stream_write sample_file1_path 3808,
                   file_operation_t.file_stream_close sample_file1_path,
                   file_operation_t.file_entry_free 0,
                   file_operation_t.file_entry_free 0,
                   file_operation_t.get_sub_file_entry 1,
                   file_operation_t.file_exists sample_file2_path,
                   file_operation_t.file_stream_open sample_file2_path,
                   file_operation_t.file_stream_close sample_file2_path,
                   file_operation_t.file_entry_free 1] }) := by
  have htarget : file_entry_target_path sample_file_entry_values sample_export_path 5
      = some (1, some sample_export_path, 5) := by
    simp [file_entry_target_path, sample_file_entry_values]
  unfold sample_tree
  rw [export_file_entry_of_directory sample_file_entry_values _ sample_export_path 5 world
    sample_export_path 5 htarget
    (by simp [libsystem_file_exists, hroot, sample_file_entry_values])
    rfl (by decide) rfl rfl,
    export_sub_file_entries_cons sample_directory_values _ _ 0 sample_export_path 5
      _ _ rfl rfl
      (sample_directory_export data hdata _
        (by
          simp only [record_operation, libsystem_directory_make, file_system_lookup_added,
            hdirectory]
          simp [sample_export_path, sample_directory_path])
        (by
          simp only [record_operation, libsystem_directory_make, file_system_lookup_added,
            hfile1]
          simp [sample_export_path, sample_file1_path])),
    export_sub_file_entries_cons sample_file2_values _ _ 1 sample_export_path 5
      _ _ rfl rfl
      (sample_file2_export _
        (by
          simp only [record_operation, libsystem_directory_make, libsystem_file_stream_open,
            file_system_lookup_write, file_system_lookup_added, hfile2]
          simp [sample_export_path, sample_file1_path, sample_file2_path,
            sample_directory_path])),
    export_sub_file_entries]
  simp [record_operation]

/-- C24, as stated, fails: the root has no name, so that its target is the export path
itself; when that names an existing empty directory the root is skipped as existing, the call
returns 1, and neither dirA/file1 nor file2 is on the file system afterwards. -/
theorem export_tree_to_existing_directory :
    export_handle_export_file_entry (sample_tree sample_data) sample_export_path 5
        sample_world
      = some (1,
          { file_system := [(sample_export_path, file_node_t.directory)],
            operations :=
              [file_operation_t.file_exists sample_export_path,
               file_operation_t.log_skipping] })
    ∧ (export_handle_export_file_entry (sample_tree sample_data) sample_export_path 5
        sample_world).map
          (fun result => file_system_lookup result.2.file_system sample_file1_path)
        = some none
    ∧ (export_handle_export_file_entry (sample_tree sample_data) sample_export_path 5
        sample_world).map
          (fun result => file_system_lookup result.2.file_system sample_file2_path)
        = some none := by
  have hcall : export_handle_export_file_entry (sample_tree sample_data) sample_export_path 5
      sample_world
      = some (1,
          { file_system := [(sample_export_path, file_node_t.directory)],
            operations :=
              [file_operation_t.file_exists sample_export_path,
               file_operation_t.log_skipping] }) := by
    unfold sample_tree
    rw [export_file_entry_of_existing sample_file_entry_values _ sample_export_path 5
      sample_world sample_export_path 5
      (by simp [file_entry_target_path, sample_file_entry_values]) rfl
      (by simp [file_system_lookup, sample_world])]
    simp [sample_world]
  refine ⟨hcall, ?_, ?_⟩
  · rw [hcall]
    simp [file_system_lookup, sample_export_path, sample_file1_path]
  · rw [hcall]
    simp [file_system_lookup, sample_export_path, sample_file2_path]

/-- C24, amended: with an export path that does not exist yet (nor anything below it), the
export of the tree of a root without a name that holds dirA, with file1 of 12000 bytes in it,
and the empty file2, all collaborators succeeding, returns 1 and leaves the export path and
dirA as directories, dirA/file1 with the 12000 bytes of the source, and file2 as an empty
file. -/
theorem export_tree_to_new_directory (data : List Nat) (world : world_t)
    (hdata : data.length = 12000)
    (hroot : file_system_lookup world.file_system sample_export_path = none)
    (hdirectory : file_system_lookup world.file_system sample_directory_path = none)
    (hfile1 : file_system_lookup world.file_system sample_file1_path = none)
    (hfile2 : file_system_lookup world.file_system sample_file2_path = none) :
    (export_handle_export_file_entry (sample_tree data) sample_export_path 5 world).map
        (fun result => result.1) = some 1
    ∧ (export_handle_export_file_entry (sample_tree data) sample_export_path 5 world).map
        (fun result => file_system_lookup result.2.file_system sample_export_path)
        = some (some file_node_t.directory)
    ∧ (export_handle_export_file_entry (sample_tree data) sample_export_path 5 world).map
        (fun result => file_system_lookup result.2.file_system sample_directory_path)
        = some (some file_node_t.directory)
    ∧ (export_handle_export_file_entry (sample_tree data) sample_export_path 5 world).map
        (fun result => file_system_lookup result.2.file_system sample_file1_path)
        = some (some (file_node_t.file data))
    ∧ (export_handle_export_file_entry (sample_tree data) sample_export_path 5 world).map
        (fun result => file_system_lookup result.2.file_system sample_file2_path)
        = some (some (file_node_t.file [])) := by
  rw [sample_tree_export data (by omega) world hroot hdirectory hfile1 hfile2]
  have hwhole : data.take 12000 = data := List.take_of_length_le (by omega)
  rw [hwhole]
  simp only [Option.map_some', Option.some.injEq]
  refine ⟨trivial, ?_, ?_, ?_, ?_⟩
  · simp only [libsystem_directory_make, libsystem_file_stream_open,
      file_system_lookup_write, file_system_lookup_added]
    simp [sample_export_path, sample_file1_path, sample_file2_path, sample_directory_path]
  · simp only [libsystem_directory_make, libsystem_file_stream_open,
      file_system_lookup_write, file_system_lookup_added]
    simp [sample_export_path, sample_file1_path, sample_file2_path, sample_directory_path]
  · simp only [libsystem_directory_make, libsystem_file_stream_open,
      file_system_lookup_write, file_system_lookup_added]
    simp [sample_export_path, sample_file1_path, sample_file2_path, sample_directory_path,
      file_node_append]
  · simp only [libsystem_directory_make, libsystem_file_stream_open,
      file_system_lookup_write, file_system_lookup_added]
    simp [sample_export_path, sample_file1_path, sample_file2_path, sample_directory_path]

/-- C24, amended, at 12000 zero bytes and a file system without nodes. -/
theorem export_tree_to_new_directory_witness :
    (export_handle_export_file_entry (sample_tree sample_data) sample_export_path 5
      sample_empty_world).map (fun result => result.1) = some 1
    ∧ (export_handle_export_file_entry (sample_tree sample_data) sample_export_path 5
        sample_empty_world).map
          (fun result => file_system_lookup result.2.file_system sample_file1_path)
        = some (some (file_node_t.file sample_data))
    ∧ (export_handle_export_file_entry (sample_tree sample_data) sample_export_path 5
        sample_empty_world).map
          (fun result => file_system_lookup result.2.file_system sample_file2_path)
        = some (some (file_node_t.file [])) := by
  have h := export_tree_to_new_directory sample_data sample_empty_world sample_data_length
    rfl rfl rfl rfl
  exact ⟨h.1, h.2.2.2.1, h.2.2.2.2⟩

/-! ## The strides of a walk and the runs of names -/

theorem to_off64_of_small (value : Nat) (hsmall : value < 2 ^ 63) :
    to_off64 value = (value : Int) := by
  unfold to_off64
  have hmod : value % 2 ^ 64 = value := Nat.mod_eq_of_lt (by omega)
  rw [hmod, if_pos hsmall]

theorem memory_compare_differs (last filename : List Int) :
    (last.length ≠ filename.length ∨ memory_compare last filename filename.length ≠ 0)
      ↔ last ≠ filename := by
  unfold memory_compare
  constructor
  · rintro (hlength | hcompare) hsame
    · exact hlength (by rw [hsame])
    · rw [hsame] at hcompare
      simp at hcompare
  · intro hdiffers
    by_cases hlength : last.length = filename.length
    · right
      rw [← hlength, List.take_length, hlength, List.take_length, if_neg hdiffers]
      decide
    · exact Or.inl hlength

theorem stride_count_of_done (start last input_chunk_size : Nat) (hdone : ¬ start < last) :
    stride_count start last input_chunk_size = 0 := by
  unfold stride_count
  have hzero : last - start = 0 := by omega
  rw [hzero, Nat.zero_add]
  rcases Nat.eq_zero_or_pos input_chunk_size with h | h
  · rw [h]
  · exact Nat.div_eq_of_lt (by omega)

theorem stride_count_step (start last input_chunk_size : Nat) (hleft : start < last)
    (hchunk : 0 < input_chunk_size) :
    stride_count start last input_chunk_size
      = stride_count (start + input_chunk_size) last input_chunk_size + 1 := by
  unfold stride_count
  by_cases hnext : start + input_chunk_size < last
  · have hsplit : last - start + input_chunk_size - 1
        = (last - (start + input_chunk_size) + input_chunk_size - 1) + input_chunk_size := by
      omega
    rw [hsplit, Nat.add_div_right _ hchunk]
  · have hzero : last - (start + input_chunk_size) = 0 := by omega
    rw [hzero, Nat.zero_add, Nat.div_eq_of_lt (by omega : input_chunk_size - 1 < input_chunk_size)]
    have hone : last - start + input_chunk_size - 1 = (last - start - 1) + input_chunk_size := by
      omega
    rw [hone, Nat.add_div_right _ hchunk, Nat.div_eq_of_lt (by omega)]

theorem stride_offsets_of_done (start last input_chunk_size : Nat) (hdone : ¬ start < last) :
    stride_offsets start last input_chunk_size = [] := by
  unfold stride_offsets
  rw [stride_count_of_done start last input_chunk_size hdone]
  rfl

theorem stride_offsets_step (start last input_chunk_size : Nat) (hleft : start < last)
    (hchunk : 0 < input_chunk_size) :
    stride_offsets start last input_chunk_size
      = start :: stride_offsets (start + input_chunk_size) last input_chunk_size := by
  unfold stride_offsets
  rw [stride_count_step start last input_chunk_size hleft hchunk, List.range_succ_eq_map,
    List.map_cons, List.map_map]
  congr 1
  · simp
  · apply List.map_congr_left
    intro stride _
    simp only [Function.comp]
    rw [Nat.succ_mul]
    omega

theorem stride_offsets_below (input_chunk_size last : Nat) (hchunk : 0 < input_chunk_size) :
    ∀ (count start : Nat), stride_count start last input_chunk_size = count →
      ∀ offset ∈ stride_offsets start last input_chunk_size, start ≤ offset ∧ offset < last := by
  intro count
  induction count with
  | zero =>
    intro start hcount offset hmember
    unfold stride_offsets at hmember
    rw [hcount] at hmember
    simp at hmember
  | succ count ih =>
    intro start hcount offset hmember
    have hleft : start < last := by
      by_contra hdone
      rw [stride_count_of_done start last input_chunk_size hdone] at hcount
      omega
    rw [stride_offsets_step start last input_chunk_size hleft hchunk] at hmember
    rcases List.mem_cons.mp hmember with hhead | htail
    · omega
    · have hrest := ih (start + input_chunk_size)
        (by rw [stride_count_step start last input_chunk_size hleft hchunk] at hcount; omega)
        offset htail
      omega

theorem collapse_runs_cons (name : List Int) (rest : List (List Int)) :
    collapse_runs (name :: rest) = name :: collapse_after (some name) rest := by
  induction rest generalizing name with
  | nil => rfl
  | cons next rest ih =>
    rw [collapse_runs, collapse_after]
    by_cases hsame : name = next
    · rw [if_pos hsame, if_pos (by rw [hsame]), ih next, hsame]
    · rw [if_neg hsame, if_neg (by simpa using hsame), ih next]

theorem collapse_after_none (names : List (List Int)) :
    collapse_after none names = collapse_runs names := by
  cases names with
  | nil => rfl
  | cons name rest =>
    rw [collapse_after, if_neg (by simp), collapse_runs_cons]

theorem collapse_after_differs (names : List (List Int)) :
    ∀ last_filename : Option (List Int),
      (∀ first ∈ (collapse_after last_filename names).head?, last_filename ≠ some first)
      ∧ List.Chain' (fun name next => name ≠ next) (collapse_after last_filename names) := by
  induction names with
  | nil =>
    intro last_filename
    simp [collapse_after]
  | cons name rest ih =>
    intro last_filename
    rw [collapse_after]
    by_cases hsame : last_filename = some name
    · rw [if_pos hsame]
      exact ih last_filename
    · rw [if_neg hsame]
      refine ⟨?_, ?_⟩
      · intro first hfirst
        simp only [List.head?_cons, Option.mem_def, Option.some.injEq] at hfirst
        rw [← hfirst]
        exact hsame
      · rw [List.chain'_cons']
        refine ⟨?_, (ih (some name)).2⟩
        intro next hnext hequal
        exact (ih (some name)).1 next hnext (by rw [hequal])

/-! ## The walk over the bytes of a range -/

theorem checksum_error_walk_complete (lib : checksum_errors_answers_t)
    (input_chunk_size last_sector : Nat) (hchunk : 0 < input_chunk_size)
    (hlast : last_sector + input_chunk_size ≤ 2 ^ 64)
    (hprobes : ∀ value : Nat, value < last_sector →
      lib.seek_offset (to_off64 value) ≠ -1 ∧ lib.get_filename_size (to_off64 value) = 1
      ∧ lib.memory_allocate (to_off64 value) = true ∧ lib.get_filename (to_off64 value) = 1) :
    ∀ (rounds start_sector : Nat) (last_filename : Option (List Int))
      (line : checksum_error_line_t),
      stride_count start_sector last_sector input_chunk_size ≤ rounds →
      checksum_error_walk lib input_chunk_size last_sector rounds start_sector last_filename
          line
        = some (1,
            { line with
              probed :=
                line.probed
                  ++ (stride_offsets start_sector last_sector input_chunk_size).map to_off64,
              printed :=
                line.printed
                  ++ collapse_after last_filename
                      ((stride_offsets start_sector last_sector input_chunk_size).map
                        (fun offset => lib.filename (to_off64 offset))) }) := by
  intro rounds
  induction rounds with
  | zero =>
    intro start_sector last_filename line hrounds
    have hdone : ¬ start_sector < last_sector := by
      intro hleft
      rw [stride_count_step start_sector last_sector input_chunk_size hleft hchunk] at hrounds
      omega
    rw [checksum_error_walk, if_neg hdone,
      stride_offsets_of_done start_sector last_sector input_chunk_size hdone]
    simp [collapse_after]
  | succ rounds ih =>
    intro start_sector last_filename line hrounds
    by_cases hleft : start_sector < last_sector
    · have hnext : (start_sector + input_chunk_size) % 2 ^ 64
          = start_sector + input_chunk_size := Nat.mod_eq_of_lt (by omega)
      have hcount : stride_count (start_sector + input_chunk_size) last_sector
          input_chunk_size ≤ rounds := by
        rw [stride_count_step start_sector last_sector input_chunk_size hleft hchunk]
          at hrounds
        omega
      obtain ⟨hseek, hsize, halloc, hname⟩ := hprobes start_sector hleft
      rw [checksum_error_walk, if_pos hleft]
      simp only [hseek, hsize, halloc, hname, hnext]
      rw [stride_offsets_step start_sector last_sector input_chunk_size hleft hchunk]
      cases last_filename with
      | none =>
        simp only [ne_eq, not_true_eq_false, if_false, Bool.true_eq_false]
        rw [ih _ _ _ hcount]
        simp [collapse_after]
      | some last =>
        simp only [ne_eq, not_true_eq_false, if_false, Bool.true_eq_false]
        by_cases hdiffers : last ≠ lib.filename (to_off64 start_sector)
        · have hcondition := (memory_compare_differs last
            (lib.filename (to_off64 start_sector))).mpr hdiffers
          rw [if_pos hcondition, ih _ _ _ hcount]
          have hcarry : ¬ (some last = some (lib.filename (to_off64 start_sector))) := by
            simpa using hdiffers
          simp [collapse_after, hcarry]
        · have hcondition : ¬ (last.length ≠ (lib.filename (to_off64 start_sector)).length
              ∨ memory_compare last (lib.filename (to_off64 start_sector))
                (lib.filename (to_off64 start_sector)).length ≠ 0) := fun h =>
            hdiffers ((memory_compare_differs last
              (lib.filename (to_off64 start_sector))).mp h)
          rw [if_neg hcondition, ih _ _ _ hcount]
          have hsame : last = lib.filename (to_off64 start_sector) := by
            simpa using hdiffers
          simp [collapse_after, hsame]
    · rw [checksum_error_walk, if_neg hleft,
        stride_offsets_of_done start_sector last_sector input_chunk_size hleft]
      simp [collapse_after]

theorem stride_count_covers (start last input_chunk_size : Nat)
    (hchunk : 0 < input_chunk_size) :
    last ≤ start + stride_count start last input_chunk_size * input_chunk_size := by
  unfold stride_count
  have hsplit := Nat.div_add_mod (last - start + input_chunk_size - 1) input_chunk_size
  have hrest := Nat.mod_lt (last - start + input_chunk_size - 1) hchunk
  rw [Nat.mul_comm] at hsplit
  omega

theorem checksum_error_line_of_walk (lib : checksum_errors_answers_t)
    (export_handle : export_handle_t) (checksum_error : Nat × Nat)
    (hchunk : 0 < export_handle.input_chunk_size)
    (hbytes : (checksum_error.1 + checksum_error.2) * export_handle.bytes_per_sector
      ≤ 2 ^ 63) :
    ({ start_sector := checksum_error.1,
       last_sector := checksum_error.1 + checksum_error.2,
       number_of_sectors := checksum_error.2,
       probed :=
         [] ++ (stride_offsets (checksum_error.1 * export_handle.bytes_per_sector)
           ((checksum_error.1 + checksum_error.2) * export_handle.bytes_per_sector)
           export_handle.input_chunk_size).map to_off64,
       printed :=
         [] ++ collapse_after none
           ((stride_offsets (checksum_error.1 * export_handle.bytes_per_sector)
             ((checksum_error.1 + checksum_error.2) * export_handle.bytes_per_sector)
             export_handle.input_chunk_size).map
             (fun offset => lib.filename (to_off64 offset))) } : checksum_error_line_t)
      = checksum_error_line lib export_handle checksum_error := by
  have hbelow := stride_offsets_below export_handle.input_chunk_size
    ((checksum_error.1 + checksum_error.2) * export_handle.bytes_per_sector) hchunk _
    (checksum_error.1 * export_handle.bytes_per_sector) rfl
  have hoffsets : (stride_offsets (checksum_error.1 * export_handle.bytes_per_sector)
      ((checksum_error.1 + checksum_error.2) * export_handle.bytes_per_sector)
      export_handle.input_chunk_size).map to_off64
      = (stride_offsets (checksum_error.1 * export_handle.bytes_per_sector)
          ((checksum_error.1 + checksum_error.2) * export_handle.bytes_per_sector)
          export_handle.input_chunk_size).map (fun offset => Int.ofNat offset) := by
    apply List.map_congr_left
    intro offset hmember
    exact to_off64_of_small offset (by have := (hbelow offset hmember).2; omega)
  have hnames : (stride_offsets (checksum_error.1 * export_handle.bytes_per_sector)
      ((checksum_error.1 + checksum_error.2) * export_handle.bytes_per_sector)
      export_handle.input_chunk_size).map (fun offset => lib.filename (to_off64 offset))
      = (stride_offsets (checksum_error.1 * export_handle.bytes_per_sector)
          ((checksum_error.1 + checksum_error.2) * export_handle.bytes_per_sector)
          export_handle.input_chunk_size).map (fun offset => lib.filename (Int.ofNat offset)) := by
    apply List.map_congr_left
    intro offset hmember
    rw [to_off64_of_small offset (by have := (hbelow offset hmember).2; omega)]
    rfl
  unfold checksum_error_line
  rw [hoffsets, hnames, collapse_after_none, List.nil_append, List.nil_append]

theorem checksum_errors_loop_complete (lib : checksum_errors_answers_t) (rounds : Nat)
    (export_handle : export_handle_t)
    (hchunk : 0 < export_handle.input_chunk_size)
    (hchunk_size : export_handle.input_chunk_size < 2 ^ 32)
    (hretrieved : ∀ index < (input_checksum_errors export_handle).length,
      lib.get_checksum_error index = 1)
    (hranges : ∀ checksum_error ∈ input_checksum_errors export_handle,
      (checksum_error.1 + checksum_error.2) * export_handle.bytes_per_sector ≤ 2 ^ 63
      ∧ checksum_error.1 + checksum_error.2 < 2 ^ 64
      ∧ stride_count (checksum_error.1 * export_handle.bytes_per_sector)
          ((checksum_error.1 + checksum_error.2) * export_handle.bytes_per_sector)
          export_handle.input_chunk_size ≤ rounds)
    (hprobes : ∀ checksum_error ∈ input_checksum_errors export_handle, ∀ value : Nat,
      value < (checksum_error.1 + checksum_error.2) * export_handle.bytes_per_sector →
      lib.seek_offset (to_off64 value) ≠ -1 ∧ lib.get_filename_size (to_off64 value) = 1
      ∧ lib.memory_allocate (to_off64 value) = true ∧ lib.get_filename (to_off64 value) = 1) :
    ∀ (remaining error_iterator : Nat) (lines : List checksum_error_line_t),
      error_iterator + remaining ≤ (input_checksum_errors export_handle).length →
      checksum_errors_loop lib rounds export_handle remaining error_iterator 1 lines
        = some (1,
            lines
              ++ (((input_checksum_errors export_handle).drop error_iterator).take
                    remaining).map (checksum_error_line lib export_handle)) := by
  intro remaining
  induction remaining with
  | zero =>
    intro error_iterator lines _
    simp [checksum_errors_loop]
  | succ remaining ih =>
    intro error_iterator lines hlength
    have hindex : error_iterator < (input_checksum_errors export_handle).length := by omega
    have hentry : (input_checksum_errors export_handle).getD error_iterator (0, 0)
        = (input_checksum_errors export_handle)[error_iterator] := by
      rw [List.getD_eq_getElem?_getD, List.getElem?_eq_getElem hindex]
      rfl
    obtain ⟨hbytes, hsectors, hcount⟩ :=
      hranges _ (List.getElem_mem hindex)
    have hprobe := hprobes _ (List.getElem_mem hindex)
    generalize (input_checksum_errors export_handle)[error_iterator] = checksum_error
      at hentry hbytes hsectors hcount hprobe
    have hdrop : (input_checksum_errors export_handle).drop error_iterator
        = checksum_error :: (input_checksum_errors export_handle).drop (error_iterator + 1) := by
      rw [List.drop_eq_getElem_cons hindex]
      congr 1
      rw [← hentry, List.getD_eq_getElem?_getD, List.getElem?_eq_getElem hindex]
      rfl
    have hstart : checksum_error.1 % 2 ^ 64 = checksum_error.1 :=
      Nat.mod_eq_of_lt (by omega)
    have hnumber : checksum_error.2 % 2 ^ 64 = checksum_error.2 :=
      Nat.mod_eq_of_lt (by omega)
    have hlast : (checksum_error.1 + checksum_error.2) % 2 ^ 64
        = checksum_error.1 + checksum_error.2 := Nat.mod_eq_of_lt hsectors
    have hlast_bytes : ((checksum_error.1 + checksum_error.2)
        * export_handle.bytes_per_sector) % 2 ^ 64
        = (checksum_error.1 + checksum_error.2) * export_handle.bytes_per_sector :=
      Nat.mod_eq_of_lt (by omega)
    have hle : checksum_error.1 * export_handle.bytes_per_sector
        ≤ (checksum_error.1 + checksum_error.2) * export_handle.bytes_per_sector :=
      Nat.mul_le_mul_right _ (Nat.le_add_right _ _)
    have hstart_bytes : (checksum_error.1 * export_handle.bytes_per_sector) % 2 ^ 64
        = checksum_error.1 * export_handle.bytes_per_sector :=
      Nat.mod_eq_of_lt (by omega)
    rw [checksum_errors_loop]
    simp only [hretrieved error_iterator hindex, hentry, if_true, hstart, hnumber, hlast,
      hlast_bytes, hstart_bytes]
    rw [checksum_error_walk_complete lib export_handle.input_chunk_size _ hchunk (by omega)
      hprobe rounds _ none _ hcount]
    simp only [ne_eq, not_true_eq_false, if_false]
    rw [checksum_error_line_of_walk lib export_handle checksum_error hchunk hbytes,
      ih (error_iterator + 1) _ (by omega), hdrop, List.take_succ_cons, List.map_cons,
      List.append_assoc, List.singleton_append]

/-! ## C28: the lines of the checksum errors -/

/-- C28: with an input whose recorded checksum errors are retrieved, a chunk size above 0,
byte offsets that fit off64_t, and a container that answers with success at every offset
below the last byte of a range, export_handle_checksum_errors_fprint returns 1 once the
rounds suffice, and the line of every recorded range (start, count) has the offsets
start * bytes_per_sector, plus input_chunk_size, and so on, strictly below
(start + count) * bytes_per_sector, and as names the names at these offsets with every run
of equal names collapsed to one: no two adjacent printed names are equal, and every range
starts its runs anew. -/
theorem checksum_errors_lines (lib : checksum_errors_answers_t) (rounds : Nat)
    (export_handle : export_handle_t) (input : libewf_handle_t)
    (hinput : export_handle.input_handle = some input)
    (hnumber : lib.get_number_of_checksum_errors = 1)
    (hledger : input.checksum_errors.length < 2 ^ 32)
    (hchunk : 0 < export_handle.input_chunk_size)
    (hchunk_size : export_handle.input_chunk_size < 2 ^ 32)
    (hretrieved : ∀ index < input.checksum_errors.length, lib.get_checksum_error index = 1)
    (hranges : ∀ checksum_error ∈ input.checksum_errors,
      (checksum_error.1 + checksum_error.2) * export_handle.bytes_per_sector ≤ 2 ^ 63
      ∧ checksum_error.1 + checksum_error.2 < 2 ^ 64
      ∧ stride_count (checksum_error.1 * export_handle.bytes_per_sector)
          ((checksum_error.1 + checksum_error.2) * export_handle.bytes_per_sector)
          export_handle.input_chunk_size ≤ rounds)
    (hprobes : ∀ checksum_error ∈ input.checksum_errors, ∀ value : Nat,
      value < (checksum_error.1 + checksum_error.2) * export_handle.bytes_per_sector →
      lib.seek_offset (to_off64 value) ≠ -1 ∧ lib.get_filename_size (to_off64 value) = 1
      ∧ lib.memory_allocate (to_off64 value) = true
      ∧ lib.get_filename (to_off64 value) = 1) :
    export_handle_checksum_errors_fprint lib rounds export_handle
      = some (1, input.checksum_errors.map (checksum_error_line lib export_handle))
    ∧ ∀ checksum_error ∈ input.checksum_errors,
        List.Chain' (fun name next => name ≠ next)
          (checksum_error_line lib export_handle checksum_error).printed
        ∧ (∀ offset ∈ stride_offsets (checksum_error.1 * export_handle.bytes_per_sector)
              ((checksum_error.1 + checksum_error.2) * export_handle.bytes_per_sector)
              export_handle.input_chunk_size,
            checksum_error.1 * export_handle.bytes_per_sector ≤ offset
            ∧ offset < (checksum_error.1 + checksum_error.2) * export_handle.bytes_per_sector)
        ∧ (checksum_error.1 + checksum_error.2) * export_handle.bytes_per_sector
            ≤ checksum_error.1 * export_handle.bytes_per_sector
              + (stride_offsets (checksum_error.1 * export_handle.bytes_per_sector)
                  ((checksum_error.1 + checksum_error.2) * export_handle.bytes_per_sector)
                  export_handle.input_chunk_size).length
                * export_handle.input_chunk_size := by
  have hrecorded : input_checksum_errors export_handle = input.checksum_errors := by
    unfold input_checksum_errors
    rw [hinput]
  refine ⟨?_, ?_⟩
  · unfold export_handle_checksum_errors_fprint
    rw [hinput]
    have hanswer : ¬ ((1 : Int) = -1) := by decide
    simp only [hnumber, hanswer, if_true, if_false, Nat.mod_eq_of_lt hledger]
    by_cases hempty : input.checksum_errors.length > 0
    · rw [if_pos hempty,
        checksum_errors_loop_complete lib rounds export_handle hchunk hchunk_size
          (by rw [hrecorded]; exact hretrieved) (by rw [hrecorded]; exact hranges)
          (by rw [hrecorded]; exact hprobes) _ 0 []
          (by rw [hrecorded]; omega),
        hrecorded, List.drop_zero, List.take_length, List.nil_append]
    · rw [if_neg hempty]
      have hnil : input.checksum_errors = [] := List.length_eq_zero.mp (by omega)
      rw [hnil]
      rfl
  · intro checksum_error _
    refine ⟨?_, ?_, ?_⟩
    · unfold checksum_error_line
      simp only []
      rw [← collapse_after_none]
      exact (collapse_after_differs _ none).2
    · exact stride_offsets_below export_handle.input_chunk_size _ hchunk _ _ rfl
    · unfold stride_offsets
      rw [List.length_map, List.length_range]
      exact stride_count_covers _ _ _ hchunk

/-- C28 at sectors of 512 bytes, chunks of 1024 bytes and the ranges (1, 5) and (5, 1) of a
container whose second segment file starts at byte 2048: the first line has the offsets 512,
1536 and 2560 and the names "a.E01" and "a.E02", the second the offset 2560 and the name
"a.E02" again. -/
theorem checksum_errors_lines_witness :
    export_handle_checksum_errors_fprint sample_checksum_errors_answers 3
        sample_checksum_errors_session
      = some (1,
          [{ start_sector := 1, last_sector := 6, number_of_sectors := 5,
             probed := [512, 1536, 2560],
             printed := [sample_first_segment, sample_second_segment] },
           { start_sector := 5, last_sector := 6, number_of_sectors := 1,
             probed := [2560], printed := [sample_second_segment] }]) := by
  have h := (checksum_errors_lines sample_checksum_errors_answers 3
    sample_checksum_errors_session
    { sample_input with checksum_errors := [(1, 5), (5, 1)] } rfl rfl (by decide)
    (by decide) (by decide) (fun _ _ => rfl) (by decide)
    (by
      intro checksum_error hmember value hvalue
      have hsmall : value < 2 ^ 63 := by
        have hcases : checksum_error = (1, 5) ∨ checksum_error = (5, 1) := by
          simpa using hmember
        have hbytes : sample_checksum_errors_session.bytes_per_sector = 512 := rfl
        rw [hbytes] at hvalue
        rcases hcases with h | h <;> rw [h] at hvalue <;> simp at hvalue <;> omega
      refine ⟨?_, rfl, rfl, rfl⟩
      have hsought : sample_checksum_errors_answers.seek_offset (to_off64 value)
          = to_off64 value := rfl
      rw [hsought, to_off64_of_small value hsmall]
      omega)).1
  rw [h]
  decide

/-! ## C29: the number of strides of a walk -/

end ExportHandle
